import Mathlib

/-! # AD9250 driver: register access engine and shadow registers

A shallow embedding of the register access layer of
`drivers/adc/ad9250/ad9250.c` (`ad9250_read`, `ad9250_write`,
`ad9250_transfer`, `ad9250_soft_reset`, `ad9250_set_bits_to_reg`,
`ad9250_is_shadow_register`), of the feature accessors built on it and of the
device set-up (`ad9250_setup`, `ad9250_jesd204b_setup`,
`ad9250_fast_detect_setup`), together with the properties proved about them.

C integers are modelled by `Int` (signed values) and `Nat` (bit patterns of
unsigned objects); every store into a fixed-width object reduces modulo
`2^w` explicitly.  The SPI transport is a parameter: an arbitrary
deterministic state machine `Bus σ`.  The descriptor additionally carries
the history of the frames handed to the transport, which the driver never
reads; it only serves to state properties about bus traffic.
-/

namespace AD9250

/-! ## Fixed-width integer conversions -/

/-- Bit pattern of a value stored in a 32-bit object. -/
def u32 (x : Int) : Nat := (x % 4294967296).toNat

/-- Value of a 32-bit pattern read as `int32_t` (two's complement). -/
def i32 (n : Nat) : Int :=
  if n % 4294967296 < 2147483648 then (n % 4294967296 : Nat)
  else ((n % 4294967296 : Nat) : Int) - 4294967296

/-- Bit pattern of a value stored in a 16-bit object (`uint16_t`). -/
def u16 (x : Int) : Nat := (x % 65536).toNat

/-- Bit pattern of a value stored in an 8-bit object (`uint8_t`, `int8_t`). -/
def u8 (x : Int) : Nat := (x % 256).toNat

/-- Value of an 8-bit pattern read as `int8_t` (two's complement). -/
def i8 (n : Nat) : Int :=
  if n % 256 < 128 then (n % 256 : Nat) else ((n % 256 : Nat) : Int) - 256

/-- The C operator `&` on two `int32_t` operands. -/
def land32 (a b : Int) : Int := i32 (u32 a &&& u32 b)

/-- The C operator `~` on an `int` operand. -/
def not32 (a : Int) : Int := -a - 1

/-! ## Header constants (`ad9250.h`) -/

/-- Modelled from the spec: `ad9250.h` is not among the sources. The
direction flag of the 16-bit command word, "high bits select read(1)/write(0)
direction": `#define AD9250_READ (1 << 15)`. -/
def AD9250_READ : Int := 32768

/-- Modelled from the spec: `ad9250.h` is not among the sources. Write
direction, `#define AD9250_WRITE (0 << 15)`. -/
def AD9250_WRITE : Int := 0

/-- Modelled from the spec: `ad9250.h` is not among the sources. The numeric
address sub-field of an encoded register address (the low eight bits),
`#define AD9250_ADDR(x) ((x) & 0xFF)`. -/
def AD9250_ADDR (x : Int) : Int := land32 x 0xFF

/-- Modelled from the spec: `ad9250.h` is not among the sources. The transfer
length sub-field of an encoded register address (bits 8-15),
`#define AD9250_TRANSF_LEN(x) (((x) >> 8) & 0xFF)`. -/
def AD9250_TRANSF_LEN (x : Int) : Int := land32 (x >>> (8 : Nat)) 0xFF

/-- Modelled from the spec: `ad9250.h` is not among the sources. Places a
shadow index in bits 16-23 of an encoded register address,
`#define SHADOW(x) ((x) << 16)`. -/
def SHADOW (x : Int) : Int := x * 65536

/-- Modelled from the spec: `ad9250.h` is not among the sources. One-byte
register marker, `#define AD9250_R1B (1 << 8)`. -/
def AD9250_R1B : Int := 256

/-- Modelled from the spec: `ad9250.h` is not among the sources. Number of
entries of the shadow table; the initialiser of the constant table
`shadow_regs` in `ad9250.c` has fifteen entries. -/
def SHADOW_REGISTER_COUNT : Nat := 15

/-- Modelled from the spec: `ad9250.h` is not among the sources. The SPI
configuration register, one byte at address 0x00, not shadowed. -/
def AD9250_REG_SPI_CFG : Int := 256

/-- Modelled from the spec: `ad9250.h` is not among the sources. The
device-update register, one byte at address 0xFF, not shadowed. -/
def AD9250_REG_DEVICE_UPDATE : Int := 511

/-- Modelled from the spec: `ad9250.h` is not among the sources. The
reset-command bits of the SPI configuration register,
`((1 << 5) | (1 << 2))`. -/
def AD9250_SPI_CFG_SOFT_RST : Int := 36

/-- Modelled from the spec: `ad9250.h` is not among the sources. The
software-update command bit, `(1 << 0)`. -/
def AD9250_DEVICE_UPDATE_SW : Int := 1

/-! ## Transport and device handle -/

/-- One call of the transport: the buffer as handed over and the byte count. -/
structure Xfer where
  data : List Nat
  bytes_number : Nat
deriving DecidableEq, Repr

/-- Behaviour of the SPI transport: from its current state, the buffer and the
byte count to the status code, the buffer as overwritten, and the next state. -/
structure Bus (σ : Type) where
  write_and_read : σ → List Nat → Nat → Int × List Nat × σ

/-- The SPI descriptor: the state of the transport and the history of the
calls made through it. -/
structure no_os_spi_desc (σ : Type) where
  state : σ
  sent : List Xfer

/-- The device handle, `struct ad9250_dev`: the transport descriptor and the
shadow register table. -/
structure ad9250_dev (σ : Type) where
  spi_desc : no_os_spi_desc σ
  shadow_regs : List Int

/-- The call `no_os_spi_write_and_read(desc, data, bytes_number)`: one
exchange on the transport. Returns the status, the buffer as overwritten and
the descriptor afterwards. -/
def no_os_spi_write_and_read {σ : Type} (bus : Bus σ) (desc : no_os_spi_desc σ)
    (data : List Nat) (bytes_number : Nat) : Int × List Nat × no_os_spi_desc σ :=
  let r := bus.write_and_read desc.state data bytes_number
  (r.1, r.2.1, { state := r.2.2, sent := desc.sent ++ [⟨data, bytes_number⟩] })

/-! ## The driver functions -/

/-- The constant table `shadow_regs` of `ad9250.c`. -/
def shadow_regs : List Int :=
  [0, 0x01, 0x00, 0x00, 0x00, 0x00, 0x01, 0x00, 0x00, 0x00, 0x00, 0x00, 0x00, 0x00, 0x00]

/-- Shadow index of a register, `ad9250_is_shadow_register`:
`((SHADOW(0xFF) & register_address) >> 16)`. -/
def ad9250_is_shadow_register (register_address : Int) : Int :=
  (land32 (SHADOW 0xFF) register_address) >>> (16 : Nat)

/-- The `for` loop of `ad9250_read`. The first argument counts the iterations
still to run (`AD9250_TRANSF_LEN(register_address) - i`); `reg_address` and
`reg_value` are the `uint32_t` locals. The base case is the `return reg_value`
after the loop (conversion to `int32_t`). -/
def ad9250_read_loop {σ : Type} (bus : Bus σ) :
    Nat → Nat → Nat → ad9250_dev σ → Int × ad9250_dev σ
  | 0, _, reg_value, dev => (i32 reg_value, dev)
  | k + 1, reg_address, reg_value, dev =>
    let buffer : List Nat :=
      [((reg_address &&& 0xFF00) >>> 8) % 256, (reg_address &&& 0x00FF) % 256, 0]
    let r := no_os_spi_write_and_read bus dev.spi_desc buffer 3
    let dev1 : ad9250_dev σ := { dev with spi_desc := r.2.2 }
    if r.1 = -1 then (r.1, dev1)
    else
      ad9250_read_loop bus k ((reg_address + 4294967295) % 4294967296)
        (((reg_value <<< 8) % 4294967296) ||| (r.2.1.getD 2 0 % 256)) dev1

/-- Reads the value of the selected register, `ad9250_read`. -/
def ad9250_read {σ : Type} (bus : Bus σ) (dev : ad9250_dev σ)
    (register_address : Int) : Int × ad9250_dev σ :=
  ad9250_read_loop bus (AD9250_TRANSF_LEN register_address).toNat
    (u32 (AD9250_READ + AD9250_ADDR register_address)) 0 dev

/-- The `for` loop of `ad9250_write`. The first argument counts the iterations
still to run, `i` is the loop counter, `reg_address` the `uint16_t` local and
`ret` the status so far. The base case is the `return ret` after the loop. -/
def ad9250_write_loop {σ : Type} (bus : Bus σ) (register_address register_value : Int) :
    Nat → Nat → Nat → Int → ad9250_dev σ → Int × ad9250_dev σ
  | 0, _, _, ret, dev => (ret, dev)
  | k + 1, i, reg_address, _, dev =>
    let reg_value : Int :=
      i8 (u32 (land32
        (register_value >>> ((AD9250_TRANSF_LEN register_address - i - 1) * 8).toNat) 0xFF))
    let tx_buffer : List Nat :=
      [((reg_address &&& 0xFF00) >>> 8) % 256, (reg_address &&& 0x00FF) % 256, u8 reg_value]
    let r := no_os_spi_write_and_read bus dev.spi_desc tx_buffer 3
    let dev1 : ad9250_dev σ := { dev with spi_desc := r.2.2 }
    if r.1 = -1 then (r.1, dev1)
    else ad9250_write_loop bus register_address register_value k (i + 1)
      ((reg_address + 65535) % 65536) r.1 dev1

/-- Writes a value to the selected register, `ad9250_write`. -/
def ad9250_write {σ : Type} (bus : Bus σ) (dev : ad9250_dev σ)
    (register_address register_value : Int) : Int × ad9250_dev σ :=
  let ret := ad9250_is_shadow_register register_address
  let dev1 : ad9250_dev σ :=
    if ret > 0 then { dev with shadow_regs := dev.shadow_regs.set ret.toNat register_value }
    else dev
  ad9250_write_loop bus register_address register_value
    (AD9250_TRANSF_LEN register_address).toNat 0
    (u16 (AD9250_WRITE + AD9250_ADDR register_address)) ret dev1

/-- The `do ... while` loop of `ad9250_transfer`; the first argument is the
value of `timeout` on entry to the body. The loop is entered with `0xFFFF` and
re-entered only while `timeout != 0`, so the case `0` does not arise. -/
def ad9250_transfer_loop {σ : Type} (bus : Bus σ) :
    Nat → ad9250_dev σ → Int × ad9250_dev σ
  | 0, dev => (0, dev)
  | timeout + 1, dev =>
    let r := ad9250_read bus dev AD9250_REG_DEVICE_UPDATE
    if r.1 = -1 then r
    else
      let sw_bit : Int := i8 (u32 (land32 r.1 AD9250_REG_DEVICE_UPDATE))
      if sw_bit = 1 ∧ timeout ≠ 0 then ad9250_transfer_loop bus timeout r.2
      else (0, r.2)

/-- Initiates a transfer and waits for the operation to end, `ad9250_transfer`. -/
def ad9250_transfer {σ : Type} (bus : Bus σ) (dev : ad9250_dev σ) : Int × ad9250_dev σ :=
  let w := ad9250_write bus dev AD9250_REG_DEVICE_UPDATE AD9250_DEVICE_UPDATE_SW
  if w.1 = -1 then w
  else ad9250_transfer_loop bus 0xFFFF w.2

/-- The `do ... while` loop of `ad9250_soft_reset`; the first argument is the
value of `timeout` on entry to the body. The loop is entered with `0xFFFF` and
re-entered only while `timeout != 0`, so the case `0` does not arise. -/
def ad9250_soft_reset_loop {σ : Type} (bus : Bus σ) :
    Nat → Int → ad9250_dev σ → Int × ad9250_dev σ
  | 0, ret, dev => (ret, dev)
  | timeout + 1, _, dev =>
    let r := ad9250_read bus dev AD9250_REG_SPI_CFG
    if r.1 = -1 then r
    else if land32 r.1 AD9250_SPI_CFG_SOFT_RST ≠ 0 ∧ timeout ≠ 0 then
      ad9250_soft_reset_loop bus timeout r.1 r.2
    else r

/-- Resets all registers to their default values, `ad9250_soft_reset`. -/
def ad9250_soft_reset {σ : Type} (bus : Bus σ) (dev : ad9250_dev σ) : Int × ad9250_dev σ :=
  let w := ad9250_write bus dev AD9250_REG_SPI_CFG AD9250_SPI_CFG_SOFT_RST
  if w.1 = -1 then w
  else ad9250_soft_reset_loop bus 0xFFFF w.1 w.2

/-- The first block of `ad9250_set_bits_to_reg`: the current value of the
register, taken from the shadow table for a shadowed register and from
`ad9250_read` otherwise. The status is `-1` when the function returns early
with the error of `ad9250_read`; otherwise the second component is the
`uint8_t` local `reg_value`. -/
def readOrShadow {σ : Type} (bus : Bus σ) (dev : ad9250_dev σ)
    (register_address : Int) : Int × Nat × ad9250_dev σ :=
  let ret := ad9250_is_shadow_register (i32 (u32 register_address))
  if ret > 0 then (ret, u8 (dev.shadow_regs.getD ret.toNat 0), dev)
  else
    let r := ad9250_read bus dev (i32 (u32 register_address))
    if r.1 = -1 then (r.1, 0, r.2)
    else (r.1, u8 r.1, r.2)

/-- Sets a bit or group of bits inside a register, `ad9250_set_bits_to_reg`.
The parameter `register_address` is a `uint32_t`, converted to `int32_t` where
it is passed on. -/
def ad9250_set_bits_to_reg {σ : Type} (bus : Bus σ) (dev : ad9250_dev σ)
    (register_address : Int) (bits_value mask : Nat) : Int × ad9250_dev σ :=
  let c := readOrShadow bus dev register_address
  if c.1 = -1 then (c.1, c.2.2)
  else
    let reg_value : Nat := u8 (land32 c.2.1 (not32 mask))
    let reg_value : Nat := u8 (reg_value ||| bits_value : Nat)
    let w := ad9250_write bus c.2.2 (i32 (u32 register_address)) reg_value
    if w.1 = -1 then w
    else (0, w.2)

/-! ## Vocabulary for statements about bus traffic -/

/-- A three-byte frame: the 16-bit command word `cw` split high byte first
into bytes 0 and 1, then the data byte. -/
def frame (cw : Int) (data : Nat) : List Nat :=
  [(cw / 256 % 256).toNat, (cw % 256).toNat, data]

/-- The history entry of a frame handed to the transport with byte count 3. -/
def xfer3 (f : List Nat) : Xfer := ⟨f, 3⟩

/-- Outcomes (status, buffer as overwritten) of handing the frames `fs` to the
transport one after another, starting in state `s`. -/
def exchanges {σ : Type} (bus : Bus σ) : σ → List (List Nat) → List (Int × List Nat)
  | _, [] => []
  | s, f :: fs =>
    ((bus.write_and_read s f 3).1, (bus.write_and_read s f 3).2.1) ::
      exchanges bus (bus.write_and_read s f 3).2.2 fs

/-- State of the transport after the frames `fs` were handed to it one after
another, starting in state `s`. -/
def exchangesEnd {σ : Type} (bus : Bus σ) : σ → List (List Nat) → σ
  | s, [] => s
  | s, f :: fs => exchangesEnd bus (bus.write_and_read s f 3).2.2 fs

/-- The frames of a read of register `A`: one per byte, command word
`AD9250_READ + AD9250_ADDR(A) - i`, data byte zero. -/
def readFrames (A : Int) : List (List Nat) :=
  (List.range (AD9250_TRANSF_LEN A).toNat).map
    fun (i : Nat) => frame (AD9250_READ + AD9250_ADDR A - (i : Int)) 0

/-- The frames of a write of `V` to register `A`: one per byte, command word
`AD9250_WRITE + AD9250_ADDR(A) - i`, data byte `(V >> (8*(n-1-i))) & 0xFF`
for transfer length `n`. -/
def writeFrames (A V : Int) : List (List Nat) :=
  (List.range (AD9250_TRANSF_LEN A).toNat).map
    fun (i : Nat) => frame (AD9250_WRITE + AD9250_ADDR A - (i : Int))
      (V / 2 ^ (8 * ((AD9250_TRANSF_LEN A).toNat - 1 - i)) % 256).toNat

/-- The data byte returned by an exchange: byte 2 of the buffer. -/
def dataByte (r : Int × List Nat) : Nat := r.2.getD 2 0 % 256

/-- A transport stub that is a byte-addressed register file. A frame whose
command word has bit 15 set is a read frame: the data byte is replaced by the
byte stored at the frame's address (the command word without bit 15). Any
other frame is a write frame and stores its data byte at the frame's address.
Every exchange returns 0. -/
def regfile : Bus (Nat → Nat) where
  write_and_read := fun mem data _ =>
    let cw := data.getD 0 0 * 256 + data.getD 1 0
    if cw / 32768 % 2 = 1 then
      (0, [data.getD 0 0, data.getD 1 0, mem (cw % 32768)], mem)
    else
      (0, data, fun a => if a = cw % 32768 then data.getD 2 0 else mem a)

/-- A transport stub whose every exchange fails with -1 and leaves the buffer
untouched. -/
def deadBus : Bus Unit where
  write_and_read := fun _ data _ => (-1, data, ())

/-- A handle on the register-file stub with every byte zero and the shadow
table at its defaults. -/
def devRegfile : ad9250_dev (Nat → Nat) :=
  { spi_desc := { state := fun _ => 0, sent := [] }, shadow_regs := shadow_regs }

/-- A handle on the failing stub with the shadow table at its defaults. -/
def devDead : ad9250_dev Unit :=
  { spi_desc := { state := (), sent := [] }, shadow_regs := shadow_regs }

/-- The value `ad9250_set_bits_to_reg` writes back for a current register
value `c`: `((c mod 256) & ~mask & 0xFF) | bits_value`. -/
def setBitsValue (c : Int) (bits_value mask : Nat) : Nat :=
  ((c % 256).toNat &&& (255 - mask)) ||| bits_value

/-- A transport stub whose every exchange succeeds and leaves `v` in the data
byte of the buffer: a device whose registers all read back `v`. -/
def constBus (v : Nat) : Bus Unit where
  write_and_read := fun _ data _ => (0, [data.getD 0 0, data.getD 1 0, v], ())

/-- A handle on a constant-value stub with the shadow table at its defaults. -/
def devConst : ad9250_dev Unit :=
  { spi_desc := { state := (), sent := [] }, shadow_regs := shadow_regs }

/-- State of the staging stub: the active (readable) registers and the
staged values of the shadowed registers. -/
structure StagedDevice where
  active : Nat → Nat
  staged : Nat → Nat

/-- A transport stub for a device with shadowed registers; `shadowed a` tells
whether the device register at address `a` is shadowed. A read frame (bit 15
of the command word set) returns the active register, and 0 for the
device-update register at 0xFF, whose command bit clears at once. A write frame
to 0xFF with the software-update bit set copies the staged value of every
shadowed register to the active registers. Any other write frame stores its
data byte in the staged register if the address is shadowed and in the active
register otherwise. Every exchange returns 0. -/
def stagedBus (shadowed : Nat → Bool) : Bus StagedDevice where
  write_and_read := fun st data _ =>
    if (data.getD 0 0 * 256 + data.getD 1 0) / 32768 % 2 = 1 then
      (0, [data.getD 0 0, data.getD 1 0,
        if (data.getD 0 0 * 256 + data.getD 1 0) % 32768 = 255 then 0
        else st.active ((data.getD 0 0 * 256 + data.getD 1 0) % 32768)], st)
    else if (data.getD 0 0 * 256 + data.getD 1 0) % 32768 = 255 then
      if data.getD 2 0 % 2 = 1 then
        (0, data, { active := fun x => if shadowed x then st.staged x else st.active x,
                    staged := st.staged })
      else (0, data, st)
    else if shadowed ((data.getD 0 0 * 256 + data.getD 1 0) % 32768) then
      (0, data, { active := st.active,
                  staged := fun x =>
                    if x = (data.getD 0 0 * 256 + data.getD 1 0) % 32768 then data.getD 2 0
                    else st.staged x })
    else
      (0, data, { active := fun x =>
                    if x = (data.getD 0 0 * 256 + data.getD 1 0) % 32768 then data.getD 2 0
                    else st.active x,
                  staged := st.staged })

/-- The device addresses of the shadowed registers of the reference VREF
example: only address 0x18. -/
def shadowedVref (a : Nat) : Bool := a == 24

/-- A freshly initialised handle on the staging stub whose registers all hold
0x03. -/
def devStaged : ad9250_dev StagedDevice :=
  { spi_desc := { state := { active := fun _ => 3, staged := fun _ => 3 }, sent := [] },
    shadow_regs := shadow_regs }

/-! ## The feature accessors -/

/-- The C operator `|` on two `int32_t` operands. -/
def lor32 (a b : Int) : Int := i32 (u32 a ||| u32 b)

/-- The register addresses and bit-field macros of `ad9250.h` that the feature
accessors use. The header is not among the sources, so the accessors take
these macros as a parameter: a constant for an object-like macro, a function
for a function-like macro. -/
structure ad9250_h where
  AD9250_REG_CH_INDEX : Int
  AD9250_REG_PDWN : Int
  AD9250_REG_TEST : Int
  AD9250_REG_BIST : Int
  AD9250_REG_OFFSET : Int
  AD9250_REG_OUT_MODE : Int
  AD9250_REG_DCC_CTRL : Int
  AD9250_REG_204B_CTRL3 : Int
  AD9250_REG_204B_PARAM_K : Int
  AD9250_CH_INDEX_ADC_A : Int
  AD9250_CH_INDEX_ADC_B : Int
  AD9250_PDWN_CHIP : Int → Int
  AD9250_TEST_OUTPUT_TEST : Int → Int
  AD9250_TEST_RST_PN_SHOR : Int
  AD9250_TEST_RST_PN_LONG : Int
  AD9250_BIST_ENABLE : Int
  AD9250_BIST_RESET : Int
  AD9250_REG_OFFSET_ADJUST : Int → Int
  AD9250_OUT_MODE_DISABLE : Int
  AD9250_OUT_MODE_INVERT_DATA : Int
  AD9250_OUT_MODE_DATA_FORMAT : Int → Int
  AD9250_DCC_CTRL_DCC_EN : Int
  AD9250_DCC_CTRL_DCC_BW : Int → Int
  AD9250_DCC_CTRL_FREEZE_DCC : Int
  AD9250_204B_CTRL3_JESD_TEST_MODE : Int → Int

/-- Configures the power mode of the chip, `ad9250_chip_pwr_mode`. The local
`ret` is a `uint32_t`. -/
def ad9250_chip_pwr_mode {σ : Type} (h : ad9250_h) (bus : Bus σ) (dev : ad9250_dev σ)
    (mode : Int) : Int × ad9250_dev σ :=
  if mode ≥ 0 ∧ mode < 3 then
    let r := ad9250_set_bits_to_reg bus dev h.AD9250_REG_PDWN
      (u8 (h.AD9250_PDWN_CHIP mode)) (u8 (h.AD9250_PDWN_CHIP 0x3))
    (i32 (u32 r.1), r.2)
  else
    let r := ad9250_read bus dev h.AD9250_REG_PDWN
    if u32 r.1 = u32 (-1) then (i32 (u32 r.1), r.2)
    else (i32 ((u32 r.1 &&& u32 (h.AD9250_PDWN_CHIP 0x3)) >>> 0), r.2)

/-- Sets the test mode of the ADC, `ad9250_test_mode`. -/
def ad9250_test_mode {σ : Type} (h : ad9250_h) (bus : Bus σ) (dev : ad9250_dev σ)
    (mode : Int) : Int × ad9250_dev σ :=
  if mode ≥ 0 ∧ mode < 16 then
    ad9250_set_bits_to_reg bus dev h.AD9250_REG_TEST
      (u8 (h.AD9250_TEST_OUTPUT_TEST mode)) (u8 (h.AD9250_TEST_OUTPUT_TEST 0xF))
  else
    let r := ad9250_read bus dev h.AD9250_REG_TEST
    if r.1 = -1 then r
    else ((land32 r.1 (h.AD9250_TEST_OUTPUT_TEST 0xF)) >>> (0 : Nat), r.2)

/-- Sets the number of frames per multiframe, `ad9250_jesd204b_set_frames`.
The C operator `%` is the truncated remainder. -/
def ad9250_jesd204b_set_frames {σ : Type} (h : ad9250_h) (bus : Bus σ) (dev : ad9250_dev σ)
    (k_frames : Int) : Int × ad9250_dev σ :=
  if k_frames ≥ 0 ∧ k_frames ≤ 32 then
    let mod4 := Int.tmod k_frames 4
    let k_reg_val :=
      if mod4 ≠ 0 then
        if mod4 < 2 then k_frames - mod4 else k_frames + (4 - mod4)
      else k_frames
    let w := ad9250_write bus dev h.AD9250_REG_204B_PARAM_K (k_reg_val - 1)
    if w.1 = -1 then w
    else (k_reg_val, w.2)
  else
    ad9250_read bus dev h.AD9250_REG_204B_PARAM_K

/-- Selects a JESD204B test mode, `ad9250_jesd204b_test_mode`. In the first
branch the result of `ad9250_set_bits_to_reg` is not assigned, so `ret` still
holds its initial value 0 at the final `return ret`. -/
def ad9250_jesd204b_test_mode {σ : Type} (h : ad9250_h) (bus : Bus σ) (dev : ad9250_dev σ)
    (test_mode : Int) : Int × ad9250_dev σ :=
  if test_mode ≥ 0 ∧ test_mode < 14 then
    let r := ad9250_set_bits_to_reg bus dev h.AD9250_REG_204B_CTRL3
      (u8 (h.AD9250_204B_CTRL3_JESD_TEST_MODE test_mode))
      (u8 (h.AD9250_204B_CTRL3_JESD_TEST_MODE (-1)))
    (0, r.2)
  else
    let r := ad9250_read bus dev h.AD9250_REG_204B_CTRL3
    if r.1 = -1 then r
    else ((land32 r.1 (h.AD9250_204B_CTRL3_JESD_TEST_MODE (-1))) >>> (0 : Nat), r.2)

/-- Modelled from the spec: `ad9250.h` is not among the sources. One
assignment of the header macros used by the accessors, following the register
map of the device: one-byte registers, the shadow indices listed beside the
table `shadow_regs` (TEST 3, BIST 4, OFFSET 5, OUT_MODE 6, DCC_CTRL 9), and
bit fields at the positions the accessors shift by. It is used only where a
statement is evaluated on a concrete input. -/
def ad9250_h_model : ad9250_h where
  AD9250_REG_CH_INDEX := 256 + 0x05
  AD9250_REG_PDWN := 256 + 0x08
  AD9250_REG_TEST := 256 + 3 * 65536 + 0x0D
  AD9250_REG_BIST := 256 + 4 * 65536 + 0x0E
  AD9250_REG_OFFSET := 256 + 5 * 65536 + 0x10
  AD9250_REG_OUT_MODE := 256 + 6 * 65536 + 0x14
  AD9250_REG_DCC_CTRL := 256 + 9 * 65536 + 0x40
  AD9250_REG_204B_CTRL3 := 256 + 0x61
  AD9250_REG_204B_PARAM_K := 256 + 0x70
  AD9250_CH_INDEX_ADC_A := 1
  AD9250_CH_INDEX_ADC_B := 2
  AD9250_PDWN_CHIP := fun x => land32 x 0x3
  AD9250_TEST_OUTPUT_TEST := fun x => land32 x 0xF
  AD9250_TEST_RST_PN_SHOR := 16
  AD9250_TEST_RST_PN_LONG := 32
  AD9250_BIST_ENABLE := 1
  AD9250_BIST_RESET := 4
  AD9250_REG_OFFSET_ADJUST := fun x => land32 x 0x3F
  AD9250_OUT_MODE_DISABLE := 16
  AD9250_OUT_MODE_INVERT_DATA := 4
  AD9250_OUT_MODE_DATA_FORMAT := fun x => land32 x 0x1
  AD9250_DCC_CTRL_DCC_EN := 1
  AD9250_DCC_CTRL_DCC_BW := fun x => land32 x 0xF * 4
  AD9250_DCC_CTRL_FREEZE_DCC := 64
  AD9250_204B_CTRL3_JESD_TEST_MODE := fun x => land32 x 0xF

/-- The 16-bit command word of a frame: bytes 0 and 1, high byte first. -/
def commandWord (f : List Nat) : Nat := f.getD 0 0 * 256 + f.getD 1 0

/-! ## Device set-up -/

/-- The statement pattern `ret = f(...); if (ret == -1) { return ret; }`
followed by the rest of the function body: `r` is the outcome of the call and
`rest` the remaining statements, run on the handle the call left. -/
def orReturn {σ : Type} (r : Int × ad9250_dev σ)
    (rest : ad9250_dev σ → Int × ad9250_dev σ) : Int × ad9250_dev σ :=
  if r.1 = -1 then r else rest r.2

/-- The same statement pattern inside `ad9250_setup`, whose result is the
status together with the handle stored into `*device`: a `return` before the
last statement stores no handle. -/
def orReturnNone {σ : Type} (r : Int × ad9250_dev σ)
    (rest : ad9250_dev σ → Int × Option (ad9250_dev σ)) : Int × Option (ad9250_dev σ) :=
  if r.1 = -1 then (r.1, none) else rest r.2

/-- The register addresses and bit-field macros of `ad9250.h` that
`ad9250_setup`, `ad9250_jesd204b_setup`, `ad9250_jesd204b_invert_logic` and
`ad9250_fast_detect_setup` use, in addition to those of `ad9250_h`. The header
is not among the sources, so these functions take the macros as a parameter: a
constant for an object-like macro, a function for a function-like macro. -/
structure ad9250_setup_h extends ad9250_h where
  AD9250_REG_CLOCK : Int
  AD9250_REG_CLOCK_DIV : Int
  AD9250_REG_VREF : Int
  AD9250_REG_PLL_ENCODE : Int
  AD9250_REG_CML : Int
  AD9250_REG_SYS_CTRL : Int
  AD9250_REG_204B_QUICK_CFG : Int
  AD9250_REG_204B_CTRL1 : Int
  AD9250_REG_204B_CTRL2 : Int
  AD9250_REG_204B_DID_CFG : Int
  AD9250_REG_204B_BID_CFG : Int
  AD9250_REG_204B_LID_CFG0 : Int
  AD9250_REG_204B_LID_CFG1 : Int
  AD9250_REG_204B_PARAM_SCR_L : Int
  AD9250_REG_204B_PARAM_CS_N : Int
  AD9250_REG_204B_PARAM_NP : Int
  AD9250_REG_204B_LANE_ASSGN1 : Int
  AD9250_REG_204B_LANE_ASSGN2 : Int
  AD9250_REG_FAST_DETECT : Int
  AD9250_REG_FD_UPPER_THD : Int
  AD9250_REG_FD_LOWER_THD : Int
  AD9250_REG_FD_DWELL_TIME : Int
  AD9250_PDWN_EXTERN : Int
  AD9250_PDWN_JTX : Int
  AD9250_CLOCK_DUTY_CYCLE : Int
  AD9250_CLOCK_SELECTION : Int → Int
  AD9250_CLOCK_DIV_RATIO : Int → Int
  AD9250_CLOCK_DIV_PHASE : Int → Int
  AD9250_VREF_FS_ADJUST : Int → Int
  AD9250_PLL_ENCODE : Int → Int
  AD9250_CML_DIFF_OUT_LEVEL : Int → Int
  AD9250_OUT_MODE_JTX_BIT_ASSIGN : Int → Int
  AD9250_SYS_CTRL_REALIGN_ON_SYNCINB : Int
  AD9250_SYS_CTRL_REALIGN_ON_SYSREF : Int
  AD9250_SYS_CTRL_SYSREF_MODE : Int
  AD9250_SYS_CTRL_SYSREF_EN : Int
  AD9250_SYS_CTRL_SYNCINB_EN : Int
  AD9250_204B_QUICK_CFG : Int → Int
  AD9250_204B_CTRL1_TAIL_BITS : Int
  AD9250_204B_CTRL1_TEST_SAMPLE_EN : Int
  AD9250_204B_CTRL1_ILAS_MODE : Int → Int
  AD9250_204B_CTRL1_POWER_DOWN : Int
  AD9250_204B_CTRL2_INVERT_JESD_BITS : Int
  AD9250_204B_PARAM_SCR_L_SCRAMBLING : Int
  AD9250_204B_PARAM_CS_N_NR_CTRL_BITS : Int → Int
  AD9250_204B_PARAM_NP_JESD_SUBCLASS : Int → Int
  AD9250_204B_LANE_ASSGN1 : Int → Int
  AD9250_204B_LANE_ASSGN2 : Int → Int
  AD9250_FAST_DETECT_PIN_FCT : Int
  AD9250_FAST_DETECT_FORCE_FDA_FDB_PIN : Int
  AD9250_FAST_DETECT_FORCE_FDA_FDB_VAL : Int
  AD9250_FAST_DETECT_OUTPUT_ENABLE : Int

/-- The members of `*dev->ad9250_st.pdata` that `ad9250_setup` reads. The
structure is declared in `ad9250.h`, which is not among the sources; the
members are taken with the values they hold. -/
structure ad9250_platform_data where
  extrn_pdwnmode : Int
  en_clk_dcs : Int
  clk_selection : Int
  clk_div_ratio : Int
  clk_div_phase : Int
  adc_vref : Int
  pll_low_encode : Int

/-- The members of `*dev->ad9250_st.p_jesd204b` that `ad9250_jesd204b_setup`
reads. The structure is declared in `ad9250.h`, which is not among the
sources; the members are taken with the values they hold. -/
structure ad9250_jesd204b_cf where
  quick_cfg_option : Int
  cml_level : Int
  jtx_in_standby : Int
  subclass : Int
  ctrl_bits_no : Int
  ctrl_bits_assign : Int
  tail_bits_mode : Int
  did : Int
  bid : Int
  lid0 : Int
  lid1 : Int
  k : Int
  scrambling : Int
  ilas_mode : Int
  en_ilas_test : Int
  invert_logic_bits : Int
  en_sync_in_b : Int
  en_sys_ref : Int
  sys_ref_mode : Int
  align_sys_ref : Int
  align_sync_in_b : Int
  lane0_assign : Int
  lane1_assign : Int

/-- The members of `*dev->ad9250_st.p_fd` that `ad9250_fast_detect_setup`
reads. The structure is declared in `ad9250.h`, which is not among the
sources; the members are taken with the values they hold. -/
structure ad9250_fast_detect_cfg where
  en_fd : Int
  pin_force_value : Int
  force_pins : Int
  pin_function : Int
  fd_upper_tresh : Int
  fd_lower_tresh : Int
  df_dwell_time : Int

/-- The member `ad9250_st` of the handle, with the three configuration
structures it points to. `ad9250_setup` copies it from
`init_param.ad9250_st_init` and no function of the driver changes it, so the
set-up functions take it as a parameter beside the handle. -/
structure ad9250_state where
  pdata : ad9250_platform_data
  p_jesd204b : ad9250_jesd204b_cf
  p_fd : ad9250_fast_detect_cfg

/-- Inverts the logic of the JESD204B bits, `ad9250_jesd204b_invert_logic`.
The local `ret` is a `uint32_t`. -/
def ad9250_jesd204b_invert_logic {σ : Type} (h : ad9250_setup_h) (bus : Bus σ)
    (dev : ad9250_dev σ) (invert : Int) : Int × ad9250_dev σ :=
  if invert = 0 ∨ invert = 1 then
    let r := ad9250_set_bits_to_reg bus dev h.AD9250_REG_204B_CTRL2
      (u8 (invert * h.AD9250_204B_CTRL2_INVERT_JESD_BITS))
      (u8 h.AD9250_204B_CTRL2_INVERT_JESD_BITS)
    (i32 (u32 r.1), r.2)
  else
    let r := ad9250_read bus dev h.AD9250_REG_204B_CTRL2
    if u32 r.1 = u32 (-1) then (i32 (u32 r.1), r.2)
    else (if u32 r.1 &&& u32 h.AD9250_204B_CTRL2_INVERT_JESD_BITS ≠ 0 then 1 else 0, r.2)

/-- Configures the JESD204B interface, `ad9250_jesd204b_setup`. The tail-bits
step is taken only if `ctrl_bits_no == 0`; when it is skipped the status is
the one `ad9250_transfer` left, which is not -1 at that point, and is recorded
here as 0. -/
def ad9250_jesd204b_setup {σ : Type} (h : ad9250_setup_h) (bus : Bus σ) (st : ad9250_state)
    (dev : ad9250_dev σ) : Int × ad9250_dev σ :=
  orReturn (ad9250_set_bits_to_reg bus dev h.AD9250_REG_204B_CTRL1
    (u8 h.AD9250_204B_CTRL1_POWER_DOWN) (u8 h.AD9250_204B_CTRL1_POWER_DOWN)) fun dev =>
  orReturn (ad9250_write bus dev h.AD9250_REG_204B_QUICK_CFG
    (h.AD9250_204B_QUICK_CFG st.p_jesd204b.quick_cfg_option)) fun dev =>
  orReturn (ad9250_write bus dev h.AD9250_REG_CML
    (h.AD9250_CML_DIFF_OUT_LEVEL st.p_jesd204b.cml_level)) fun dev =>
  orReturn (ad9250_set_bits_to_reg bus dev h.AD9250_REG_PDWN
    (u8 (st.p_jesd204b.jtx_in_standby * h.AD9250_PDWN_JTX)) (u8 h.AD9250_PDWN_JTX)) fun dev =>
  orReturn (ad9250_set_bits_to_reg bus dev h.AD9250_REG_204B_PARAM_NP
    (u8 (h.AD9250_204B_PARAM_NP_JESD_SUBCLASS st.p_jesd204b.subclass))
    (u8 (h.AD9250_204B_PARAM_NP_JESD_SUBCLASS (-1)))) fun dev =>
  orReturn (ad9250_set_bits_to_reg bus dev h.AD9250_REG_204B_PARAM_CS_N
    (u8 (h.AD9250_204B_PARAM_CS_N_NR_CTRL_BITS st.p_jesd204b.ctrl_bits_no))
    (u8 (h.AD9250_204B_PARAM_CS_N_NR_CTRL_BITS (-1)))) fun dev =>
  orReturn (ad9250_set_bits_to_reg bus dev h.AD9250_REG_OUT_MODE
    (u8 (h.AD9250_OUT_MODE_JTX_BIT_ASSIGN st.p_jesd204b.ctrl_bits_assign))
    (u8 (h.AD9250_OUT_MODE_JTX_BIT_ASSIGN (-1)))) fun dev =>
  orReturn (ad9250_transfer bus dev) fun dev =>
  orReturn
    (if st.p_jesd204b.ctrl_bits_no = 0 then
      ad9250_set_bits_to_reg bus dev h.AD9250_REG_204B_CTRL1
        (u8 (h.AD9250_204B_CTRL1_TAIL_BITS * st.p_jesd204b.tail_bits_mode))
        (u8 h.AD9250_204B_CTRL1_TAIL_BITS)
     else (0, dev)) fun dev =>
  orReturn (ad9250_write bus dev h.AD9250_REG_204B_DID_CFG st.p_jesd204b.did) fun dev =>
  orReturn (ad9250_write bus dev h.AD9250_REG_204B_BID_CFG st.p_jesd204b.bid) fun dev =>
  orReturn (ad9250_write bus dev h.AD9250_REG_204B_LID_CFG0 st.p_jesd204b.lid0) fun dev =>
  orReturn (ad9250_write bus dev h.AD9250_REG_204B_LID_CFG1 st.p_jesd204b.lid1) fun dev =>
  orReturn (ad9250_jesd204b_set_frames h.toad9250_h bus dev st.p_jesd204b.k) fun dev =>
  orReturn (ad9250_set_bits_to_reg bus dev h.AD9250_REG_204B_PARAM_SCR_L
    (u8 (h.AD9250_204B_PARAM_SCR_L_SCRAMBLING * st.p_jesd204b.scrambling))
    (u8 h.AD9250_204B_PARAM_SCR_L_SCRAMBLING)) fun dev =>
  orReturn (ad9250_set_bits_to_reg bus dev h.AD9250_REG_204B_CTRL1
    (u8 (h.AD9250_204B_CTRL1_ILAS_MODE st.p_jesd204b.ilas_mode))
    (u8 (h.AD9250_204B_CTRL1_ILAS_MODE (-1)))) fun dev =>
  orReturn (ad9250_set_bits_to_reg bus dev h.AD9250_REG_204B_CTRL1
    (u8 (st.p_jesd204b.en_ilas_test * h.AD9250_204B_CTRL1_TEST_SAMPLE_EN))
    (u8 h.AD9250_204B_CTRL1_TEST_SAMPLE_EN)) fun dev =>
  orReturn (ad9250_jesd204b_invert_logic h bus dev st.p_jesd204b.invert_logic_bits) fun dev =>
  orReturn (ad9250_write bus dev h.AD9250_REG_SYS_CTRL
    (lor32 (lor32 (lor32 (lor32
      (st.p_jesd204b.en_sync_in_b * h.AD9250_SYS_CTRL_SYNCINB_EN)
      (st.p_jesd204b.en_sys_ref * h.AD9250_SYS_CTRL_SYSREF_EN))
      (st.p_jesd204b.sys_ref_mode * h.AD9250_SYS_CTRL_SYSREF_MODE))
      (st.p_jesd204b.align_sys_ref * h.AD9250_SYS_CTRL_REALIGN_ON_SYSREF))
      (st.p_jesd204b.align_sync_in_b * h.AD9250_SYS_CTRL_REALIGN_ON_SYNCINB))) fun dev =>
  orReturn (ad9250_transfer bus dev) fun dev =>
  orReturn (ad9250_write bus dev h.AD9250_REG_204B_LANE_ASSGN1
    (lor32 (h.AD9250_204B_LANE_ASSGN1 st.p_jesd204b.lane0_assign) 0x02)) fun dev =>
  orReturn (ad9250_write bus dev h.AD9250_REG_204B_LANE_ASSGN2
    (lor32 (h.AD9250_204B_LANE_ASSGN2 st.p_jesd204b.lane1_assign) 0x30)) fun dev =>
  ad9250_set_bits_to_reg bus dev h.AD9250_REG_204B_CTRL1 0
    (u8 h.AD9250_204B_CTRL1_POWER_DOWN)

/-- Configures the fast-detect module, `ad9250_fast_detect_setup`. -/
def ad9250_fast_detect_setup {σ : Type} (h : ad9250_setup_h) (bus : Bus σ) (st : ad9250_state)
    (dev : ad9250_dev σ) : Int × ad9250_dev σ :=
  orReturn (ad9250_write bus dev h.AD9250_REG_FAST_DETECT
    (lor32 (lor32 (lor32
      (h.AD9250_FAST_DETECT_OUTPUT_ENABLE * st.p_fd.en_fd)
      (h.AD9250_FAST_DETECT_FORCE_FDA_FDB_VAL * st.p_fd.pin_force_value))
      (h.AD9250_FAST_DETECT_FORCE_FDA_FDB_PIN * st.p_fd.force_pins))
      (h.AD9250_FAST_DETECT_PIN_FCT * st.p_fd.pin_function))) fun dev =>
  orReturn (ad9250_write bus dev h.AD9250_REG_FD_UPPER_THD st.p_fd.fd_upper_tresh) fun dev =>
  orReturn (ad9250_write bus dev h.AD9250_REG_FD_LOWER_THD st.p_fd.fd_lower_tresh) fun dev =>
  ad9250_write bus dev h.AD9250_REG_FD_DWELL_TIME st.p_fd.df_dwell_time

/-- The loop `for (i = 0; i < SHADOW_REGISTER_COUNT; i++)
dev->shadow_regs[i] = shadow_regs[i];` of `ad9250_setup`. The first argument
counts the iterations still to run, the second is `i`, the third the array
`dev->shadow_regs`. -/
def ad9250_setup_copy : Nat → Nat → List Int → List Int
  | 0, _, regs => regs
  | n + 1, i, regs => ad9250_setup_copy n (i + 1) (regs.set i (shadow_regs.getD i 0))

/-- Configures the device, `ad9250_setup`. The collaborators are parameters:
`no_os_malloc` is `none` for a null pointer and otherwise the contents the
array `shadow_regs` of the fresh handle happens to have; `no_os_spi_init` is
the status of `no_os_spi_init` with the initial state of the transport; `st`
is `init_param.ad9250_st_init`. The result is the status and the handle stored
into `*device`, if one is stored. The result of `ad9250_soft_reset` is not
assigned; the handle it leaves is used. -/
def ad9250_setup {σ : Type} (h : ad9250_setup_h) (bus : Bus σ)
    (no_os_malloc : Option (List Int)) (no_os_spi_init : Int × σ) (st : ad9250_state) :
    Int × Option (ad9250_dev σ) :=
  match no_os_malloc with
  | none => (-1, none)
  | some mem =>
    let dev : ad9250_dev σ :=
      { spi_desc := { state := no_os_spi_init.2, sent := [] },
        shadow_regs := ad9250_setup_copy SHADOW_REGISTER_COUNT 0 mem }
    if no_os_spi_init.1 = -1 then (no_os_spi_init.1, none)
    else
      orReturnNone (ad9250_write bus (ad9250_soft_reset bus dev).2
        AD9250_REG_SPI_CFG AD9250_SPI_CFG_SOFT_RST) fun dev =>
      orReturnNone (ad9250_set_bits_to_reg bus dev h.AD9250_REG_PDWN
        (u8 (st.pdata.extrn_pdwnmode * h.AD9250_PDWN_EXTERN)) (u8 h.AD9250_PDWN_EXTERN)) fun dev =>
      orReturnNone (ad9250_write bus dev h.AD9250_REG_CLOCK
        (lor32 (st.pdata.en_clk_dcs * h.AD9250_CLOCK_DUTY_CYCLE)
          (h.AD9250_CLOCK_SELECTION st.pdata.clk_selection))) fun dev =>
      orReturnNone (ad9250_write bus dev h.AD9250_REG_CLOCK_DIV
        (lor32 ( h.AD9250_CLOCK_DIV_RATIO st.pdata.clk_div_ratio)
          (h.AD9250_CLOCK_DIV_PHASE st.pdata.clk_div_phase))) fun dev =>
      orReturnNone (ad9250_write bus dev h.AD9250_REG_VREF
        (h.AD9250_VREF_FS_ADJUST st.pdata.adc_vref)) fun dev =>
      orReturnNone (ad9250_write bus dev h.AD9250_REG_PLL_ENCODE
        (h.AD9250_PLL_ENCODE st.pdata.pll_low_encode)) fun dev =>
      orReturnNone (ad9250_transfer bus dev) fun dev =>
      orReturnNone (ad9250_jesd204b_setup h bus st dev) fun dev =>
      orReturnNone (ad9250_fast_detect_setup h bus st dev) fun dev =>
      let r := ad9250_transfer bus dev
      (r.1, some r.2)

/-- The registers that `ad9250_jesd204b_setup` and the functions it calls
write to. -/
def ad9250_jesd204b_setup_registers (h : ad9250_setup_h) : List Int :=
  [h.AD9250_REG_204B_CTRL1, h.AD9250_REG_204B_QUICK_CFG, h.AD9250_REG_CML, h.AD9250_REG_PDWN,
   h.AD9250_REG_204B_PARAM_NP, h.AD9250_REG_204B_PARAM_CS_N, h.AD9250_REG_OUT_MODE,
   AD9250_REG_DEVICE_UPDATE, h.AD9250_REG_204B_DID_CFG, h.AD9250_REG_204B_BID_CFG,
   h.AD9250_REG_204B_LID_CFG0, h.AD9250_REG_204B_LID_CFG1, h.AD9250_REG_204B_PARAM_K,
   h.AD9250_REG_204B_PARAM_SCR_L, h.AD9250_REG_204B_CTRL2, h.AD9250_REG_SYS_CTRL,
   h.AD9250_REG_204B_LANE_ASSGN1, h.AD9250_REG_204B_LANE_ASSGN2]

/-- The registers that `ad9250_fast_detect_setup` writes to. -/
def ad9250_fast_detect_setup_registers (h : ad9250_setup_h) : List Int :=
  [h.AD9250_REG_FAST_DETECT, h.AD9250_REG_FD_UPPER_THD, h.AD9250_REG_FD_LOWER_THD,
   h.AD9250_REG_FD_DWELL_TIME]

/-- The registers that `ad9250_setup` and the functions it calls write to. -/
def ad9250_setup_registers (h : ad9250_setup_h) : List Int :=
  [AD9250_REG_SPI_CFG, h.AD9250_REG_PDWN, h.AD9250_REG_CLOCK, h.AD9250_REG_CLOCK_DIV,
   h.AD9250_REG_VREF, h.AD9250_REG_PLL_ENCODE, AD9250_REG_DEVICE_UPDATE] ++
  ad9250_jesd204b_setup_registers h ++ ad9250_fast_detect_setup_registers h

/-- Modelled from the spec: `ad9250.h` is not among the sources. The shadow
indices of the registers `ad9250_setup` writes to, as the comments beside the
table `shadow_regs` give them (CLOCK 1, CLOCK_DIV 2, OUT_MODE 6, VREF 7,
SYS_CTRL 8, FAST_DETECT 11, FD_UPPER_THD 12, FD_LOWER_THD 13,
FD_DWELL_TIME 14); every other register it writes to is not shadowed. -/
def ad9250_setup_h.ShadowIndices (h : ad9250_setup_h) : Prop :=
  ad9250_is_shadow_register h.AD9250_REG_CLOCK = 1 ∧
  ad9250_is_shadow_register h.AD9250_REG_CLOCK_DIV = 2 ∧
  ad9250_is_shadow_register h.AD9250_REG_OUT_MODE = 6 ∧
  ad9250_is_shadow_register h.AD9250_REG_VREF = 7 ∧
  ad9250_is_shadow_register h.AD9250_REG_SYS_CTRL = 8 ∧
  ad9250_is_shadow_register h.AD9250_REG_FAST_DETECT = 11 ∧
  ad9250_is_shadow_register h.AD9250_REG_FD_UPPER_THD = 12 ∧
  ad9250_is_shadow_register h.AD9250_REG_FD_LOWER_THD = 13 ∧
  ad9250_is_shadow_register h.AD9250_REG_FD_DWELL_TIME = 14 ∧
  ∀ A ∈ [h.AD9250_REG_PDWN, h.AD9250_REG_PLL_ENCODE, h.AD9250_REG_CML,
      h.AD9250_REG_204B_QUICK_CFG, h.AD9250_REG_204B_CTRL1, h.AD9250_REG_204B_CTRL2,
      h.AD9250_REG_204B_DID_CFG, h.AD9250_REG_204B_BID_CFG, h.AD9250_REG_204B_LID_CFG0,
      h.AD9250_REG_204B_LID_CFG1, h.AD9250_REG_204B_PARAM_K, h.AD9250_REG_204B_PARAM_SCR_L,
      h.AD9250_REG_204B_PARAM_CS_N, h.AD9250_REG_204B_PARAM_NP,
      h.AD9250_REG_204B_LANE_ASSGN1, h.AD9250_REG_204B_LANE_ASSGN2],
    ad9250_is_shadow_register A = 0

/-- Modelled from the spec: `ad9250.h` is not among the sources. Every
register that `ad9250_setup` reads (through `ad9250_set_bits_to_reg` or an
accessor) has a transfer length of at most 3 bytes, "a transfer length
(1-3 bytes)". -/
def ad9250_setup_h.ReadLengths (h : ad9250_setup_h) : Prop :=
  ∀ A ∈ [h.AD9250_REG_PDWN, h.AD9250_REG_OUT_MODE, h.AD9250_REG_204B_CTRL1,
      h.AD9250_REG_204B_CTRL2, h.AD9250_REG_204B_PARAM_K, h.AD9250_REG_204B_PARAM_SCR_L,
      h.AD9250_REG_204B_PARAM_CS_N, h.AD9250_REG_204B_PARAM_NP],
    AD9250_TRANSF_LEN A ≤ 3

/-- Modelled from the spec: `ad9250.h` is not among the sources. One
assignment of the header macros used by the set-up functions, extending
`ad9250_h_model` along the register map of the device. It is used only where a
statement is evaluated on a concrete input. -/
def ad9250_setup_h_model : ad9250_setup_h where
  toad9250_h := ad9250_h_model
  AD9250_REG_CLOCK := 256 + 1 * 65536 + 0x09
  AD9250_REG_CLOCK_DIV := 256 + 2 * 65536 + 0x0B
  AD9250_REG_VREF := 256 + 7 * 65536 + 0x18
  AD9250_REG_PLL_ENCODE := 256 + 0x21
  AD9250_REG_CML := 256 + 0x15
  AD9250_REG_SYS_CTRL := 256 + 8 * 65536 + 0x3A
  AD9250_REG_204B_QUICK_CFG := 256 + 0x5E
  AD9250_REG_204B_CTRL1 := 256 + 0x5F
  AD9250_REG_204B_CTRL2 := 256 + 0x60
  AD9250_REG_204B_DID_CFG := 256 + 0x64
  AD9250_REG_204B_BID_CFG := 256 + 0x65
  AD9250_REG_204B_LID_CFG0 := 256 + 0x66
  AD9250_REG_204B_LID_CFG1 := 256 + 0x67
  AD9250_REG_204B_PARAM_SCR_L := 256 + 0x6E
  AD9250_REG_204B_PARAM_CS_N := 256 + 0x72
  AD9250_REG_204B_PARAM_NP := 256 + 0x73
  AD9250_REG_204B_LANE_ASSGN1 := 256 + 0x82
  AD9250_REG_204B_LANE_ASSGN2 := 256 + 0x83
  AD9250_REG_FAST_DETECT := 256 + 11 * 65536 + 0x45
  AD9250_REG_FD_UPPER_THD := 512 + 12 * 65536 + 0x48
  AD9250_REG_FD_LOWER_THD := 512 + 13 * 65536 + 0x4A
  AD9250_REG_FD_DWELL_TIME := 512 + 14 * 65536 + 0x4C
  AD9250_PDWN_EXTERN := 32
  AD9250_PDWN_JTX := 16
  AD9250_CLOCK_DUTY_CYCLE := 1
  AD9250_CLOCK_SELECTION := fun x => land32 x 0x3 * 16
  AD9250_CLOCK_DIV_RATIO := fun x => land32 x 0x7
  AD9250_CLOCK_DIV_PHASE := fun x => land32 x 0x7 * 8
  AD9250_VREF_FS_ADJUST := fun x => land32 x 0x1F
  AD9250_PLL_ENCODE := fun x => land32 x 0x3 * 8
  AD9250_CML_DIFF_OUT_LEVEL := fun x => land32 x 0x7
  AD9250_OUT_MODE_JTX_BIT_ASSIGN := fun x => land32 x 0x7 * 32
  AD9250_SYS_CTRL_REALIGN_ON_SYNCINB := 16
  AD9250_SYS_CTRL_REALIGN_ON_SYSREF := 8
  AD9250_SYS_CTRL_SYSREF_MODE := 4
  AD9250_SYS_CTRL_SYSREF_EN := 2
  AD9250_SYS_CTRL_SYNCINB_EN := 1
  AD9250_204B_QUICK_CFG := fun x => land32 x 0xFF
  AD9250_204B_CTRL1_TAIL_BITS := 64
  AD9250_204B_CTRL1_TEST_SAMPLE_EN := 32
  AD9250_204B_CTRL1_ILAS_MODE := fun x => land32 x 0x3 * 4
  AD9250_204B_CTRL1_POWER_DOWN := 1
  AD9250_204B_CTRL2_INVERT_JESD_BITS := 2
  AD9250_204B_PARAM_SCR_L_SCRAMBLING := 128
  AD9250_204B_PARAM_CS_N_NR_CTRL_BITS := fun x => land32 x 0x3 * 64
  AD9250_204B_PARAM_NP_JESD_SUBCLASS := fun x => land32 x 0x3 * 32
  AD9250_204B_LANE_ASSGN1 := fun x => land32 x 0x3 * 16
  AD9250_204B_LANE_ASSGN2 := fun x => land32 x 0x3
  AD9250_FAST_DETECT_PIN_FCT := 16
  AD9250_FAST_DETECT_FORCE_FDA_FDB_PIN := 8
  AD9250_FAST_DETECT_FORCE_FDA_FDB_VAL := 4
  AD9250_FAST_DETECT_OUTPUT_ENABLE := 1

/-- A configuration for evaluating the set-up functions: duty-cycle
stabiliser on, voltage reference setting 5, fast detect enabled with upper
threshold 0x1234, 32 frames per multiframe, every other member 0. -/
def stModel : ad9250_state where
  pdata := { extrn_pdwnmode := 0, en_clk_dcs := 1, clk_selection := 0, clk_div_ratio := 0,
             clk_div_phase := 0, adc_vref := 5, pll_low_encode := 0 }
  p_jesd204b := { quick_cfg_option := 0, cml_level := 0, jtx_in_standby := 0, subclass := 0,
                  ctrl_bits_no := 0, ctrl_bits_assign := 0, tail_bits_mode := 0, did := 0,
                  bid := 0, lid0 := 0, lid1 := 0, k := 32, scrambling := 0, ilas_mode := 0,
                  en_ilas_test := 0, invert_logic_bits := 0, en_sync_in_b := 0,
                  en_sys_ref := 0, sys_ref_mode := 0, align_sys_ref := 0,
                  align_sync_in_b := 0, lane0_assign := 0, lane1_assign := 0 }
  p_fd := { en_fd := 1, pin_force_value := 0, force_pins := 0, pin_function := 0,
            fd_upper_tresh := 0x1234, fd_lower_tresh := 0, df_dwell_time := 0 }

/-- A transport stub that is the register file `regfile` except that its
exchange number `k` (counting from 0) fails with -1 and leaves buffer and
register file untouched. The state is the number of exchanges made so far
together with the register file. -/
def regfileFailAt (k : Nat) : Bus (Nat × (Nat → Nat)) where
  write_and_read := fun st data n =>
    if st.1 = k then (-1, data, (st.1 + 1, st.2))
    else ((regfile.write_and_read st.2 data n).1, (regfile.write_and_read st.2 data n).2.1,
      (st.1 + 1, (regfile.write_and_read st.2 data n).2.2))

/-- A handle on the failing register-file stub before any exchange, every
device byte holding 9, the shadow table at its defaults. -/
def devFailAt : ad9250_dev (Nat × (Nat → Nat)) :=
  { spi_desc := { state := (0, fun _ => 9), sent := [] }, shadow_regs := shadow_regs }

/-! # Lemmas -/

/-! ## Fixed-width arithmetic -/

theorem u32_lt (x : Int) : u32 x < 4294967296 := by
  unfold u32; omega

theorem u32_cast (x : Int) : ((u32 x : Nat) : Int) = x % 4294967296 := by
  unfold u32; omega

theorem i32_of_lt (n : Nat) (h : n < 2147483648) : i32 n = n := by
  unfold i32
  have : n % 4294967296 = n := Nat.mod_eq_of_lt (by omega)
  rw [this]; simp [h]

theorem u32_of_nat (n : Nat) (h : n < 4294967296) : u32 (n : Int) = n := by
  unfold u32; omega

theorem land32_255 (x : Int) : land32 x 0xFF = x % 256 := by
  unfold land32
  have h1 : u32 (0xFF : Int) = 2 ^ 8 - 1 := by decide
  rw [h1, Nat.and_pow_two_sub_one_eq_mod]
  have h2 : u32 x % 2 ^ 8 < 2147483648 := by
    have := Nat.mod_lt (u32 x) (show 2 ^ 8 > 0 by norm_num); omega
  rw [i32_of_lt _ h2]
  have := u32_cast x
  omega

theorem AD9250_ADDR_eq (x : Int) : AD9250_ADDR x = x % 256 := land32_255 x

theorem AD9250_TRANSF_LEN_eq (x : Int) : AD9250_TRANSF_LEN x = (x / 256) % 256 := by
  unfold AD9250_TRANSF_LEN
  rw [land32_255, Int.shiftRight_eq_div_pow]
  norm_num

theorem ad9250_is_shadow_register_eq (x : Int) :
    ad9250_is_shadow_register x = (x / 65536) % 256 := by
  unfold ad9250_is_shadow_register land32 SHADOW
  have h1 : u32 (0xFF * 65536 : Int) = 255 <<< 16 := by decide
  rw [h1]
  have hle : (255 <<< 16 &&& u32 x) ≤ 255 <<< 16 := Nat.and_le_left
  have h2 : (255 <<< 16 &&& u32 x) < 2147483648 := by
    have : (255 <<< 16 : Nat) = 16711680 := by decide
    omega
  rw [i32_of_lt _ h2, Int.shiftRight_eq_div_pow]
  have h3 : (255 <<< 16 &&& u32 x) / 2 ^ 16 = u32 x / 2 ^ 16 % 2 ^ 8 := by
    rw [← Nat.shiftRight_eq_div_pow, ← Nat.shiftRight_eq_div_pow,
      ← Nat.and_pow_two_sub_one_eq_mod]
    apply Nat.eq_of_testBit_eq
    intro i
    simp only [Nat.testBit_shiftRight, Nat.testBit_and, Nat.testBit_shiftLeft,
      Nat.testBit_two_pow_sub_one]
    have : (255 : Nat) = 2 ^ 8 - 1 := by norm_num
    rw [this, Nat.testBit_two_pow_sub_one]
    simp [Bool.and_comm]
  have h4 := u32_cast x
  rw [← Int.ofNat_ediv, h3]
  push_cast
  omega

/-! ## Frame lemmas: the shadow table and the loops -/

theorem ad9250_read_loop_shadow {σ : Type} (bus : Bus σ) (k : Nat) :
    ∀ (ra rv : Nat) (dev : ad9250_dev σ),
      (ad9250_read_loop bus k ra rv dev).2.shadow_regs = dev.shadow_regs := by
  induction k with
  | zero => intro ra rv dev; rfl
  | succ k ih =>
    intro ra rv dev
    simp only [ad9250_read_loop]
    split
    · rfl
    · rw [ih]

theorem ad9250_read_shadow {σ : Type} (bus : Bus σ) (dev : ad9250_dev σ) (A : Int) :
    (ad9250_read bus dev A).2.shadow_regs = dev.shadow_regs :=
  ad9250_read_loop_shadow bus _ _ _ dev

theorem ad9250_write_loop_shadow {σ : Type} (bus : Bus σ) (A V : Int) (k : Nat) :
    ∀ (i ra : Nat) (ret : Int) (dev : ad9250_dev σ),
      (ad9250_write_loop bus A V k i ra ret dev).2.shadow_regs = dev.shadow_regs := by
  induction k with
  | zero => intro i ra ret dev; rfl
  | succ k ih =>
    intro i ra ret dev
    simp only [ad9250_write_loop]
    split
    · rfl
    · rw [ih]

theorem ad9250_read_loop_indep {σ : Type} (bus : Bus σ) (k : Nat) :
    ∀ (ra rv : Nat) (dev dev2 : ad9250_dev σ), dev.spi_desc = dev2.spi_desc →
      (ad9250_read_loop bus k ra rv dev).1 = (ad9250_read_loop bus k ra rv dev2).1 ∧
      (ad9250_read_loop bus k ra rv dev).2.spi_desc
        = (ad9250_read_loop bus k ra rv dev2).2.spi_desc := by
  induction k with
  | zero => intro ra rv dev dev2 h; exact ⟨rfl, h⟩
  | succ k ih =>
    intro ra rv dev dev2 h
    simp only [ad9250_read_loop, h]
    split
    · exact ⟨rfl, rfl⟩
    · exact ih _ _ _ _ rfl

theorem ad9250_write_loop_indep {σ : Type} (bus : Bus σ) (A V : Int) (k : Nat) :
    ∀ (i ra : Nat) (ret : Int) (dev dev2 : ad9250_dev σ), dev.spi_desc = dev2.spi_desc →
      (ad9250_write_loop bus A V k i ra ret dev).1
        = (ad9250_write_loop bus A V k i ra ret dev2).1 ∧
      (ad9250_write_loop bus A V k i ra ret dev).2.spi_desc
        = (ad9250_write_loop bus A V k i ra ret dev2).2.spi_desc := by
  induction k with
  | zero => intro i ra ret dev dev2 h; exact ⟨rfl, h⟩
  | succ k ih =>
    intro i ra ret dev dev2 h
    simp only [ad9250_write_loop, h]
    split
    · exact ⟨rfl, rfl⟩
    · exact ih _ _ _ _ _ rfl

theorem ad9250_transfer_loop_shadow {σ : Type} (bus : Bus σ) (t : Nat) :
    ∀ (dev : ad9250_dev σ),
      (ad9250_transfer_loop bus t dev).2.shadow_regs = dev.shadow_regs := by
  induction t with
  | zero => intro dev; rfl
  | succ t ih =>
    intro dev
    simp only [ad9250_transfer_loop]
    split
    · exact ad9250_read_shadow bus dev _
    · split
      · rw [ih]; exact ad9250_read_shadow bus dev _
      · exact ad9250_read_shadow bus dev _

theorem ad9250_soft_reset_loop_shadow {σ : Type} (bus : Bus σ) (t : Nat) :
    ∀ (ret : Int) (dev : ad9250_dev σ),
      (ad9250_soft_reset_loop bus t ret dev).2.shadow_regs = dev.shadow_regs := by
  induction t with
  | zero => intro ret dev; rfl
  | succ t ih =>
    intro ret dev
    simp only [ad9250_soft_reset_loop]
    split
    · exact ad9250_read_shadow bus dev _
    · split
      · rw [ih]; exact ad9250_read_shadow bus dev _
      · exact ad9250_read_shadow bus dev _

/-! ## Byte-level arithmetic -/

theorem hi_byte (ra : Nat) : ((ra &&& 0xFF00) >>> 8) % 256 = ra / 256 % 256 := by
  have h : (ra &&& 0xFF00) >>> 8 = ra / 2 ^ 8 % 2 ^ 8 := by
    rw [← Nat.shiftRight_eq_div_pow, ← Nat.and_pow_two_sub_one_eq_mod]
    apply Nat.eq_of_testBit_eq
    intro i
    have e1 : (0xFF00 : Nat) = (2 ^ 8 - 1) <<< 8 := by decide
    rw [e1]
    simp only [Nat.testBit_shiftRight, Nat.testBit_and, Nat.testBit_shiftLeft,
      Nat.testBit_two_pow_sub_one]
    simp
  rw [h]
  norm_num

theorem lo_byte (ra : Nat) : (ra &&& 0x00FF) % 256 = ra % 256 := by
  have h : ra &&& 0x00FF = ra % 2 ^ 8 := by
    rw [← Nat.and_pow_two_sub_one_eq_mod]
  rw [h]
  norm_num

theorem shl_or (rv b : Nat) (hb : b < 256) :
    ((rv <<< 8) % 4294967296) ||| b = (rv * 256) % 4294967296 + b := by
  have h1 : (rv <<< 8) % 4294967296 = 2 ^ 8 * (rv % 16777216) := by
    rw [Nat.shiftLeft_eq]; omega
  rw [h1, ← Nat.mul_add_lt_is_or (by simpa using hb)]
  omega

theorem u8_i8 (n : Nat) : u8 (i8 n) = n % 256 := by
  unfold u8 i8
  split <;> omega

theorem frame_u32 (cw : Int) (d : Nat) :
    [((u32 cw &&& 0xFF00) >>> 8) % 256, (u32 cw &&& 0x00FF) % 256, d] = frame cw d := by
  rw [hi_byte, lo_byte]
  unfold frame
  have := u32_cast cw
  congr 1
  · omega
  · congr 1; omega

theorem frame_u16 (cw : Int) (d : Nat) :
    [((u16 cw &&& 0xFF00) >>> 8) % 256, (u16 cw &&& 0x00FF) % 256, d] = frame cw d := by
  rw [hi_byte, lo_byte]
  unfold frame
  have : ((u16 cw : Nat) : Int) = cw % 65536 := by unfold u16; omega
  congr 1
  · omega
  · congr 1; omega

theorem u32_pred (cw : Int) : (u32 cw + 4294967295) % 4294967296 = u32 (cw - 1) := by
  unfold u32; omega

theorem u16_pred (cw : Int) : (u16 cw + 65535) % 65536 = u16 (cw - 1) := by
  unfold u16; omega

theorem write_byte (V L : Int) (i m : Nat) (h : L - i - 1 = m) :
    u8 (i8 (u32 (land32 (V >>> ((L - i - 1) * 8).toNat) 0xFF)))
      = (V / 2 ^ (8 * m) % 256).toNat := by
  rw [u8_i8, land32_255, h]
  have e : ((m : Int) * 8).toNat = 8 * m := by omega
  rw [e, Int.shiftRight_eq_div_pow]
  have hp : (((2 ^ (8 * m) : Nat)) : Int) = 2 ^ (8 * m) := by push_cast; rfl
  rw [hp]
  have h0 : 0 ≤ V / 2 ^ (8 * m) % 256 := Int.emod_nonneg _ (by norm_num)
  have h1 : V / 2 ^ (8 * m) % 256 < 256 := Int.emod_lt_of_pos _ (by norm_num)
  generalize V / 2 ^ (8 * m) % 256 = y at h0 h1
  unfold u32
  omega

/-! ## The loops against the transport -/

theorem range_map_succ {α : Type} (f : Nat → α) (k : Nat) :
    (List.range (k + 1)).map f = f 0 :: (List.range k).map (fun i => f (i + 1)) := by
  rw [List.range_succ_eq_map, List.map_cons, List.map_map]
  rfl

theorem read_frames_succ (cw : Int) (k : Nat) :
    (List.range (k + 1)).map (fun (i : Nat) => frame (cw - (i : Int)) 0)
      = frame cw 0 :: (List.range k).map (fun (i : Nat) => frame (cw - 1 - (i : Int)) 0) := by
  rw [range_map_succ]
  congr 1
  · simp
  · apply List.map_congr_left
    intro i _
    congr 1
    push_cast
    ring

/-- Big-endian accumulation as done by the `uint32_t` local `reg_value`. -/
theorem read_loop_ok {σ : Type} (bus : Bus σ) (k : Nat) :
    ∀ (cw : Int) (rv : Nat) (dev : ad9250_dev σ),
      (∀ r ∈ exchanges bus dev.spi_desc.state
          ((List.range k).map (fun (i : Nat) => frame (cw - (i : Int)) 0)), r.1 ≠ -1) →
      ad9250_read_loop bus k (u32 cw) rv dev =
        (i32 (((exchanges bus dev.spi_desc.state
            ((List.range k).map (fun (i : Nat) => frame (cw - (i : Int)) 0))).map dataByte).foldl
              (fun acc b => (acc * 256) % 4294967296 + b) rv),
         { spi_desc :=
            { state := exchangesEnd bus dev.spi_desc.state
                ((List.range k).map (fun (i : Nat) => frame (cw - (i : Int)) 0)),
              sent := dev.spi_desc.sent ++
                ((List.range k).map (fun (i : Nat) => frame (cw - (i : Int)) 0)).map xfer3 },
           shadow_regs := dev.shadow_regs }) := by
  induction k with
  | zero =>
    intro cw rv dev _
    simp [ad9250_read_loop, exchanges, exchangesEnd]
  | succ k ih =>
    intro cw rv dev h
    rw [read_frames_succ] at h ⊢
    simp only [exchanges, List.mem_cons, forall_eq_or_imp] at h
    obtain ⟨h0, h1⟩ := h
    simp only [ad9250_read_loop, frame_u32, no_os_spi_write_and_read, u32_pred]
    rw [if_neg h0]
    rw [shl_or _ _ (Nat.mod_lt _ (by norm_num))]
    rw [ih (cw - 1) _ _ h1]
    simp [exchanges, exchangesEnd, dataByte, xfer3]

theorem read_loop_fail {σ : Type} (bus : Bus σ) (k : Nat) :
    ∀ (cw : Int) (rv : Nat) (dev : ad9250_dev σ) (j : Nat),
      (∀ i < j, ∀ r, (exchanges bus dev.spi_desc.state
          ((List.range k).map (fun (i : Nat) => frame (cw - (i : Int)) 0)))[i]? = some r →
            r.1 ≠ -1) →
      (∃ r, (exchanges bus dev.spi_desc.state
          ((List.range k).map (fun (i : Nat) => frame (cw - (i : Int)) 0)))[j]? = some r ∧
            r.1 = -1) →
      (ad9250_read_loop bus k (u32 cw) rv dev).1 = -1 ∧
      (ad9250_read_loop bus k (u32 cw) rv dev).2.spi_desc.sent = dev.spi_desc.sent ++
        (((List.range k).map (fun (i : Nat) => frame (cw - (i : Int)) 0)).take (j + 1)).map
          xfer3 := by
  induction k with
  | zero =>
    intro cw rv dev j _ h
    simp [exchanges] at h
  | succ k ih =>
    intro cw rv dev j hlt hj
    rw [read_frames_succ] at hlt hj ⊢
    simp only [exchanges] at hlt hj
    simp only [ad9250_read_loop, frame_u32, no_os_spi_write_and_read, u32_pred]
    cases j with
    | zero =>
      obtain ⟨r, hr, hr1⟩ := hj
      simp only [List.getElem?_cons_zero, Option.some.injEq] at hr
      subst hr
      simp only at hr1
      rw [if_pos hr1]
      simp [xfer3, hr1]
    | succ j =>
      have h0 := hlt 0 (Nat.succ_pos j) _ List.getElem?_cons_zero
      simp only at h0
      rw [if_neg h0]
      have hlt2 : ∀ i < j, ∀ r, (exchanges bus (bus.write_and_read dev.spi_desc.state
          (frame cw 0) 3).2.2
          ((List.range k).map (fun (i : Nat) => frame (cw - 1 - (i : Int)) 0)))[i]? = some r →
            r.1 ≠ -1 := by
        intro i hi r hr
        exact hlt (i + 1) (Nat.succ_lt_succ hi) r (by simpa using hr)
      have hj2 : ∃ r, (exchanges bus (bus.write_and_read dev.spi_desc.state
          (frame cw 0) 3).2.2
          ((List.range k).map (fun (i : Nat) => frame (cw - 1 - (i : Int)) 0)))[j]? = some r ∧
            r.1 = -1 := by
        obtain ⟨r, hr, hr1⟩ := hj
        exact ⟨r, by simpa using hr, hr1⟩
      have := ih (cw - 1) (((rv <<< 8) % 4294967296) |||
        ((bus.write_and_read dev.spi_desc.state (frame cw 0) 3).2.1.getD 2 0 % 256))
        { dev with spi_desc :=
            { state := (bus.write_and_read dev.spi_desc.state (frame cw 0) 3).2.2,
              sent := dev.spi_desc.sent ++ [⟨frame cw 0, 3⟩] } } j hlt2 hj2
      refine ⟨this.1, ?_⟩
      rw [this.2]
      simp [xfer3]

theorem write_frames_succ (cw V : Int) (k : Nat) :
    (List.range (k + 1)).map
        (fun (m : Nat) => frame (cw - (m : Int)) (V / 2 ^ (8 * (k + 1 - 1 - m)) % 256).toNat)
      = frame cw (V / 2 ^ (8 * k) % 256).toNat ::
        (List.range k).map
          (fun (m : Nat) => frame (cw - 1 - (m : Int)) (V / 2 ^ (8 * (k - 1 - m)) % 256).toNat) := by
  rw [range_map_succ]
  congr 1
  · simp
  · apply List.map_congr_left
    intro m _
    have e1 : cw - ((m + 1 : Nat) : Int) = cw - 1 - (m : Int) := by push_cast; ring
    have e2 : k + 1 - 1 - (m + 1) = k - 1 - m := by omega
    rw [e1, e2]

theorem write_loop_ok {σ : Type} (bus : Bus σ) (A V : Int) (k : Nat) :
    ∀ (i : Nat) (cw ret : Int) (dev : ad9250_dev σ),
      AD9250_TRANSF_LEN A = (i : Int) + (k : Int) →
      (∀ r ∈ exchanges bus dev.spi_desc.state
          ((List.range k).map (fun (m : Nat) =>
            frame (cw - (m : Int)) (V / 2 ^ (8 * (k - 1 - m)) % 256).toNat)), r.1 ≠ -1) →
      ad9250_write_loop bus A V k i (u16 cw) ret dev =
        ((((exchanges bus dev.spi_desc.state
            ((List.range k).map (fun (m : Nat) =>
              frame (cw - (m : Int)) (V / 2 ^ (8 * (k - 1 - m)) % 256).toNat))).getLast?).map
                Prod.fst).getD ret,
         { spi_desc :=
            { state := exchangesEnd bus dev.spi_desc.state
                ((List.range k).map (fun (m : Nat) =>
                  frame (cw - (m : Int)) (V / 2 ^ (8 * (k - 1 - m)) % 256).toNat)),
              sent := dev.spi_desc.sent ++
                ((List.range k).map (fun (m : Nat) =>
                  frame (cw - (m : Int)) (V / 2 ^ (8 * (k - 1 - m)) % 256).toNat)).map xfer3 },
           shadow_regs := dev.shadow_regs }) := by
  induction k with
  | zero =>
    intro i cw ret dev _ _
    simp [ad9250_write_loop, exchanges, exchangesEnd]
  | succ k ih =>
    intro i cw ret dev hL h
    rw [write_frames_succ] at h ⊢
    simp only [exchanges, List.mem_cons, forall_eq_or_imp] at h
    obtain ⟨h0, h1⟩ := h
    have hb := write_byte V (AD9250_TRANSF_LEN A) i k (by rw [hL]; push_cast; ring)
    simp only [ad9250_write_loop, hb, frame_u16, no_os_spi_write_and_read, u16_pred]
    rw [if_neg h0]
    rw [ih (i + 1) (cw - 1) _ _ (by rw [hL]; push_cast; ring) h1]
    simp only [exchanges, exchangesEnd, xfer3, List.getLast?_cons, List.map_cons,
      List.append_assoc, List.singleton_append, Prod.mk.injEq, and_true]
    cases (exchanges bus (bus.write_and_read dev.spi_desc.state
      (frame cw (V / 2 ^ (8 * k) % 256).toNat) 3).2.2
      (List.map (fun (m : Nat) => frame (cw - 1 - (m : Int))
        (V / 2 ^ (8 * (k - 1 - m)) % 256).toNat) (List.range k))).getLast? <;> simp

theorem write_loop_fail {σ : Type} (bus : Bus σ) (A V : Int) (k : Nat) :
    ∀ (i : Nat) (cw ret : Int) (dev : ad9250_dev σ) (j : Nat),
      AD9250_TRANSF_LEN A = (i : Int) + (k : Int) →
      (∀ n < j, ∀ r, (exchanges bus dev.spi_desc.state
          ((List.range k).map (fun (m : Nat) =>
            frame (cw - (m : Int)) (V / 2 ^ (8 * (k - 1 - m)) % 256).toNat)))[n]? = some r →
            r.1 ≠ -1) →
      (∃ r, (exchanges bus dev.spi_desc.state
          ((List.range k).map (fun (m : Nat) =>
            frame (cw - (m : Int)) (V / 2 ^ (8 * (k - 1 - m)) % 256).toNat)))[j]? = some r ∧
            r.1 = -1) →
      (ad9250_write_loop bus A V k i (u16 cw) ret dev).1 = -1 ∧
      (ad9250_write_loop bus A V k i (u16 cw) ret dev).2.spi_desc.sent = dev.spi_desc.sent ++
        (((List.range k).map (fun (m : Nat) =>
            frame (cw - (m : Int)) (V / 2 ^ (8 * (k - 1 - m)) % 256).toNat)).take (j + 1)).map
          xfer3 := by
  induction k with
  | zero =>
    intro i cw ret dev j _ _ h
    simp [exchanges] at h
  | succ k ih =>
    intro i cw ret dev j hL hlt hj
    rw [write_frames_succ] at hlt hj ⊢
    simp only [exchanges] at hlt hj
    have hb := write_byte V (AD9250_TRANSF_LEN A) i k (by rw [hL]; push_cast; ring)
    simp only [ad9250_write_loop, hb, frame_u16, no_os_spi_write_and_read, u16_pred]
    cases j with
    | zero =>
      obtain ⟨r, hr, hr1⟩ := hj
      simp only [List.getElem?_cons_zero, Option.some.injEq] at hr
      subst hr
      simp only at hr1
      rw [if_pos hr1]
      simp [xfer3, hr1]
    | succ j =>
      have h0 := hlt 0 (Nat.succ_pos j) _ List.getElem?_cons_zero
      simp only at h0
      rw [if_neg h0]
      have hlt2 : ∀ n < j, ∀ r, (exchanges bus (bus.write_and_read dev.spi_desc.state
          (frame cw (V / 2 ^ (8 * k) % 256).toNat) 3).2.2
          ((List.range k).map (fun (m : Nat) => frame (cw - 1 - (m : Int))
            (V / 2 ^ (8 * (k - 1 - m)) % 256).toNat)))[n]? = some r → r.1 ≠ -1 := by
        intro n hn r hr
        exact hlt (n + 1) (Nat.succ_lt_succ hn) r (by simpa using hr)
      have hj2 : ∃ r, (exchanges bus (bus.write_and_read dev.spi_desc.state
          (frame cw (V / 2 ^ (8 * k) % 256).toNat) 3).2.2
          ((List.range k).map (fun (m : Nat) => frame (cw - 1 - (m : Int))
            (V / 2 ^ (8 * (k - 1 - m)) % 256).toNat)))[j]? = some r ∧ r.1 = -1 := by
        obtain ⟨r, hr, hr1⟩ := hj
        exact ⟨r, by simpa using hr, hr1⟩
      have := ih (i + 1) (cw - 1)
        (bus.write_and_read dev.spi_desc.state (frame cw (V / 2 ^ (8 * k) % 256).toNat) 3).1
        { dev with spi_desc :=
            { state := (bus.write_and_read dev.spi_desc.state
                (frame cw (V / 2 ^ (8 * k) % 256).toNat) 3).2.2,
              sent := dev.spi_desc.sent ++ [⟨frame cw (V / 2 ^ (8 * k) % 256).toNat, 3⟩] } }
        j (by rw [hL]; push_cast; ring) hlt2 hj2
      refine ⟨this.1, ?_⟩
      rw [this.2]
      simp [xfer3]

/-! ## Conversions of the address parameter -/

theorem i32_u32_mod (x : Int) : i32 (u32 x) % 4294967296 = x % 4294967296 := by
  unfold i32 u32
  split <;> omega

theorem ad9250_is_shadow_register_wrap (A : Int) :
    ad9250_is_shadow_register (i32 (u32 A)) = ad9250_is_shadow_register A := by
  rw [ad9250_is_shadow_register_eq, ad9250_is_shadow_register_eq]
  have := i32_u32_mod A
  omega

theorem AD9250_TRANSF_LEN_wrap (A : Int) :
    AD9250_TRANSF_LEN (i32 (u32 A)) = AD9250_TRANSF_LEN A := by
  rw [AD9250_TRANSF_LEN_eq, AD9250_TRANSF_LEN_eq]
  have := i32_u32_mod A
  omega

theorem AD9250_ADDR_wrap (A : Int) : AD9250_ADDR (i32 (u32 A)) = AD9250_ADDR A := by
  rw [AD9250_ADDR_eq, AD9250_ADDR_eq]
  have := i32_u32_mod A
  omega

theorem ad9250_read_wrap {σ : Type} (bus : Bus σ) (dev : ad9250_dev σ) (A : Int) :
    ad9250_read bus dev (i32 (u32 A)) = ad9250_read bus dev A := by
  unfold ad9250_read
  rw [AD9250_TRANSF_LEN_wrap, AD9250_ADDR_wrap]

theorem ad9250_write_loop_wrap {σ : Type} (bus : Bus σ) (A V : Int) (k : Nat) :
    ∀ (i ra : Nat) (ret : Int) (dev : ad9250_dev σ),
      ad9250_write_loop bus (i32 (u32 A)) V k i ra ret dev
        = ad9250_write_loop bus A V k i ra ret dev := by
  induction k with
  | zero => intro i ra ret dev; rfl
  | succ k ih =>
    intro i ra ret dev
    simp only [ad9250_write_loop, AD9250_TRANSF_LEN_wrap, ih]

theorem ad9250_write_wrap {σ : Type} (bus : Bus σ) (dev : ad9250_dev σ) (A V : Int) :
    ad9250_write bus dev (i32 (u32 A)) V = ad9250_write bus dev A V := by
  unfold ad9250_write
  simp only [ad9250_is_shadow_register_wrap, AD9250_TRANSF_LEN_wrap, AD9250_ADDR_wrap,
    ad9250_write_loop_wrap]

theorem AD9250_TRANSF_LEN_nonneg (A : Int) : 0 ≤ AD9250_TRANSF_LEN A := by
  rw [AD9250_TRANSF_LEN_eq]; omega

theorem AD9250_ADDR_range (A : Int) : 0 ≤ AD9250_ADDR A ∧ AD9250_ADDR A < 256 := by
  rw [AD9250_ADDR_eq]; omega

/-! ## The shadow table after a write -/

theorem ad9250_write_shadow {σ : Type} (bus : Bus σ) (dev : ad9250_dev σ) (A V : Int) :
    (ad9250_write bus dev A V).2.shadow_regs =
      if ad9250_is_shadow_register A > 0 then
        dev.shadow_regs.set (ad9250_is_shadow_register A).toNat V
      else dev.shadow_regs := by
  unfold ad9250_write
  simp only [ad9250_write_loop_shadow]
  split <;> rfl

theorem ad9250_write_slot {σ : Type} (bus : Bus σ) (dev : ad9250_dev σ) (A V : Int)
    (hk : 1 ≤ ad9250_is_shadow_register A ∧ ad9250_is_shadow_register A ≤ 14)
    (hlen : dev.shadow_regs.length = SHADOW_REGISTER_COUNT) :
    (ad9250_write bus dev A V).2.shadow_regs[(ad9250_is_shadow_register A).toNat]? = some V := by
  rw [ad9250_write_shadow, if_pos (by omega)]
  rw [List.getElem?_set_self]
  · unfold SHADOW_REGISTER_COUNT at hlen
    omega

theorem ad9250_write_indep {σ : Type} (bus : Bus σ) (dev dev2 : ad9250_dev σ) (A V : Int)
    (h : dev.spi_desc = dev2.spi_desc) :
    (ad9250_write bus dev A V).1 = (ad9250_write bus dev2 A V).1 ∧
    (ad9250_write bus dev A V).2.spi_desc = (ad9250_write bus dev2 A V).2.spi_desc := by
  unfold ad9250_write
  apply ad9250_write_loop_indep
  split <;> exact h

theorem ad9250_read_indep {σ : Type} (bus : Bus σ) (dev dev2 : ad9250_dev σ) (A : Int)
    (h : dev.spi_desc = dev2.spi_desc) :
    (ad9250_read bus dev A).1 = (ad9250_read bus dev2 A).1 ∧
    (ad9250_read bus dev A).2.spi_desc = (ad9250_read bus dev2 A).2.spi_desc :=
  ad9250_read_loop_indep bus _ _ _ dev dev2 h

/-! ## Status codes -/

theorem ad9250_write_loop_status {σ : Type} (bus : Bus σ) (A V : Int)
    (hbus : ∀ s f n, (bus.write_and_read s f n).1 = 0 ∨ (bus.write_and_read s f n).1 = -1)
    (k : Nat) :
    ∀ (i ra : Nat) (ret : Int) (dev : ad9250_dev σ),
      (k = 0 → ret = 0 ∨ ret = -1) →
      (ad9250_write_loop bus A V k i ra ret dev).1 = 0 ∨
      (ad9250_write_loop bus A V k i ra ret dev).1 = -1 := by
  induction k with
  | zero => intro i ra ret dev h; exact h rfl
  | succ k ih =>
    intro i ra ret dev _
    simp only [ad9250_write_loop, no_os_spi_write_and_read]
    split
    · right; assumption
    · apply ih
      intro _
      exact hbus _ _ _

theorem exchanges_status {σ : Type} (bus : Bus σ)
    (hbus : ∀ s f n, (bus.write_and_read s f n).1 = 0 ∨ (bus.write_and_read s f n).1 = -1)
    (fs : List (List Nat)) :
    ∀ (s : σ), ∀ r ∈ exchanges bus s fs, r.1 = 0 ∨ r.1 = -1 := by
  induction fs with
  | nil => intro s r h; simp [exchanges] at h
  | cons f fs ih =>
    intro s r h
    simp only [exchanges, List.mem_cons] at h
    rcases h with h | h
    · subst h; exact hbus _ _ _
    · exact ih _ r h

theorem exchanges_length {σ : Type} (bus : Bus σ) (fs : List (List Nat)) :
    ∀ (s : σ), (exchanges bus s fs).length = fs.length := by
  induction fs with
  | nil => intro s; rfl
  | cons f fs ih => intro s; simp [exchanges, ih]

/-! ## The register-file stub -/

theorem frame_write_addr (a i d : Nat) (hi : i ≤ a) (ha : a < 256) :
    frame (AD9250_WRITE + (a : Int) - (i : Int)) d = [0, a - i, d] := by
  unfold frame AD9250_WRITE
  congr 1
  · omega
  · congr 1; omega

theorem frame_read_addr (a i : Nat) (hi : i ≤ a) (ha : a < 256) :
    frame (AD9250_READ + (a : Int) - (i : Int)) 0 = [128, a - i, 0] := by
  unfold frame AD9250_READ
  congr 1
  · omega
  · congr 1; omega

theorem regfile_write_frame (mem : Nat → Nat) (x d : Nat) (hx : x < 256) :
    regfile.write_and_read mem [0, x, d] 3
      = (0, [0, x, d], fun a => if a = x then d else mem a) := by
  have h1 : ¬ ((0 * 256 + x) / 32768 % 2 = 1) := by omega
  have h2 : (0 * 256 + x) % 32768 = x := by omega
  show (if (0 * 256 + x) / 32768 % 2 = 1 then _ else _) = _
  rw [if_neg h1]
  simp only [List.getD_cons_zero, List.getD_cons_succ, h2]

theorem regfile_read_frame (mem : Nat → Nat) (x : Nat) (hx : x < 256) :
    regfile.write_and_read mem [128, x, 0] 3 = (0, [128, x, mem x], mem) := by
  have h1 : (128 * 256 + x) / 32768 % 2 = 1 := by omega
  have h2 : (128 * 256 + x) % 32768 = x := by omega
  show (if (128 * 256 + x) / 32768 % 2 = 1 then _ else _) = _
  rw [if_pos h1]
  simp only [List.getD_cons_zero, List.getD_cons_succ, h2]

/-! ## Assembled values, first failures, bit clearing -/

theorem dataByte_lt (r : Int × List Nat) : dataByte r < 256 := by
  unfold dataByte; omega

theorem assemble_le_three (R : List (Int × List Nat)) (h1 : 1 ≤ R.length) (h3 : R.length ≤ 3) :
    i32 ((R.map dataByte).foldl (fun acc b => (acc * 256) % 4294967296 + b) 0)
      = ((((List.range R.length).map
          (fun i => dataByte (R.getD i (0, [])) * 256 ^ (R.length - 1 - i))).sum : Nat) : Int) := by
  match R, h1, h3 with
  | [r0], _, _ =>
    have := dataByte_lt r0
    simp [List.range_succ]
    unfold i32
    split <;> omega
  | [r0, r1], _, _ =>
    have := dataByte_lt r0
    have := dataByte_lt r1
    simp [List.range_succ]
    unfold i32
    split <;> omega
  | [r0, r1, r2], _, _ =>
    have := dataByte_lt r0
    have := dataByte_lt r1
    have := dataByte_lt r2
    simp [List.range_succ]
    unfold i32
    split <;> omega
  | [], h, _ => simp at h
  | _ :: _ :: _ :: _ :: _, _, h => simp at h

theorem assemble_nonneg (R : List (Int × List Nat)) (h1 : 1 ≤ R.length) (h3 : R.length ≤ 3) :
    0 ≤ i32 ((R.map dataByte).foldl (fun acc b => (acc * 256) % 4294967296 + b) 0) := by
  rw [assemble_le_three R h1 h3]
  exact Int.ofNat_nonneg _

theorem first_failure (R : List (Int × List Nat)) (h : ∃ r ∈ R, r.1 = -1) :
    ∃ j : Nat, (∀ i < j, ∀ r : Int × List Nat, R[i]? = some r → r.1 ≠ -1) ∧
      (∃ r : Int × List Nat, R[j]? = some r ∧ r.1 = -1) := by
  induction R with
  | nil => simp at h
  | cons r0 R ih =>
    by_cases h0 : r0.1 = -1
    · exact ⟨0, by intro i hi; omega, r0, by simp, h0⟩
    · obtain ⟨r, hr, hr1⟩ := h
      simp only [List.mem_cons] at hr
      rcases hr with hr | hr
      · subst hr; exact absurd hr1 h0
      · obtain ⟨j, hj1, hj2⟩ := ih ⟨r, hr, hr1⟩
        refine ⟨j + 1, ?_, ?_⟩
        · intro i hi x hx
          cases i with
          | zero =>
            simp only [List.getElem?_cons_zero, Option.some.injEq] at hx
            subst hx; exact h0
          | succ i =>
            simp only [List.getElem?_cons_succ] at hx
            exact hj1 i (by omega) x hx
        · simpa using hj2

theorem clear_bits (c mask : Nat) (hc : c < 256) (hm : mask < 256) :
    u8 (land32 (c : Int) (not32 (mask : Int))) = c &&& (255 - mask) := by
  unfold land32 not32
  have h1 : u32 (c : Int) = c := by unfold u32; omega
  have h2 : u32 (-(mask : Int) - 1) = 2 ^ 8 * 16777215 + (255 - mask) := by unfold u32; omega
  rw [h1, h2]
  have h3 : c &&& (2 ^ 8 * 16777215 + (255 - mask)) = c &&& (255 - mask) := by
    apply Nat.eq_of_testBit_eq
    intro i
    rw [Nat.testBit_and, Nat.testBit_and,
      Nat.testBit_mul_pow_two_add _ (show 255 - mask < 2 ^ 8 by omega)]
    by_cases hi : i < 8
    · simp [hi]
    · have : c.testBit i = false := by
        apply Nat.testBit_lt_two_pow
        calc c < 2 ^ 8 := by omega
          _ ≤ 2 ^ i := Nat.pow_le_pow_right (by norm_num) (by omega)
      simp [this]
  rw [h3]
  have h4 : c &&& (255 - mask) ≤ c := Nat.and_le_left
  rw [i32_of_lt _ (by omega)]
  unfold u8
  omega

theorem or_byte (x y : Nat) (hx : x < 256) (hy : y < 256) : u8 ((x ||| y : Nat) : Int) = x ||| y := by
  have : x ||| y < 2 ^ 8 := Nat.or_lt_two_pow (by omega) (by omega)
  unfold u8
  omega

/-! ## `ad9250_set_bits_to_reg` unfolded -/

theorem set_bits_value_eq (c : Int) (bits_value mask : Nat) (hb : bits_value < 256)
    (hm : mask < 256) :
    (u8 (((u8 (land32 ((u8 c : Nat) : Int) (not32 (mask : Int)))
      ||| bits_value : Nat) : Int)) : Nat) = setBitsValue c bits_value mask := by
  have hc : u8 c < 256 := by unfold u8; omega
  rw [clear_bits _ _ hc hm]
  have hle : u8 c &&& (255 - mask) ≤ u8 c := Nat.and_le_left
  rw [or_byte _ _ (by omega) hb]
  rfl

theorem setBitsValue_lt (c : Int) (bits_value mask : Nat) (hb : bits_value < 256) :
    setBitsValue c bits_value mask < 256 := by
  unfold setBitsValue
  have h1 : (c % 256).toNat &&& (255 - mask) ≤ (c % 256).toNat := Nat.and_le_left
  have h2 : (c % 256).toNat &&& (255 - mask) < 2 ^ 8 := by omega
  exact Nat.or_lt_two_pow h2 (by omega)

theorem setBitsValue_idem (c : Int) (bits_value mask : Nat) :
    setBitsValue ((setBitsValue c bits_value mask : Nat) : Int) bits_value mask
      = setBitsValue c bits_value mask := by
  have hlt : ∀ x : Nat, x &&& (255 - mask) < 256 := by
    intro x
    have : x &&& (255 - mask) ≤ 255 - mask := Nat.and_le_right
    omega
  unfold setBitsValue
  apply Nat.eq_of_testBit_eq
  intro i
  by_cases hi : i < 8
  · have e : (((((c % 256).toNat &&& (255 - mask)) ||| bits_value : Nat) : Int) % 256).toNat
        = (((c % 256).toNat &&& (255 - mask)) ||| bits_value) % 2 ^ 8 := by omega
    rw [e]
    simp only [Nat.testBit_or, Nat.testBit_and, Nat.testBit_mod_two_pow, hi, decide_True,
      Bool.true_and]
    cases (c % 256).toNat.testBit i <;> cases (255 - mask).testBit i <;>
      cases bits_value.testBit i <;> rfl
  · have h8 : ∀ x : Nat, x < 256 → x.testBit i = false := by
      intro x hx
      apply Nat.testBit_lt_two_pow
      calc x < 2 ^ 8 := by omega
        _ ≤ 2 ^ i := Nat.pow_le_pow_right (by norm_num) (by omega)
    simp only [Nat.testBit_or, Nat.testBit_and, h8 _ (hlt _)]

theorem set_bits_shadowed {σ : Type} (bus : Bus σ) (dev : ad9250_dev σ) (A : Int)
    (bits_value mask : Nat) (hb : bits_value < 256) (hm : mask < 256)
    (hpos : ad9250_is_shadow_register A > 0) :
    ad9250_set_bits_to_reg bus dev A bits_value mask =
      (if (ad9250_write bus dev A ((setBitsValue
            (dev.shadow_regs.getD (ad9250_is_shadow_register A).toNat 0)
            bits_value mask : Nat) : Int)).1 = -1
       then ad9250_write bus dev A ((setBitsValue
            (dev.shadow_regs.getD (ad9250_is_shadow_register A).toNat 0)
            bits_value mask : Nat) : Int)
       else (0, (ad9250_write bus dev A ((setBitsValue
            (dev.shadow_regs.getD (ad9250_is_shadow_register A).toNat 0)
            bits_value mask : Nat) : Int)).2)) := by
  unfold ad9250_set_bits_to_reg readOrShadow
  simp only [ad9250_is_shadow_register_wrap, if_pos hpos, ad9250_write_wrap,
    set_bits_value_eq _ _ _ hb hm]
  rw [if_neg (by omega)]

theorem set_bits_unshadowed {σ : Type} (bus : Bus σ) (dev : ad9250_dev σ) (A : Int)
    (bits_value mask : Nat) (hb : bits_value < 256) (hm : mask < 256)
    (h0 : ad9250_is_shadow_register A = 0) (hr : (ad9250_read bus dev A).1 ≠ -1) :
    ad9250_set_bits_to_reg bus dev A bits_value mask =
      (if (ad9250_write bus (ad9250_read bus dev A).2 A
            ((setBitsValue (ad9250_read bus dev A).1 bits_value mask : Nat) : Int)).1 = -1
       then ad9250_write bus (ad9250_read bus dev A).2 A
            ((setBitsValue (ad9250_read bus dev A).1 bits_value mask : Nat) : Int)
       else (0, (ad9250_write bus (ad9250_read bus dev A).2 A
            ((setBitsValue (ad9250_read bus dev A).1 bits_value mask : Nat) : Int)).2)) := by
  have hro : readOrShadow bus dev A = ((ad9250_read bus dev A).1,
      u8 (ad9250_read bus dev A).1, (ad9250_read bus dev A).2) := by
    unfold readOrShadow
    simp only [ad9250_is_shadow_register_wrap, h0, ad9250_read_wrap]
    rw [if_neg (by decide), if_neg hr]
  unfold ad9250_set_bits_to_reg
  simp only [hro, if_neg hr, ad9250_write_wrap, set_bits_value_eq _ _ _ hb hm]

theorem set_bits_read_failed {σ : Type} (bus : Bus σ) (dev : ad9250_dev σ) (A : Int)
    (bits_value mask : Nat)
    (h0 : ad9250_is_shadow_register A = 0) (hr : (ad9250_read bus dev A).1 = -1) :
    ad9250_set_bits_to_reg bus dev A bits_value mask = (-1, (ad9250_read bus dev A).2) := by
  have hro : readOrShadow bus dev A = (-1, 0, (ad9250_read bus dev A).2) := by
    unfold readOrShadow
    simp only [ad9250_is_shadow_register_wrap, h0, ad9250_read_wrap]
    rw [if_neg (by decide), if_pos hr, hr]
  unfold ad9250_set_bits_to_reg
  simp only [hro, if_true]

/-! ## One-byte registers: a read or a write is a single exchange -/

theorem ad9250_read_one {σ : Type} (bus : Bus σ) (dev : ad9250_dev σ) (A : Int)
    (h1 : AD9250_TRANSF_LEN A = 1) :
    ad9250_read bus dev A =
      (if (bus.write_and_read dev.spi_desc.state (frame (AD9250_READ + AD9250_ADDR A) 0) 3).1
            = -1 then -1
        else ((dataByte ((bus.write_and_read dev.spi_desc.state
            (frame (AD9250_READ + AD9250_ADDR A) 0) 3).1,
          (bus.write_and_read dev.spi_desc.state
            (frame (AD9250_READ + AD9250_ADDR A) 0) 3).2.1) : Nat) : Int),
       { spi_desc :=
          { state := (bus.write_and_read dev.spi_desc.state
              (frame (AD9250_READ + AD9250_ADDR A) 0) 3).2.2,
            sent := dev.spi_desc.sent ++ [xfer3 (frame (AD9250_READ + AD9250_ADDR A) 0)] },
         shadow_regs := dev.shadow_regs }) := by
  unfold ad9250_read
  rw [h1]
  show ad9250_read_loop bus (0 + 1) _ _ _ = _
  simp only [ad9250_read_loop, frame_u32, no_os_spi_write_and_read]
  split
  · next h => simp [h, xfer3]
  · rw [shl_or _ _ (Nat.mod_lt _ (by norm_num))]
    have hb : (bus.write_and_read dev.spi_desc.state
        (frame (AD9250_READ + AD9250_ADDR A) 0) 3).2.1.getD 2 0 % 256 < 256 :=
      Nat.mod_lt _ (by norm_num)
    rw [i32_of_lt _ (by omega)]
    simp [dataByte, xfer3]

theorem ad9250_write_one {σ : Type} (bus : Bus σ) (dev : ad9250_dev σ) (A V : Int)
    (h1 : AD9250_TRANSF_LEN A = 1) :
    ad9250_write bus dev A V =
      ((bus.write_and_read dev.spi_desc.state
          (frame (AD9250_WRITE + AD9250_ADDR A) (V % 256).toNat) 3).1,
       { spi_desc :=
          { state := (bus.write_and_read dev.spi_desc.state
              (frame (AD9250_WRITE + AD9250_ADDR A) (V % 256).toNat) 3).2.2,
            sent := dev.spi_desc.sent ++
              [xfer3 (frame (AD9250_WRITE + AD9250_ADDR A) (V % 256).toNat)] },
         shadow_regs :=
          if ad9250_is_shadow_register A > 0 then
            dev.shadow_regs.set (ad9250_is_shadow_register A).toNat V
          else dev.shadow_regs }) := by
  have hb := write_byte V (AD9250_TRANSF_LEN A) 0 0 (by rw [h1]; rfl)
  simp only [Nat.mul_zero, pow_zero, Int.ediv_one] at hb
  unfold ad9250_write
  rw [h1]
  show ad9250_write_loop bus A V (0 + 1) _ _ _ _ = _
  simp only [ad9250_write_loop, hb, frame_u16, no_os_spi_write_and_read]
  split <;> split <;> simp_all [xfer3]

theorem exchanges_clean {σ : Type} (bus : Bus σ)
    (hbus : ∀ s f n, (bus.write_and_read s f n).1 ≠ -1) (fs : List (List Nat)) :
    ∀ (s : σ), ∀ r ∈ exchanges bus s fs, r.1 ≠ -1 := by
  induction fs with
  | nil => intro s r h; simp [exchanges] at h
  | cons f fs ih =>
    intro s r h
    simp only [exchanges, List.mem_cons] at h
    rcases h with h | h
    · subst h; exact hbus _ _ _
    · exact ih _ r h

theorem ad9250_write_traffic_ok {σ : Type} (bus : Bus σ) (dev : ad9250_dev σ) (A V : Int)
    (hok : ∀ r ∈ exchanges bus dev.spi_desc.state (writeFrames A V), r.1 ≠ -1) :
    (ad9250_write bus dev A V).2.spi_desc =
      { state := exchangesEnd bus dev.spi_desc.state (writeFrames A V),
        sent := dev.spi_desc.sent ++ (writeFrames A V).map xfer3 } := by
  have key : ∀ d : ad9250_dev σ, d.spi_desc = dev.spi_desc →
      (ad9250_write_loop bus A V (AD9250_TRANSF_LEN A).toNat 0
        (u16 (AD9250_WRITE + AD9250_ADDR A)) (ad9250_is_shadow_register A) d).2.spi_desc
        = { state := exchangesEnd bus dev.spi_desc.state (writeFrames A V),
            sent := dev.spi_desc.sent ++ (writeFrames A V).map xfer3 } := by
    intro d hd
    have h := write_loop_ok bus A V (AD9250_TRANSF_LEN A).toNat 0
      (AD9250_WRITE + AD9250_ADDR A) (ad9250_is_shadow_register A) d
      (by have := AD9250_TRANSF_LEN_nonneg A; omega) (by rw [hd]; exact hok)
    rw [h, hd]
    rfl
  unfold ad9250_write
  simp only
  split
  · exact key _ rfl
  · exact key _ rfl

theorem ad9250_read_traffic_ok {σ : Type} (bus : Bus σ) (dev : ad9250_dev σ) (A : Int)
    (hok : ∀ r ∈ exchanges bus dev.spi_desc.state (readFrames A), r.1 ≠ -1) :
    (ad9250_read bus dev A).2.spi_desc =
      { state := exchangesEnd bus dev.spi_desc.state (readFrames A),
        sent := dev.spi_desc.sent ++ (readFrames A).map xfer3 } := by
  unfold ad9250_read
  rw [read_loop_ok bus (AD9250_TRANSF_LEN A).toNat (AD9250_READ + AD9250_ADDR A) 0 dev hok]
  rfl

theorem set_bits_snd {σ : Type} (w : Int × ad9250_dev σ) :
    (if w.1 = -1 then w else (0, w.2)).2 = w.2 := by
  split <;> rfl

/-! ## Traffic of a read or a write is a prefix of its frames -/

theorem ad9250_write_sent_prefix {σ : Type} (bus : Bus σ) (dev : ad9250_dev σ) (A V : Int) :
    ∃ j : Nat, (ad9250_write bus dev A V).2.spi_desc.sent
      = dev.spi_desc.sent ++ ((writeFrames A V).take j).map xfer3 := by
  by_cases hex : ∃ r ∈ exchanges bus dev.spi_desc.state (writeFrames A V), r.1 = -1
  · obtain ⟨j, hj1, hj2⟩ := first_failure _ hex
    refine ⟨j + 1, ?_⟩
    have key : ∀ d : ad9250_dev σ, d.spi_desc = dev.spi_desc →
        (ad9250_write_loop bus A V (AD9250_TRANSF_LEN A).toNat 0
          (u16 (AD9250_WRITE + AD9250_ADDR A)) (ad9250_is_shadow_register A) d).2.spi_desc.sent
          = dev.spi_desc.sent ++ ((writeFrames A V).take (j + 1)).map xfer3 := by
      intro d hd
      have h := write_loop_fail bus A V (AD9250_TRANSF_LEN A).toNat 0
        (AD9250_WRITE + AD9250_ADDR A) (ad9250_is_shadow_register A) d j
        (by have := AD9250_TRANSF_LEN_nonneg A; omega)
        (by rw [hd]; exact hj1) (by rw [hd]; exact hj2)
      rw [h.2, hd]
      rfl
    unfold ad9250_write
    simp only
    split
    · exact key _ rfl
    · exact key _ rfl
  · refine ⟨(writeFrames A V).length, ?_⟩
    have hok : ∀ r ∈ exchanges bus dev.spi_desc.state (writeFrames A V), r.1 ≠ -1 := by
      intro r hr hr1
      exact hex ⟨r, hr, hr1⟩
    rw [ad9250_write_traffic_ok bus dev A V hok, List.take_length]

theorem ad9250_read_sent_prefix {σ : Type} (bus : Bus σ) (dev : ad9250_dev σ) (A : Int) :
    ∃ j : Nat, (ad9250_read bus dev A).2.spi_desc.sent
      = dev.spi_desc.sent ++ ((readFrames A).take j).map xfer3 := by
  by_cases hex : ∃ r ∈ exchanges bus dev.spi_desc.state (readFrames A), r.1 = -1
  · obtain ⟨j, hj1, hj2⟩ := first_failure _ hex
    refine ⟨j + 1, ?_⟩
    exact (read_loop_fail bus (AD9250_TRANSF_LEN A).toNat (AD9250_READ + AD9250_ADDR A) 0
      dev j hj1 hj2).2
  · refine ⟨(readFrames A).length, ?_⟩
    have hok : ∀ r ∈ exchanges bus dev.spi_desc.state (readFrames A), r.1 ≠ -1 := by
      intro r hr hr1
      exact hex ⟨r, hr, hr1⟩
    rw [ad9250_read_traffic_ok bus dev A hok, List.take_length]

theorem writeFrames_write_direction (A V : Int)
    (ha : AD9250_TRANSF_LEN A - 1 ≤ AD9250_ADDR A) :
    ∀ f ∈ writeFrames A V, f.getD 0 0 = 0 := by
  intro f hf
  simp only [writeFrames, List.mem_map, List.mem_range] at hf
  obtain ⟨i, hi, rfl⟩ := hf
  have h1 := AD9250_ADDR_range A
  have h2 := AD9250_TRANSF_LEN_nonneg A
  simp only [frame, List.getD_cons_zero]
  unfold AD9250_WRITE
  omega

theorem readFrames_read_direction (A : Int)
    (ha : AD9250_TRANSF_LEN A - 1 ≤ AD9250_ADDR A) :
    ∀ f ∈ readFrames A, f.getD 0 0 = 128 := by
  intro f hf
  simp only [readFrames, List.mem_map, List.mem_range] at hf
  obtain ⟨i, hi, rfl⟩ := hf
  have h1 := AD9250_ADDR_range A
  have h2 := AD9250_TRANSF_LEN_nonneg A
  simp only [frame, List.getD_cons_zero]
  unfold AD9250_READ
  omega

theorem regfile_status (s : Nat → Nat) (f : List Nat) (n : Nat) :
    (regfile.write_and_read s f n).1 = 0 := by
  unfold regfile
  simp only
  split <;> rfl

theorem regfile_never_fails (s : Nat → Nat) (f : List Nat) (n : Nat) :
    (regfile.write_and_read s f n).1 ≠ -1 := by
  rw [regfile_status]
  decide

/-! ## The polling loops -/

theorem sw_bit_eq_one (b : Nat) (hb : b < 256) :
    i8 (u32 (land32 (b : Int) AD9250_REG_DEVICE_UPDATE)) = 1 ↔ b = 1 := by
  have h1 : u32 (b : Int) = b := by unfold u32; omega
  have h2 : u32 AD9250_REG_DEVICE_UPDATE = 2 ^ 9 - 1 := by decide
  unfold land32
  rw [h1, h2, Nat.and_pow_two_sub_one_eq_mod]
  have h3 : b % 2 ^ 9 = b := Nat.mod_eq_of_lt (by omega)
  rw [h3, i32_of_lt _ (by omega), h1]
  unfold i8
  split <;> omega

theorem ad9250_read_device_update {σ : Type} (bus : Bus σ) (dev : ad9250_dev σ) :
    ad9250_read bus dev AD9250_REG_DEVICE_UPDATE =
      (if (bus.write_and_read dev.spi_desc.state [128, 255, 0] 3).1 = -1 then -1
        else ((dataByte ((bus.write_and_read dev.spi_desc.state [128, 255, 0] 3).1,
          (bus.write_and_read dev.spi_desc.state [128, 255, 0] 3).2.1) : Nat) : Int),
       { spi_desc :=
          { state := (bus.write_and_read dev.spi_desc.state [128, 255, 0] 3).2.2,
            sent := dev.spi_desc.sent ++ [xfer3 [128, 255, 0]] },
         shadow_regs := dev.shadow_regs }) := by
  have h := ad9250_read_one bus dev AD9250_REG_DEVICE_UPDATE (by decide)
  have hf : frame (AD9250_READ + AD9250_ADDR AD9250_REG_DEVICE_UPDATE) 0 = [128, 255, 0] := by
    decide
  rw [hf] at h
  exact h

theorem ad9250_read_spi_cfg {σ : Type} (bus : Bus σ) (dev : ad9250_dev σ) :
    ad9250_read bus dev AD9250_REG_SPI_CFG =
      (if (bus.write_and_read dev.spi_desc.state [128, 0, 0] 3).1 = -1 then -1
        else ((dataByte ((bus.write_and_read dev.spi_desc.state [128, 0, 0] 3).1,
          (bus.write_and_read dev.spi_desc.state [128, 0, 0] 3).2.1) : Nat) : Int),
       { spi_desc :=
          { state := (bus.write_and_read dev.spi_desc.state [128, 0, 0] 3).2.2,
            sent := dev.spi_desc.sent ++ [xfer3 [128, 0, 0]] },
         shadow_regs := dev.shadow_regs }) := by
  have h := ad9250_read_one bus dev AD9250_REG_SPI_CFG (by decide)
  have hf : frame (AD9250_READ + AD9250_ADDR AD9250_REG_SPI_CFG) 0 = [128, 0, 0] := by
    decide
  rw [hf] at h
  exact h

theorem ad9250_write_device_update {σ : Type} (bus : Bus σ) (dev : ad9250_dev σ) :
    ad9250_write bus dev AD9250_REG_DEVICE_UPDATE AD9250_DEVICE_UPDATE_SW =
      ((bus.write_and_read dev.spi_desc.state [0, 255, 1] 3).1,
       { spi_desc :=
          { state := (bus.write_and_read dev.spi_desc.state [0, 255, 1] 3).2.2,
            sent := dev.spi_desc.sent ++ [xfer3 [0, 255, 1]] },
         shadow_regs := dev.shadow_regs }) := by
  have h := ad9250_write_one bus dev AD9250_REG_DEVICE_UPDATE AD9250_DEVICE_UPDATE_SW
    (by decide)
  have hf : frame (AD9250_WRITE + AD9250_ADDR AD9250_REG_DEVICE_UPDATE)
      (AD9250_DEVICE_UPDATE_SW % 256).toNat = [0, 255, 1] := by decide
  rw [hf, if_neg (by decide)] at h
  exact h

theorem ad9250_write_spi_cfg {σ : Type} (bus : Bus σ) (dev : ad9250_dev σ) :
    ad9250_write bus dev AD9250_REG_SPI_CFG AD9250_SPI_CFG_SOFT_RST =
      ((bus.write_and_read dev.spi_desc.state [0, 0, 36] 3).1,
       { spi_desc :=
          { state := (bus.write_and_read dev.spi_desc.state [0, 0, 36] 3).2.2,
            sent := dev.spi_desc.sent ++ [xfer3 [0, 0, 36]] },
         shadow_regs := dev.shadow_regs }) := by
  have h := ad9250_write_one bus dev AD9250_REG_SPI_CFG AD9250_SPI_CFG_SOFT_RST (by decide)
  have hf : frame (AD9250_WRITE + AD9250_ADDR AD9250_REG_SPI_CFG)
      (AD9250_SPI_CFG_SOFT_RST % 256).toNat = [0, 0, 36] := by decide
  rw [hf, if_neg (by decide)] at h
  exact h

/-- The polls of `ad9250_transfer`: `m` reads of the device-update register,
all but the last answered with status other than -1 and data byte 1; the last
one either failed (result -1), or ended the loop with result 0 because its
data byte was not 1 or the budget was used up. -/
theorem transfer_loop_trace {σ : Type} (bus : Bus σ) (t : Nat) :
    ∀ (dev : ad9250_dev σ), 1 ≤ t →
      ∃ m : Nat, 1 ≤ m ∧ m ≤ t ∧
        (ad9250_transfer_loop bus t dev).2.spi_desc.sent
          = dev.spi_desc.sent ++ List.replicate m (xfer3 [128, 255, 0]) ∧
        (∀ (i : Nat) (r : Int × List Nat), i + 1 < m →
          (exchanges bus dev.spi_desc.state (List.replicate m [128, 255, 0]))[i]? = some r →
            r.1 ≠ -1 ∧ dataByte r = 1) ∧
        (∃ r : Int × List Nat,
          (exchanges bus dev.spi_desc.state (List.replicate m [128, 255, 0]))[m - 1]? = some r ∧
          ((r.1 = -1 ∧ (ad9250_transfer_loop bus t dev).1 = -1) ∨
           (r.1 ≠ -1 ∧ (ad9250_transfer_loop bus t dev).1 = 0 ∧ (dataByte r ≠ 1 ∨ m = t)))) := by
  induction t with
  | zero => intro dev h; omega
  | succ t ih =>
    intro dev _
    simp only [ad9250_transfer_loop, ad9250_read_device_update]
    by_cases h0 : (bus.write_and_read dev.spi_desc.state [128, 255, 0] 3).1 = -1
    · refine ⟨1, le_refl _, by omega, ?_, ?_, ?_⟩
      · simp [h0]
      · intro i r hi; omega
      · refine ⟨((bus.write_and_read dev.spi_desc.state [128, 255, 0] 3).1,
          (bus.write_and_read dev.spi_desc.state [128, 255, 0] 3).2.1), by simp [exchanges], Or.inl ⟨h0, ?_⟩⟩
        simp [h0]
    · simp only [if_neg h0]
      have hne : ¬ (((dataByte ((bus.write_and_read dev.spi_desc.state [128, 255, 0] 3).1,
          (bus.write_and_read dev.spi_desc.state [128, 255, 0] 3).2.1) : Nat) : Int) = -1) := by
        omega
      simp only [if_neg hne]
      by_cases hc : i8 (u32 (land32 ((dataByte ((bus.write_and_read dev.spi_desc.state
          [128, 255, 0] 3).1, (bus.write_and_read dev.spi_desc.state [128, 255, 0] 3).2.1)
            : Nat) : Int) AD9250_REG_DEVICE_UPDATE)) = 1 ∧ t ≠ 0
      · simp only [if_pos hc]
        have hd1 := (sw_bit_eq_one _ (dataByte_lt _)).mp hc.1
        obtain ⟨m, hm1, hm2, hs, hi, r, hr, hlast⟩ := ih
          { spi_desc :=
              { state := (bus.write_and_read dev.spi_desc.state [128, 255, 0] 3).2.2,
                sent := dev.spi_desc.sent ++ [xfer3 [128, 255, 0]] },
            shadow_regs := dev.shadow_regs } (by omega)
        refine ⟨m + 1, by omega, by omega, ?_, ?_, ?_⟩
        · rw [hs]
          simp [List.replicate_succ]
        · intro i x hix hx
          simp only [List.replicate_succ, exchanges] at hx
          cases i with
          | zero =>
            simp only [List.getElem?_cons_zero, Option.some.injEq] at hx
            subst hx
            exact ⟨h0, hd1⟩
          | succ i =>
            simp only [List.getElem?_cons_succ] at hx
            exact hi i x (by omega) hx
        · refine ⟨r, ?_, ?_⟩
          · simp only [List.replicate_succ, exchanges, Nat.add_sub_cancel]
            obtain ⟨k, rfl⟩ : ∃ k, m = k + 1 := ⟨m - 1, by omega⟩
            simpa using hr
          · rcases hlast with h | h
            · exact Or.inl h
            · refine Or.inr ⟨h.1, h.2.1, ?_⟩
              rcases h.2.2 with h | h
              · exact Or.inl h
              · exact Or.inr (by omega)
      · simp only [if_neg hc]
        refine ⟨1, le_refl _, by omega, ?_, ?_, ?_⟩
        · simp
        · intro i r hi; omega
        · refine ⟨((bus.write_and_read dev.spi_desc.state [128, 255, 0] 3).1,
          (bus.write_and_read dev.spi_desc.state [128, 255, 0] 3).2.1), by simp [exchanges],
            Or.inr ⟨h0, trivial, ?_⟩⟩
          by_cases ht : t = 0
          · exact Or.inr (by omega)
          · left
            intro hd
            exact hc ⟨(sw_bit_eq_one _ (dataByte_lt _)).mpr hd, ht⟩

/-- The polls of `ad9250_soft_reset`: `m` reads of the SPI configuration
register, all but the last answered with status other than -1 and a value with
a reset-command bit set; the last one either failed (result -1), or ended the
loop with its value as the result, because no reset-command bit was set or the
budget was used up. -/
theorem soft_reset_loop_trace {σ : Type} (bus : Bus σ) (t : Nat) :
    ∀ (ret : Int) (dev : ad9250_dev σ), 1 ≤ t →
      ∃ m : Nat, 1 ≤ m ∧ m ≤ t ∧
        (ad9250_soft_reset_loop bus t ret dev).2.spi_desc.sent
          = dev.spi_desc.sent ++ List.replicate m (xfer3 [128, 0, 0]) ∧
        (∀ (i : Nat) (r : Int × List Nat), i + 1 < m →
          (exchanges bus dev.spi_desc.state (List.replicate m [128, 0, 0]))[i]? = some r →
            r.1 ≠ -1 ∧ land32 (dataByte r : Nat) AD9250_SPI_CFG_SOFT_RST ≠ 0) ∧
        (∃ r : Int × List Nat,
          (exchanges bus dev.spi_desc.state (List.replicate m [128, 0, 0]))[m - 1]? = some r ∧
          ((r.1 = -1 ∧ (ad9250_soft_reset_loop bus t ret dev).1 = -1) ∨
           (r.1 ≠ -1 ∧ (ad9250_soft_reset_loop bus t ret dev).1 = (dataByte r : Nat) ∧
            (land32 (dataByte r : Nat) AD9250_SPI_CFG_SOFT_RST = 0 ∨ m = t)))) := by
  induction t with
  | zero => intro ret dev h; omega
  | succ t ih =>
    intro ret dev _
    simp only [ad9250_soft_reset_loop, ad9250_read_spi_cfg]
    by_cases h0 : (bus.write_and_read dev.spi_desc.state [128, 0, 0] 3).1 = -1
    · refine ⟨1, le_refl _, by omega, ?_, ?_, ?_⟩
      · simp [h0]
      · intro i r hi; omega
      · refine ⟨((bus.write_and_read dev.spi_desc.state [128, 0, 0] 3).1,
          (bus.write_and_read dev.spi_desc.state [128, 0, 0] 3).2.1), by simp [exchanges],
          Or.inl ⟨h0, ?_⟩⟩
        simp [h0]
    · simp only [if_neg h0]
      have hne : ¬ (((dataByte ((bus.write_and_read dev.spi_desc.state [128, 0, 0] 3).1,
          (bus.write_and_read dev.spi_desc.state [128, 0, 0] 3).2.1) : Nat) : Int) = -1) := by
        omega
      simp only [if_neg hne]
      by_cases hc : land32 ((dataByte ((bus.write_and_read dev.spi_desc.state
          [128, 0, 0] 3).1, (bus.write_and_read dev.spi_desc.state [128, 0, 0] 3).2.1)
            : Nat) : Int) AD9250_SPI_CFG_SOFT_RST ≠ 0 ∧ t ≠ 0
      · simp only [if_pos hc]
        obtain ⟨m, hm1, hm2, hs, hi, r, hr, hlast⟩ := ih
          ((dataByte ((bus.write_and_read dev.spi_desc.state [128, 0, 0] 3).1,
            (bus.write_and_read dev.spi_desc.state [128, 0, 0] 3).2.1) : Nat) : Int)
          { spi_desc :=
              { state := (bus.write_and_read dev.spi_desc.state [128, 0, 0] 3).2.2,
                sent := dev.spi_desc.sent ++ [xfer3 [128, 0, 0]] },
            shadow_regs := dev.shadow_regs } (by omega)
        refine ⟨m + 1, by omega, by omega, ?_, ?_, ?_⟩
        · rw [hs]
          simp [List.replicate_succ]
        · intro i x hix hx
          simp only [List.replicate_succ, exchanges] at hx
          cases i with
          | zero =>
            simp only [List.getElem?_cons_zero, Option.some.injEq] at hx
            subst hx
            exact ⟨h0, hc.1⟩
          | succ i =>
            simp only [List.getElem?_cons_succ] at hx
            exact hi i x (by omega) hx
        · refine ⟨r, ?_, ?_⟩
          · simp only [List.replicate_succ, exchanges, Nat.add_sub_cancel]
            obtain ⟨k, rfl⟩ : ∃ k, m = k + 1 := ⟨m - 1, by omega⟩
            simpa using hr
          · rcases hlast with h | h
            · exact Or.inl h
            · refine Or.inr ⟨h.1, h.2.1, ?_⟩
              rcases h.2.2 with h | h
              · exact Or.inl h
              · exact Or.inr (by omega)
      · simp only [if_neg hc]
        refine ⟨1, le_refl _, by omega, ?_, ?_, ?_⟩
        · simp
        · intro i r hi; omega
        · refine ⟨((bus.write_and_read dev.spi_desc.state [128, 0, 0] 3).1,
            (bus.write_and_read dev.spi_desc.state [128, 0, 0] 3).2.1), by simp [exchanges],
            Or.inr ⟨h0, rfl, ?_⟩⟩
          by_cases ht : t = 0
          · exact Or.inr (by omega)
          · left
            by_contra hd
            exact hc ⟨hd, ht⟩

theorem exchanges_forall {σ : Type} (bus : Bus σ) (P : Int × List Nat → Prop)
    (fs : List (List Nat))
    (h : ∀ s, ∀ f ∈ fs, P ((bus.write_and_read s f 3).1, (bus.write_and_read s f 3).2.1)) :
    ∀ (s : σ), ∀ r ∈ exchanges bus s fs, P r := by
  induction fs with
  | nil => intro s r hr; simp [exchanges] at hr
  | cons f fs ih =>
    intro s r hr
    simp only [exchanges, List.mem_cons] at hr
    rcases hr with hr | hr
    · subst hr; exact h s f (List.mem_cons_self _ _)
    · exact ih (fun s g hg => h s g (List.mem_cons_of_mem _ hg)) _ r hr

theorem constBus_never_fails (v : Nat) (s : Unit) (f : List Nat) (n : Nat) :
    ((constBus v).write_and_read s f n).1 ≠ -1 := by
  show (0 : Int) ≠ -1
  decide

theorem constBus_dataByte (v : Nat) (s : Unit) (f : List Nat) (n : Nat) :
    dataByte (((constBus v).write_and_read s f n).1, ((constBus v).write_and_read s f n).2.1)
      = v % 256 := rfl

/-! ## The staging stub -/

theorem staged_read (sh : Nat → Bool) (st : StagedDevice) (x : Nat) (hx : x < 255) :
    (stagedBus sh).write_and_read st [128, x, 0] 3 = (0, [128, x, st.active x], st) := by
  have h1 : (128 * 256 + x) / 32768 % 2 = 1 := by omega
  have h2 : (128 * 256 + x) % 32768 = x := by omega
  have h3 : ¬ x = 255 := by omega
  show (if (128 * 256 + x) / 32768 % 2 = 1 then _ else _) = _
  rw [if_pos h1]
  simp only [List.getD_cons_zero, List.getD_cons_succ, h2, if_neg h3]

theorem staged_read_update (sh : Nat → Bool) (st : StagedDevice) :
    (stagedBus sh).write_and_read st [128, 255, 0] 3 = (0, [128, 255, 0], st) := rfl

theorem staged_write_update (sh : Nat → Bool) (st : StagedDevice) :
    (stagedBus sh).write_and_read st [0, 255, 1] 3
      = (0, [0, 255, 1],
         { active := fun x => if sh x then st.staged x else st.active x,
           staged := st.staged }) := rfl

theorem staged_write_shadowed (sh : Nat → Bool) (st : StagedDevice) (x d : Nat)
    (hx : x < 255) (hs : sh x = true) :
    (stagedBus sh).write_and_read st [0, x, d] 3
      = (0, [0, x, d],
         { active := st.active,
           staged := fun y => if y = x then d else st.staged y }) := by
  have h1 : ¬ ((0 * 256 + x) / 32768 % 2 = 1) := by omega
  have h2 : (0 * 256 + x) % 32768 = x := by omega
  have h3 : ¬ x = 255 := by omega
  show (if (0 * 256 + x) / 32768 % 2 = 1 then _ else _) = _
  rw [if_neg h1]
  simp only [List.getD_cons_zero, List.getD_cons_succ, h2, if_neg h3, hs, if_true]

theorem transfer_loop_first_poll {σ : Type} (bus : Bus σ) (t : Nat) (dev : ad9250_dev σ)
    (h0 : (bus.write_and_read dev.spi_desc.state [128, 255, 0] 3).1 ≠ -1)
    (hd : dataByte ((bus.write_and_read dev.spi_desc.state [128, 255, 0] 3).1,
      (bus.write_and_read dev.spi_desc.state [128, 255, 0] 3).2.1) ≠ 1) :
    ad9250_transfer_loop bus (t + 1) dev =
      (0, { spi_desc :=
              { state := (bus.write_and_read dev.spi_desc.state [128, 255, 0] 3).2.2,
                sent := dev.spi_desc.sent ++ [xfer3 [128, 255, 0]] },
            shadow_regs := dev.shadow_regs }) := by
  simp only [ad9250_transfer_loop, ad9250_read_device_update, if_neg h0]
  have hne : ¬ (((dataByte ((bus.write_and_read dev.spi_desc.state [128, 255, 0] 3).1,
      (bus.write_and_read dev.spi_desc.state [128, 255, 0] 3).2.1) : Nat) : Int) = -1) := by
    omega
  have hc : ¬ (i8 (u32 (land32 ((dataByte ((bus.write_and_read dev.spi_desc.state
      [128, 255, 0] 3).1, (bus.write_and_read dev.spi_desc.state [128, 255, 0] 3).2.1)
        : Nat) : Int) AD9250_REG_DEVICE_UPDATE)) = 1 ∧ t ≠ 0) := by
    intro h
    exact hd ((sw_bit_eq_one _ (dataByte_lt _)).mp h.1)
  simp only [if_neg hne, if_neg hc]

/-! ## The accessors -/

theorem i32_range (n : Nat) : -2147483648 ≤ i32 n ∧ i32 n < 2147483648 := by
  unfold i32
  split <;> omega

theorem ad9250_read_loop_range {σ : Type} (bus : Bus σ) (k : Nat) :
    ∀ (ra rv : Nat) (dev : ad9250_dev σ),
      -2147483648 ≤ (ad9250_read_loop bus k ra rv dev).1 ∧
      (ad9250_read_loop bus k ra rv dev).1 < 2147483648 := by
  induction k with
  | zero => intro ra rv dev; exact i32_range rv
  | succ k ih =>
    intro ra rv dev
    simp only [ad9250_read_loop]
    split
    · next h => simp only [h]; omega
    · exact ih _ _ _

theorem ad9250_read_range {σ : Type} (bus : Bus σ) (dev : ad9250_dev σ) (A : Int) :
    -2147483648 ≤ (ad9250_read bus dev A).1 ∧ (ad9250_read bus dev A).1 < 2147483648 :=
  ad9250_read_loop_range bus _ _ _ dev

theorem u32_eq_minus_one (x : Int) (h : -2147483648 ≤ x ∧ x < 2147483648) :
    u32 x = u32 (-1) ↔ x = -1 := by
  unfold u32
  omega

theorem i32_u32_of_range (x : Int) (h : -2147483648 ≤ x ∧ x < 2147483648) :
    i32 (u32 x) = x := by
  unfold i32 u32
  split <;> omega

theorem if_status_snd {σ : Type} (w : Int × ad9250_dev σ) (k : Int) :
    (if w.1 = -1 then w else (k, w.2)).2 = w.2 := by
  split <;> rfl

/-! ## Status and value of a read or a write on a transport that does not fail -/

theorem ad9250_is_shadow_register_range (A : Int) :
    0 ≤ ad9250_is_shadow_register A ∧ ad9250_is_shadow_register A ≤ 255 := by
  rw [ad9250_is_shadow_register_eq]
  omega

theorem ad9250_write_loop_ne {σ : Type} (bus : Bus σ)
    (hbus : ∀ s f n, (bus.write_and_read s f n).1 ≠ -1) (A V : Int) (k : Nat) :
    ∀ (i ra : Nat) (ret : Int) (dev : ad9250_dev σ), ret ≠ -1 →
      (ad9250_write_loop bus A V k i ra ret dev).1 ≠ -1 := by
  induction k with
  | zero =>
    intro i ra ret dev h
    simpa [ad9250_write_loop] using h
  | succ k ih =>
    intro i ra ret dev _
    simp only [ad9250_write_loop, no_os_spi_write_and_read]
    rw [if_neg (hbus _ _ _)]
    exact ih _ _ _ _ (hbus _ _ _)

theorem ad9250_write_ne {σ : Type} (bus : Bus σ)
    (hbus : ∀ s f n, (bus.write_and_read s f n).1 ≠ -1) (dev : ad9250_dev σ) (A V : Int) :
    (ad9250_write bus dev A V).1 ≠ -1 := by
  unfold ad9250_write
  apply ad9250_write_loop_ne bus hbus
  have := ad9250_is_shadow_register_range A
  omega

theorem assemble_lt (R : List (Int × List Nat)) (h3 : R.length ≤ 3) :
    0 ≤ i32 ((R.map dataByte).foldl (fun acc b => (acc * 256) % 4294967296 + b) 0) ∧
    i32 ((R.map dataByte).foldl (fun acc b => (acc * 256) % 4294967296 + b) 0)
      < 256 ^ R.length := by
  match R, h3 with
  | [], _ => simp [i32]
  | [r0], _ =>
    have := dataByte_lt r0
    simp only [List.map_cons, List.map_nil, List.foldl_cons, List.foldl_nil, List.length_cons,
      List.length_nil]
    unfold i32
    split <;> omega
  | [r0, r1], _ =>
    have := dataByte_lt r0
    have := dataByte_lt r1
    simp only [List.map_cons, List.map_nil, List.foldl_cons, List.foldl_nil, List.length_cons,
      List.length_nil]
    unfold i32
    split <;> omega
  | [r0, r1, r2], _ =>
    have := dataByte_lt r0
    have := dataByte_lt r1
    have := dataByte_lt r2
    simp only [List.map_cons, List.map_nil, List.foldl_cons, List.foldl_nil, List.length_cons,
      List.length_nil]
    unfold i32
    split <;> omega
  | _ :: _ :: _ :: _ :: _, h => simp at h

theorem readFrames_length (A : Int) : (readFrames A).length = (AD9250_TRANSF_LEN A).toNat := by
  simp [readFrames]

theorem writeFrames_length (A V : Int) :
    (writeFrames A V).length = (AD9250_TRANSF_LEN A).toNat := by
  simp [writeFrames]

theorem ad9250_read_bound {σ : Type} (bus : Bus σ) (dev : ad9250_dev σ) (A : Int)
    (hn : AD9250_TRANSF_LEN A ≤ 3)
    (hok : ∀ r ∈ exchanges bus dev.spi_desc.state (readFrames A), r.1 ≠ -1) :
    0 ≤ (ad9250_read bus dev A).1 ∧
    (ad9250_read bus dev A).1 < 256 ^ (AD9250_TRANSF_LEN A).toNat := by
  have hR : (exchanges bus dev.spi_desc.state (readFrames A)).length
      = (AD9250_TRANSF_LEN A).toNat := by
    rw [exchanges_length, readFrames_length]
  have h := read_loop_ok bus (AD9250_TRANSF_LEN A).toNat (AD9250_READ + AD9250_ADDR A) 0 dev hok
  have hb := assemble_lt (exchanges bus dev.spi_desc.state (readFrames A))
    (by rw [hR]; omega)
  rw [hR] at hb
  unfold ad9250_read
  rw [h]
  exact hb

theorem ad9250_read_ne {σ : Type} (bus : Bus σ)
    (hbus : ∀ s f n, (bus.write_and_read s f n).1 ≠ -1) (dev : ad9250_dev σ) (A : Int)
    (hn : AD9250_TRANSF_LEN A ≤ 3) :
    (ad9250_read bus dev A).1 ≠ -1 := by
  have := (ad9250_read_bound bus dev A hn (exchanges_clean bus hbus _ _)).1
  omega

theorem ad9250_read_first_frame {σ : Type} (bus : Bus σ) (dev : ad9250_dev σ) (A : Int)
    (hn : 1 ≤ AD9250_TRANSF_LEN A) :
    ∃ rest : List Xfer, (ad9250_read bus dev A).2.spi_desc.sent
      = dev.spi_desc.sent ++ xfer3 (frame (AD9250_READ + AD9250_ADDR A) 0) :: rest := by
  have hlen := readFrames_length A
  obtain ⟨n, hn1⟩ : ∃ n : Nat, (AD9250_TRANSF_LEN A).toNat = n + 1 :=
    ⟨(AD9250_TRANSF_LEN A).toNat - 1, by omega⟩
  have hfr : readFrames A = frame (AD9250_READ + AD9250_ADDR A) 0 ::
      (List.range n).map (fun (i : Nat) => frame (AD9250_READ + AD9250_ADDR A - 1 - (i : Int)) 0) := by
    unfold readFrames
    rw [hn1, read_frames_succ]
  by_cases hex : ∃ r ∈ exchanges bus dev.spi_desc.state (readFrames A), r.1 = -1
  · obtain ⟨j, hj1, hj2⟩ := first_failure _ hex
    have h := (read_loop_fail bus (AD9250_TRANSF_LEN A).toNat (AD9250_READ + AD9250_ADDR A) 0
      dev j hj1 hj2).2
    refine ⟨(((List.range n).map (fun (i : Nat) =>
      frame (AD9250_READ + AD9250_ADDR A - 1 - (i : Int)) 0)).take j).map xfer3, ?_⟩
    unfold ad9250_read
    rw [h]
    change dev.spi_desc.sent ++ ((readFrames A).take (j + 1)).map xfer3 = _
    rw [hfr]
    simp
  · have hok : ∀ r ∈ exchanges bus dev.spi_desc.state (readFrames A), r.1 ≠ -1 := by
      intro r hr hr1
      exact hex ⟨r, hr, hr1⟩
    refine ⟨((List.range n).map (fun (i : Nat) =>
      frame (AD9250_READ + AD9250_ADDR A - 1 - (i : Int)) 0)).map xfer3, ?_⟩
    rw [ad9250_read_traffic_ok bus dev A hok, hfr]
    simp

/-! ## A failing write -/

theorem ad9250_write_fail {σ : Type} (bus : Bus σ) (dev : ad9250_dev σ) (A V : Int)
    (hex : ∃ r ∈ exchanges bus dev.spi_desc.state (writeFrames A V), r.1 = -1) :
    (ad9250_write bus dev A V).1 = -1 := by
  obtain ⟨j, hj1, hj2⟩ := first_failure _ hex
  have key : ∀ d : ad9250_dev σ, d.spi_desc = dev.spi_desc →
      (ad9250_write_loop bus A V (AD9250_TRANSF_LEN A).toNat 0
        (u16 (AD9250_WRITE + AD9250_ADDR A)) (ad9250_is_shadow_register A) d).1 = -1 := by
    intro d hd
    exact (write_loop_fail bus A V (AD9250_TRANSF_LEN A).toNat 0
      (AD9250_WRITE + AD9250_ADDR A) (ad9250_is_shadow_register A) d j
      (by have := AD9250_TRANSF_LEN_nonneg A; omega)
      (by rw [hd]; exact hj1) (by rw [hd]; exact hj2)).1
  unfold ad9250_write
  simp only
  split
  · exact key _ rfl
  · exact key _ rfl

/-! ## The shadow index as a bit field; slots other than the one written -/

theorem ad9250_is_shadow_register_u32 (a : Int) :
    ad9250_is_shadow_register a = ((u32 a / 65536 % 256 : Nat) : Int) := by
  rw [ad9250_is_shadow_register_eq]
  unfold u32
  omega

theorem ad9250_is_shadow_register_testBit (a : Int) (i : Nat) :
    (ad9250_is_shadow_register a).toNat.testBit i
      = (decide (i < 8) && (u32 a).testBit (16 + i)) := by
  rw [ad9250_is_shadow_register_u32, Int.toNat_ofNat]
  have h1 : (65536 : Nat) = 2 ^ 16 := by norm_num
  have h2 : (256 : Nat) = 2 ^ 8 := by norm_num
  rw [h1, h2, Nat.testBit_mod_two_pow, ← Nat.shiftRight_eq_div_pow, Nat.testBit_shiftRight]

theorem readOrShadow_shadow {σ : Type} (bus : Bus σ) (dev : ad9250_dev σ) (A : Int) :
    (readOrShadow bus dev A).2.2.shadow_regs = dev.shadow_regs := by
  unfold readOrShadow
  simp only
  split
  · rfl
  · split
    · exact ad9250_read_shadow bus dev _
    · exact ad9250_read_shadow bus dev _

theorem ad9250_write_slot_other {σ : Type} (bus : Bus σ) (dev : ad9250_dev σ) (A V : Int)
    (j : Nat) (hj : 0 < ad9250_is_shadow_register A → j ≠ (ad9250_is_shadow_register A).toNat) :
    (ad9250_write bus dev A V).2.shadow_regs[j]? = dev.shadow_regs[j]? := by
  rw [ad9250_write_shadow]
  split
  · rename_i hpos
    rw [List.getElem?_set_ne (Ne.symm (hj hpos))]
  · rfl

theorem set_bits_slot_other {σ : Type} (bus : Bus σ) (dev : ad9250_dev σ) (A : Int)
    (bits_value mask : Nat) (j : Nat)
    (hj : 0 < ad9250_is_shadow_register A → j ≠ (ad9250_is_shadow_register A).toNat) :
    (ad9250_set_bits_to_reg bus dev A bits_value mask).2.shadow_regs[j]?
      = dev.shadow_regs[j]? := by
  have hc := readOrShadow_shadow bus dev A
  unfold ad9250_set_bits_to_reg
  simp only [ad9250_write_wrap]
  split
  · rw [hc]
  · rw [set_bits_snd, ad9250_write_slot_other _ _ _ _ _ hj, hc]

theorem ad9250_transfer_shadow {σ : Type} (bus : Bus σ) (dev : ad9250_dev σ) :
    (ad9250_transfer bus dev).2.shadow_regs = dev.shadow_regs := by
  unfold ad9250_transfer
  simp only
  have hw : (ad9250_write bus dev AD9250_REG_DEVICE_UPDATE AD9250_DEVICE_UPDATE_SW).2.shadow_regs
      = dev.shadow_regs := by
    rw [ad9250_write_shadow, if_neg (by decide)]
  split
  · exact hw
  · rw [ad9250_transfer_loop_shadow, hw]

theorem ad9250_soft_reset_shadow {σ : Type} (bus : Bus σ) (dev : ad9250_dev σ) :
    (ad9250_soft_reset bus dev).2.shadow_regs = dev.shadow_regs := by
  unfold ad9250_soft_reset
  simp only
  have hw : (ad9250_write bus dev AD9250_REG_SPI_CFG AD9250_SPI_CFG_SOFT_RST).2.shadow_regs
      = dev.shadow_regs := by
    rw [ad9250_write_shadow, if_neg (by decide)]
  split
  · exact hw
  · rw [ad9250_soft_reset_loop_shadow, hw]

/-- The outcome of `ad9250_set_bits_to_reg` does not depend on slot 0 of the
shadow table. -/
theorem set_bits_indep_slot_zero {σ : Type} (bus : Bus σ) (dev dev2 : ad9250_dev σ) (A : Int)
    (bits_value mask : Nat) (hspi : dev2.spi_desc = dev.spi_desc)
    (hslots : ∀ j : Nat, 1 ≤ j → dev2.shadow_regs[j]? = dev.shadow_regs[j]?) :
    (ad9250_set_bits_to_reg bus dev2 A bits_value mask).1
      = (ad9250_set_bits_to_reg bus dev A bits_value mask).1 ∧
    (ad9250_set_bits_to_reg bus dev2 A bits_value mask).2.spi_desc
      = (ad9250_set_bits_to_reg bus dev A bits_value mask).2.spi_desc ∧
    (∀ j : Nat, 1 ≤ j →
      (ad9250_set_bits_to_reg bus dev2 A bits_value mask).2.shadow_regs[j]?
        = (ad9250_set_bits_to_reg bus dev A bits_value mask).2.shadow_regs[j]?) := by
  have hw : ∀ (d d2 : ad9250_dev σ) (W : Int), d2.spi_desc = d.spi_desc →
      (∀ j : Nat, 1 ≤ j → d2.shadow_regs[j]? = d.shadow_regs[j]?) →
      (ad9250_write bus d2 A W).1 = (ad9250_write bus d A W).1 ∧
      (ad9250_write bus d2 A W).2.spi_desc = (ad9250_write bus d A W).2.spi_desc ∧
      (∀ j : Nat, 1 ≤ j → (ad9250_write bus d2 A W).2.shadow_regs[j]?
        = (ad9250_write bus d A W).2.shadow_regs[j]?) := by
    intro d d2 W hs hsl
    refine ⟨(ad9250_write_indep bus d2 d A W hs).1, (ad9250_write_indep bus d2 d A W hs).2, ?_⟩
    intro j hj
    rw [ad9250_write_shadow, ad9250_write_shadow]
    split
    · simp only [List.getElem?_set]
      have hl : j < d2.shadow_regs.length ↔ j < d.shadow_regs.length := by
        rw [← not_le, ← not_le, ← List.getElem?_eq_none_iff, ← List.getElem?_eq_none_iff,
          hsl j hj]
      by_cases hjk : (ad9250_is_shadow_register A).toNat = j
      · simp [hjk, hl]
      · simp [hjk, hsl j hj]
    · exact hsl j hj
  unfold ad9250_set_bits_to_reg readOrShadow
  simp only [ad9250_is_shadow_register_wrap, ad9250_write_wrap, ad9250_read_wrap]
  by_cases hpos : ad9250_is_shadow_register A > 0
  · simp only [if_pos hpos]
    have hne : ¬ ad9250_is_shadow_register A = -1 := by omega
    simp only [if_neg hne]
    have hg : dev2.shadow_regs.getD (ad9250_is_shadow_register A).toNat 0
        = dev.shadow_regs.getD (ad9250_is_shadow_register A).toNat 0 := by
      rw [List.getD_eq_getElem?_getD, List.getD_eq_getElem?_getD, hslots _ (by omega)]
    rw [hg]
    have h := hw dev dev2 (u8 (((u8 (land32 (u8 (dev.shadow_regs.getD
      (ad9250_is_shadow_register A).toNat 0)) (not32 mask)) ||| bits_value : Nat) : Int))) hspi hslots
    rw [h.1]
    split
    · exact h
    · exact ⟨rfl, h.2.1, h.2.2⟩
  · simp only [if_neg hpos]
    have hr := ad9250_read_indep bus dev2 dev A hspi
    rw [hr.1]
    by_cases hf : (ad9250_read bus dev A).1 = -1
    · simp only [if_pos hf]
      refine ⟨trivial, hr.2, ?_⟩
      intro j hj
      rw [ad9250_read_shadow, ad9250_read_shadow, hslots j hj]
    · simp only [if_neg hf]
      have h := hw (ad9250_read bus dev A).2 (ad9250_read bus dev2 A).2
        (u8 (((u8 (land32 (u8 (ad9250_read bus dev A).1) (not32 mask)) ||| bits_value : Nat) : Int)))
        hr.2 (by intro j hj; rw [ad9250_read_shadow, ad9250_read_shadow, hslots j hj])
      rw [h.1]
      split
      · exact h
      · exact ⟨rfl, h.2.1, h.2.2⟩

/-! ## The command word of a frame -/

theorem commandWord_frame (cw : Int) (d : Nat) :
    commandWord (frame cw d) = (cw % 65536).toNat := by
  unfold commandWord frame
  simp only [List.getD_cons_zero, List.getD_cons_succ]
  omega

theorem readFrames_getElem (A : Int) (i : Nat) (hi : i < (AD9250_TRANSF_LEN A).toNat) :
    (readFrames A)[i]? = some (frame (AD9250_READ + AD9250_ADDR A - (i : Int)) 0) := by
  simp [readFrames, hi]

theorem writeFrames_getElem (A V : Int) (i : Nat) (hi : i < (AD9250_TRANSF_LEN A).toNat) :
    (writeFrames A V)[i]? = some (frame (AD9250_WRITE + AD9250_ADDR A - (i : Int))
      (V / 2 ^ (8 * ((AD9250_TRANSF_LEN A).toNat - 1 - i)) % 256).toNat) := by
  simp [writeFrames, hi]

/-! ## Status of `ad9250_set_bits_to_reg` and of `ad9250_transfer` -/

theorem set_bits_status {σ : Type} (bus : Bus σ) (dev : ad9250_dev σ) (A : Int)
    (bits_value mask : Nat) :
    (ad9250_set_bits_to_reg bus dev A bits_value mask).1 = 0 ∨
    (ad9250_set_bits_to_reg bus dev A bits_value mask).1 = -1 := by
  unfold ad9250_set_bits_to_reg
  simp only
  split
  · right; assumption
  · split
    · right; assumption
    · left; rfl

theorem readOrShadow_ne {σ : Type} (bus : Bus σ)
    (hbus : ∀ s f n, (bus.write_and_read s f n).1 ≠ -1) (dev : ad9250_dev σ) (A : Int)
    (hL : AD9250_TRANSF_LEN A ≤ 3) :
    (readOrShadow bus dev A).1 ≠ -1 := by
  unfold readOrShadow
  simp only [ad9250_is_shadow_register_wrap, ad9250_read_wrap]
  have hr := ad9250_is_shadow_register_range A
  have hn := ad9250_read_ne bus hbus dev A hL
  split
  · simp only
    omega
  · exact hn

theorem set_bits_ok {σ : Type} (bus : Bus σ)
    (hbus : ∀ s f n, (bus.write_and_read s f n).1 ≠ -1) (dev : ad9250_dev σ) (A : Int)
    (bits_value mask : Nat) (hL : AD9250_TRANSF_LEN A ≤ 3) :
    (ad9250_set_bits_to_reg bus dev A bits_value mask).1 = 0 := by
  unfold ad9250_set_bits_to_reg
  simp only
  rw [if_neg (readOrShadow_ne bus hbus dev A hL), if_neg (ad9250_write_ne bus hbus _ _ _)]

theorem ad9250_transfer_loop_ok {σ : Type} (bus : Bus σ)
    (hbus : ∀ s f n, (bus.write_and_read s f n).1 ≠ -1) (t : Nat) :
    ∀ (dev : ad9250_dev σ), (ad9250_transfer_loop bus t dev).1 = 0 := by
  induction t with
  | zero => intro dev; rfl
  | succ t ih =>
    intro dev
    simp only [ad9250_transfer_loop]
    rw [if_neg (ad9250_read_ne bus hbus dev _ (by decide))]
    split
    · exact ih _
    · rfl

theorem ad9250_transfer_ok {σ : Type} (bus : Bus σ)
    (hbus : ∀ s f n, (bus.write_and_read s f n).1 ≠ -1) (dev : ad9250_dev σ) :
    (ad9250_transfer bus dev).1 = 0 := by
  unfold ad9250_transfer
  simp only
  rw [if_neg (ad9250_write_ne bus hbus _ _ _)]
  exact ad9250_transfer_loop_ok bus hbus _ _

/-! ## `ad9250_jesd204b_set_frames` in its set branch -/

theorem set_frames_set {σ : Type} (h : ad9250_h) (bus : Bus σ)
    (hbus : ∀ s f n, (bus.write_and_read s f n).1 ≠ -1) (dev : ad9250_dev σ) (k : Int)
    (hk : 0 ≤ k ∧ k ≤ 32) :
    ad9250_jesd204b_set_frames h bus dev k =
      ((k + 2) / 4 * 4,
       (ad9250_write bus dev h.AD9250_REG_204B_PARAM_K ((k + 2) / 4 * 4 - 1)).2) := by
  have hb : k ≥ 0 ∧ k ≤ 32 := ⟨hk.1, hk.2⟩
  have hr : (if k % 4 ≠ 0 then (if k % 4 < 2 then k - k % 4 else k + (4 - k % 4)) else k)
      = (k + 2) / 4 * 4 := by
    split
    · split <;> omega
    · omega
  unfold ad9250_jesd204b_set_frames
  simp only [if_pos hb, Int.tmod_eq_emod hk.1 (by norm_num : (0 : Int) ≤ 4), hr]
  rw [if_neg (ad9250_write_ne bus hbus _ _ _)]

/-! ## Device set-up: the copy loop and the sequencing of calls -/

theorem ad9250_setup_copy_getElem (n : Nat) :
    ∀ (i : Nat) (regs : List Int) (j : Nat),
      (ad9250_setup_copy n i regs)[j]? =
        if i ≤ j ∧ j < i + n ∧ j < regs.length then some (shadow_regs.getD j 0)
        else regs[j]? := by
  induction n with
  | zero =>
    intro i regs j
    simp only [ad9250_setup_copy]
    rw [if_neg (by omega)]
  | succ n ih =>
    intro i regs j
    simp only [ad9250_setup_copy]
    rw [ih, List.length_set, List.getElem?_set]
    by_cases hij : i = j
    · subst hij
      by_cases hl : i < regs.length
      · simp [hl]
      · have : regs[i]? = none := List.getElem?_eq_none_iff.mpr (by omega)
        simp [hl, this]
    · by_cases hc : i + 1 ≤ j ∧ j < i + 1 + n ∧ j < regs.length
      · rw [if_pos hc, if_pos (by omega)]
      · rw [if_neg hc, if_neg hij, if_neg (by omega)]

theorem ad9250_setup_copy_eq (mem : List Int) (hmem : mem.length = SHADOW_REGISTER_COUNT) :
    ad9250_setup_copy SHADOW_REGISTER_COUNT 0 mem = shadow_regs := by
  apply List.ext_getElem?
  intro j
  rw [ad9250_setup_copy_getElem, hmem]
  unfold SHADOW_REGISTER_COUNT
  by_cases hj : j < 15
  · rw [if_pos (by omega)]
    interval_cases j <;> rfl
  · rw [if_neg (by omega)]
    rw [List.getElem?_eq_none_iff.mpr (by unfold SHADOW_REGISTER_COUNT at hmem; omega),
      List.getElem?_eq_none_iff.mpr (by simp [shadow_regs]; omega)]

theorem orReturn_elim {σ : Type} (Q : Int × ad9250_dev σ → Prop) (r : Int × ad9250_dev σ)
    (rest : ad9250_dev σ → Int × ad9250_dev σ)
    (h1 : r.1 = -1 → Q r) (h2 : r.1 ≠ -1 → Q (rest r.2)) : Q (orReturn r rest) := by
  unfold orReturn
  split
  · exact h1 (by assumption)
  · exact h2 (by assumption)

theorem orReturn_ok {σ : Type} (r : Int × ad9250_dev σ)
    (rest : ad9250_dev σ → Int × ad9250_dev σ) (h : r.1 ≠ -1) :
    orReturn r rest = rest r.2 := by
  unfold orReturn
  rw [if_neg h]

theorem orReturnNone_elim {σ : Type} (Q : Int × Option (ad9250_dev σ) → Prop)
    (r : Int × ad9250_dev σ) (rest : ad9250_dev σ → Int × Option (ad9250_dev σ))
    (h1 : r.1 = -1 → Q (r.1, none)) (h2 : r.1 ≠ -1 → Q (rest r.2)) :
    Q (orReturnNone r rest) := by
  unfold orReturnNone
  split
  · exact h1 (by assumption)
  · exact h2 (by assumption)

theorem orReturnNone_ok {σ : Type} (r : Int × ad9250_dev σ)
    (rest : ad9250_dev σ → Int × Option (ad9250_dev σ)) (h : r.1 ≠ -1) :
    orReturnNone r rest = rest r.2 := by
  unfold orReturnNone
  rw [if_neg h]

/-- A slot that no step changes is unchanged by the sequence. -/
theorem orReturn_slot {σ : Type} (r : Int × ad9250_dev σ)
    (rest : ad9250_dev σ → Int × ad9250_dev σ) (j : Nat) (x : Option Int)
    (h1 : r.2.shadow_regs[j]? = x)
    (h2 : ∀ d : ad9250_dev σ, d.shadow_regs[j]? = x → (rest d).2.shadow_regs[j]? = x) :
    (orReturn r rest).2.shadow_regs[j]? = x :=
  orReturn_elim (fun y => y.2.shadow_regs[j]? = x) r rest (fun _ => h1) (fun _ => h2 _ h1)

theorem orReturnNone_slot {σ : Type} (r : Int × ad9250_dev σ)
    (rest : ad9250_dev σ → Int × Option (ad9250_dev σ)) (j : Nat) (x : Option Int)
    (h1 : r.2.shadow_regs[j]? = x)
    (h2 : ∀ d : ad9250_dev σ, d.shadow_regs[j]? = x →
      ∀ d2, (rest d).2 = some d2 → d2.shadow_regs[j]? = x) :
    ∀ d2, (orReturnNone r rest).2 = some d2 → d2.shadow_regs[j]? = x :=
  orReturnNone_elim (fun y => ∀ d2, y.2 = some d2 → d2.shadow_regs[j]? = x) r rest
    (fun _ d2 hd => by simp at hd) (fun _ => h2 _ h1)

/-- The status of a sequence of steps none of which fails. -/
theorem orReturn_ne {σ : Type} (r : Int × ad9250_dev σ)
    (rest : ad9250_dev σ → Int × ad9250_dev σ)
    (h1 : r.1 ≠ -1) (h2 : ∀ d : ad9250_dev σ, (rest d).1 ≠ -1) :
    (orReturn r rest).1 ≠ -1 := by
  rw [orReturn_ok r rest h1]
  exact h2 _

/-- The traffic of a sequence of steps extends the traffic before it. -/
theorem orReturn_sent {σ : Type} (r : Int × ad9250_dev σ)
    (rest : ad9250_dev σ → Int × ad9250_dev σ) (old : List Xfer)
    (h1 : ∃ l, r.2.spi_desc.sent = old ++ l)
    (h2 : ∀ d : ad9250_dev σ, ∃ l, (rest d).2.spi_desc.sent = d.spi_desc.sent ++ l) :
    ∃ l, (orReturn r rest).2.spi_desc.sent = old ++ l := by
  apply orReturn_elim (fun y => ∃ l, y.2.spi_desc.sent = old ++ l)
  · intro _
    exact h1
  · intro _
    obtain ⟨l1, hl1⟩ := h1
    obtain ⟨l2, hl2⟩ := h2 r.2
    exact ⟨l1 ++ l2, by rw [hl2, hl1, List.append_assoc]⟩

/-! ## Device set-up: the slots of the shadow table -/

theorem set_frames_slot_other {σ : Type} (h : ad9250_h) (bus : Bus σ) (dev : ad9250_dev σ)
    (k : Int) (j : Nat)
    (hj : 0 < ad9250_is_shadow_register h.AD9250_REG_204B_PARAM_K →
      j ≠ (ad9250_is_shadow_register h.AD9250_REG_204B_PARAM_K).toNat) :
    (ad9250_jesd204b_set_frames h bus dev k).2.shadow_regs[j]? = dev.shadow_regs[j]? := by
  unfold ad9250_jesd204b_set_frames
  simp only
  split
  · rw [if_status_snd]
    exact ad9250_write_slot_other bus dev _ _ j hj
  · rw [ad9250_read_shadow]

theorem invert_logic_slot_other {σ : Type} (h : ad9250_setup_h) (bus : Bus σ)
    (dev : ad9250_dev σ) (invert : Int) (j : Nat)
    (hj : 0 < ad9250_is_shadow_register h.AD9250_REG_204B_CTRL2 →
      j ≠ (ad9250_is_shadow_register h.AD9250_REG_204B_CTRL2).toNat) :
    (ad9250_jesd204b_invert_logic h bus dev invert).2.shadow_regs[j]?
      = dev.shadow_regs[j]? := by
  unfold ad9250_jesd204b_invert_logic
  simp only
  split
  · exact set_bits_slot_other bus dev _ _ _ j hj
  · split
    · simp only [ad9250_read_shadow]
    · simp only [ad9250_read_shadow]

theorem jesd204b_setup_slot {σ : Type} (h : ad9250_setup_h) (bus : Bus σ) (st : ad9250_state)
    (dev : ad9250_dev σ) (j : Nat) (x : Option Int)
    (hj : ∀ A ∈ ad9250_jesd204b_setup_registers h, 0 < ad9250_is_shadow_register A →
      j ≠ (ad9250_is_shadow_register A).toNat)
    (hd : dev.shadow_regs[j]? = x) :
    (ad9250_jesd204b_setup h bus st dev).2.shadow_regs[j]? = x := by
  unfold ad9250_jesd204b_setup
  refine orReturn_slot _ _ j x ?_ (fun dev hd => ?_)
  · exact (set_bits_slot_other _ _ _ _ _ j
      (hj _ (by simp [ad9250_jesd204b_setup_registers]))).trans hd
  refine orReturn_slot _ _ j x ?_ (fun dev hd => ?_)
  · exact (ad9250_write_slot_other _ _ _ _ j
      (hj _ (by simp [ad9250_jesd204b_setup_registers]))).trans hd
  refine orReturn_slot _ _ j x ?_ (fun dev hd => ?_)
  · exact (ad9250_write_slot_other _ _ _ _ j
      (hj _ (by simp [ad9250_jesd204b_setup_registers]))).trans hd
  refine orReturn_slot _ _ j x ?_ (fun dev hd => ?_)
  · exact (set_bits_slot_other _ _ _ _ _ j
      (hj _ (by simp [ad9250_jesd204b_setup_registers]))).trans hd
  refine orReturn_slot _ _ j x ?_ (fun dev hd => ?_)
  · exact (set_bits_slot_other _ _ _ _ _ j
      (hj _ (by simp [ad9250_jesd204b_setup_registers]))).trans hd
  refine orReturn_slot _ _ j x ?_ (fun dev hd => ?_)
  · exact (set_bits_slot_other _ _ _ _ _ j
      (hj _ (by simp [ad9250_jesd204b_setup_registers]))).trans hd
  refine orReturn_slot _ _ j x ?_ (fun dev hd => ?_)
  · exact (set_bits_slot_other _ _ _ _ _ j
      (hj _ (by simp [ad9250_jesd204b_setup_registers]))).trans hd
  refine orReturn_slot _ _ j x ?_ (fun dev hd => ?_)
  · exact (congrArg (fun l : List Int => l[j]?) (ad9250_transfer_shadow _ _)).trans hd
  refine orReturn_slot _ _ j x ?_ (fun dev hd => ?_)
  · split
    · exact (set_bits_slot_other _ _ _ _ _ j
        (hj _ (by simp [ad9250_jesd204b_setup_registers]))).trans hd
    · exact hd
  refine orReturn_slot _ _ j x ?_ (fun dev hd => ?_)
  · exact (ad9250_write_slot_other _ _ _ _ j
      (hj _ (by simp [ad9250_jesd204b_setup_registers]))).trans hd
  refine orReturn_slot _ _ j x ?_ (fun dev hd => ?_)
  · exact (ad9250_write_slot_other _ _ _ _ j
      (hj _ (by simp [ad9250_jesd204b_setup_registers]))).trans hd
  refine orReturn_slot _ _ j x ?_ (fun dev hd => ?_)
  · exact (ad9250_write_slot_other _ _ _ _ j
      (hj _ (by simp [ad9250_jesd204b_setup_registers]))).trans hd
  refine orReturn_slot _ _ j x ?_ (fun dev hd => ?_)
  · exact (ad9250_write_slot_other _ _ _ _ j
      (hj _ (by simp [ad9250_jesd204b_setup_registers]))).trans hd
  refine orReturn_slot _ _ j x ?_ (fun dev hd => ?_)
  · exact (set_frames_slot_other _ _ _ _ j
      (hj _ (by simp [ad9250_jesd204b_setup_registers]))).trans hd
  refine orReturn_slot _ _ j x ?_ (fun dev hd => ?_)
  · exact (set_bits_slot_other _ _ _ _ _ j
      (hj _ (by simp [ad9250_jesd204b_setup_registers]))).trans hd
  refine orReturn_slot _ _ j x ?_ (fun dev hd => ?_)
  · exact (set_bits_slot_other _ _ _ _ _ j
      (hj _ (by simp [ad9250_jesd204b_setup_registers]))).trans hd
  refine orReturn_slot _ _ j x ?_ (fun dev hd => ?_)
  · exact (set_bits_slot_other _ _ _ _ _ j
      (hj _ (by simp [ad9250_jesd204b_setup_registers]))).trans hd
  refine orReturn_slot _ _ j x ?_ (fun dev hd => ?_)
  · exact (invert_logic_slot_other _ _ _ _ j
      (hj _ (by simp [ad9250_jesd204b_setup_registers]))).trans hd
  refine orReturn_slot _ _ j x ?_ (fun dev hd => ?_)
  · exact (ad9250_write_slot_other _ _ _ _ j
      (hj _ (by simp [ad9250_jesd204b_setup_registers]))).trans hd
  refine orReturn_slot _ _ j x ?_ (fun dev hd => ?_)
  · exact (congrArg (fun l : List Int => l[j]?) (ad9250_transfer_shadow _ _)).trans hd
  refine orReturn_slot _ _ j x ?_ (fun dev hd => ?_)
  · exact (ad9250_write_slot_other _ _ _ _ j
      (hj _ (by simp [ad9250_jesd204b_setup_registers]))).trans hd
  refine orReturn_slot _ _ j x ?_ (fun dev hd => ?_)
  · exact (ad9250_write_slot_other _ _ _ _ j
      (hj _ (by simp [ad9250_jesd204b_setup_registers]))).trans hd
  exact (set_bits_slot_other _ _ _ _ _ j
    (hj _ (by simp [ad9250_jesd204b_setup_registers]))).trans hd

theorem fast_detect_setup_slot {σ : Type} (h : ad9250_setup_h) (bus : Bus σ)
    (st : ad9250_state) (dev : ad9250_dev σ) (j : Nat) (x : Option Int)
    (hj : ∀ A ∈ ad9250_fast_detect_setup_registers h, 0 < ad9250_is_shadow_register A →
      j ≠ (ad9250_is_shadow_register A).toNat)
    (hd : dev.shadow_regs[j]? = x) :
    (ad9250_fast_detect_setup h bus st dev).2.shadow_regs[j]? = x := by
  unfold ad9250_fast_detect_setup
  repeat
    (refine orReturn_slot _ _ j x ?_ (fun dev hd => ?_)
     · exact (ad9250_write_slot_other _ _ _ _ j
          (hj _ (by simp [ad9250_fast_detect_setup_registers]))).trans hd)
  exact (ad9250_write_slot_other _ _ _ _ j
    (hj _ (by simp [ad9250_fast_detect_setup_registers]))).trans hd

theorem setup_slot {σ : Type} (h : ad9250_setup_h) (bus : Bus σ) (mem : List Int)
    (spi : Int × σ) (st : ad9250_state) (hmem : mem.length = SHADOW_REGISTER_COUNT) (j : Nat)
    (hj : ∀ A ∈ ad9250_setup_registers h, 0 < ad9250_is_shadow_register A →
      j ≠ (ad9250_is_shadow_register A).toNat) :
    ∀ d : ad9250_dev σ, (ad9250_setup h bus (some mem) spi st).2 = some d →
      d.shadow_regs[j]? = shadow_regs[j]? := by
  have hJ : ∀ A ∈ ad9250_jesd204b_setup_registers h, 0 < ad9250_is_shadow_register A →
      j ≠ (ad9250_is_shadow_register A).toNat := by
    intro A hA
    exact hj A (by simp [ad9250_setup_registers, hA])
  have hF : ∀ A ∈ ad9250_fast_detect_setup_registers h, 0 < ad9250_is_shadow_register A →
      j ≠ (ad9250_is_shadow_register A).toNat := by
    intro A hA
    exact hj A (by simp [ad9250_setup_registers, hA])
  unfold ad9250_setup
  simp only [ad9250_setup_copy_eq mem hmem]
  split
  · intro d hd
    simp at hd
  · refine orReturnNone_slot _ _ j _ ?_ (fun dev hd => ?_)
    · rw [ad9250_write_slot_other _ _ _ _ j (fun hp => absurd hp (by decide)),
        ad9250_soft_reset_shadow]
    refine orReturnNone_slot _ _ j _ ?_ (fun dev hd => ?_)
    · exact (set_bits_slot_other _ _ _ _ _ j (hj _ (by simp [ad9250_setup_registers]))).trans hd
    refine orReturnNone_slot _ _ j _ ?_ (fun dev hd => ?_)
    · exact (ad9250_write_slot_other _ _ _ _ j (hj _ (by simp [ad9250_setup_registers]))).trans hd
    refine orReturnNone_slot _ _ j _ ?_ (fun dev hd => ?_)
    · exact (ad9250_write_slot_other _ _ _ _ j (hj _ (by simp [ad9250_setup_registers]))).trans hd
    refine orReturnNone_slot _ _ j _ ?_ (fun dev hd => ?_)
    · exact (ad9250_write_slot_other _ _ _ _ j (hj _ (by simp [ad9250_setup_registers]))).trans hd
    refine orReturnNone_slot _ _ j _ ?_ (fun dev hd => ?_)
    · exact (ad9250_write_slot_other _ _ _ _ j (hj _ (by simp [ad9250_setup_registers]))).trans hd
    refine orReturnNone_slot _ _ j _ ?_ (fun dev hd => ?_)
    · exact (congrArg (fun l : List Int => l[j]?) (ad9250_transfer_shadow _ _)).trans hd
    refine orReturnNone_slot _ _ j _ ?_ (fun dev hd => ?_)
    · exact jesd204b_setup_slot h bus st _ j _ hJ hd
    refine orReturnNone_slot _ _ j _ ?_ (fun dev hd => ?_)
    · exact fast_detect_setup_slot h bus st _ j _ hF hd
    intro d2 hd2
    simp only [Option.some.injEq] at hd2
    rw [← hd2]
    exact (congrArg (fun l : List Int => l[j]?) (ad9250_transfer_shadow _ _)).trans hd

/-! ## Device set-up: which slots the written registers use -/

theorem shadow_indices_slot (h : ad9250_setup_h) (hS : h.ShadowIndices) (j : Nat)
    (hj : j = 0 ∨ j = 3 ∨ j = 4 ∨ j = 5 ∨ j = 9 ∨ j = 10) :
    ∀ A ∈ ad9250_setup_registers h, 0 < ad9250_is_shadow_register A →
      j ≠ (ad9250_is_shadow_register A).toNat := by
  unfold ad9250_setup_h.ShadowIndices at hS
  simp only [List.mem_cons, List.mem_singleton, List.not_mem_nil, or_false,
    forall_eq_or_imp, forall_eq] at hS
  have c1 : ad9250_is_shadow_register AD9250_REG_SPI_CFG = 0 := by decide
  have c2 : ad9250_is_shadow_register AD9250_REG_DEVICE_UPDATE = 0 := by decide
  intro A hA hp
  simp only [ad9250_setup_registers, ad9250_jesd204b_setup_registers,
    ad9250_fast_detect_setup_registers, List.mem_append, List.mem_cons, List.mem_singleton,
    List.not_mem_nil, or_false] at hA
  rcases hA with ((hA | hA | hA | hA | hA | hA | hA) |
    (hA | hA | hA | hA | hA | hA | hA | hA | hA | hA | hA | hA | hA | hA | hA | hA | hA | hA)) |
    (hA | hA | hA | hA) <;> subst hA <;> omega

theorem setup_stored_of_success {σ : Type} (h : ad9250_setup_h) (bus : Bus σ)
    (no_os_malloc : Option (List Int)) (spi : Int × σ) (st : ad9250_state)
    (hs : (ad9250_setup h bus no_os_malloc spi st).1 ≠ -1) :
    ∃ d : ad9250_dev σ, (ad9250_setup h bus no_os_malloc spi st).2 = some d := by
  revert hs
  unfold ad9250_setup
  split
  · intro hs
    exact absurd rfl hs
  · simp only
    split
    · rename_i hspi
      intro hs
      exact absurd hspi hs
    · repeat
        (refine orReturnNone_elim (fun y => y.1 ≠ -1 → ∃ d : ad9250_dev σ, y.2 = some d) _ _
          (fun hr hs => absurd hr hs) (fun _ => ?_))
      intro _
      exact ⟨_, rfl⟩

/-! ## Device set-up on a transport that does not fail -/

theorem set_bits_ne {σ : Type} (bus : Bus σ)
    (hbus : ∀ s f n, (bus.write_and_read s f n).1 ≠ -1) (dev : ad9250_dev σ) (A : Int)
    (bits_value mask : Nat) (hL : AD9250_TRANSF_LEN A ≤ 3) :
    (ad9250_set_bits_to_reg bus dev A bits_value mask).1 ≠ -1 := by
  rw [set_bits_ok bus hbus dev A bits_value mask hL]
  decide

theorem ad9250_transfer_ne {σ : Type} (bus : Bus σ)
    (hbus : ∀ s f n, (bus.write_and_read s f n).1 ≠ -1) (dev : ad9250_dev σ) :
    (ad9250_transfer bus dev).1 ≠ -1 := by
  rw [ad9250_transfer_ok bus hbus dev]
  decide

theorem set_frames_ne {σ : Type} (h : ad9250_h) (bus : Bus σ)
    (hbus : ∀ s f n, (bus.write_and_read s f n).1 ≠ -1) (dev : ad9250_dev σ) (k : Int)
    (hL : AD9250_TRANSF_LEN h.AD9250_REG_204B_PARAM_K ≤ 3) :
    (ad9250_jesd204b_set_frames h bus dev k).1 ≠ -1 := by
  by_cases hk : 0 ≤ k ∧ k ≤ 32
  · rw [set_frames_set h bus hbus dev k hk]
    simp only
    omega
  · unfold ad9250_jesd204b_set_frames
    rw [if_neg (by omega)]
    exact ad9250_read_ne bus hbus dev _ hL

theorem invert_logic_ne {σ : Type} (h : ad9250_setup_h) (bus : Bus σ)
    (hbus : ∀ s f n, (bus.write_and_read s f n).1 ≠ -1) (dev : ad9250_dev σ) (invert : Int)
    (hL : AD9250_TRANSF_LEN h.AD9250_REG_204B_CTRL2 ≤ 3) :
    (ad9250_jesd204b_invert_logic h bus dev invert).1 ≠ -1 := by
  unfold ad9250_jesd204b_invert_logic
  simp only
  split
  · rw [set_bits_ok bus hbus dev _ _ _ hL]
    show i32 (u32 0) ≠ -1
    decide
  · have hr := ad9250_read_ne bus hbus dev _ hL
    have hrange := ad9250_read_range bus dev h.AD9250_REG_204B_CTRL2
    rw [if_neg (by rw [u32_eq_minus_one _ hrange]; exact hr)]
    simp only
    split <;> decide

theorem jesd204b_setup_ne {σ : Type} (h : ad9250_setup_h) (bus : Bus σ)
    (hbus : ∀ s f n, (bus.write_and_read s f n).1 ≠ -1) (hR : h.ReadLengths)
    (st : ad9250_state) (dev : ad9250_dev σ) :
    (ad9250_jesd204b_setup h bus st dev).1 ≠ -1 := by
  unfold ad9250_setup_h.ReadLengths at hR
  unfold ad9250_jesd204b_setup
  refine orReturn_ne _ _ ?_ (fun dev => ?_)
  · exact set_bits_ne bus hbus _ _ _ _ (hR _ (by simp))
  refine orReturn_ne _ _ ?_ (fun dev => ?_)
  · exact ad9250_write_ne bus hbus _ _ _
  refine orReturn_ne _ _ ?_ (fun dev => ?_)
  · exact ad9250_write_ne bus hbus _ _ _
  refine orReturn_ne _ _ ?_ (fun dev => ?_)
  · exact set_bits_ne bus hbus _ _ _ _ (hR _ (by simp))
  refine orReturn_ne _ _ ?_ (fun dev => ?_)
  · exact set_bits_ne bus hbus _ _ _ _ (hR _ (by simp))
  refine orReturn_ne _ _ ?_ (fun dev => ?_)
  · exact set_bits_ne bus hbus _ _ _ _ (hR _ (by simp))
  refine orReturn_ne _ _ ?_ (fun dev => ?_)
  · exact set_bits_ne bus hbus _ _ _ _ (hR _ (by simp))
  refine orReturn_ne _ _ ?_ (fun dev => ?_)
  · exact ad9250_transfer_ne bus hbus _
  refine orReturn_ne _ _ ?_ (fun dev => ?_)
  · split
    · exact set_bits_ne bus hbus _ _ _ _ (hR _ (by simp))
    · show (0 : Int) ≠ -1
      decide
  refine orReturn_ne _ _ ?_ (fun dev => ?_)
  · exact ad9250_write_ne bus hbus _ _ _
  refine orReturn_ne _ _ ?_ (fun dev => ?_)
  · exact ad9250_write_ne bus hbus _ _ _
  refine orReturn_ne _ _ ?_ (fun dev => ?_)
  · exact ad9250_write_ne bus hbus _ _ _
  refine orReturn_ne _ _ ?_ (fun dev => ?_)
  · exact ad9250_write_ne bus hbus _ _ _
  refine orReturn_ne _ _ ?_ (fun dev => ?_)
  · exact set_frames_ne _ bus hbus _ _ (hR _ (by simp))
  refine orReturn_ne _ _ ?_ (fun dev => ?_)
  · exact set_bits_ne bus hbus _ _ _ _ (hR _ (by simp))
  refine orReturn_ne _ _ ?_ (fun dev => ?_)
  · exact set_bits_ne bus hbus _ _ _ _ (hR _ (by simp))
  refine orReturn_ne _ _ ?_ (fun dev => ?_)
  · exact set_bits_ne bus hbus _ _ _ _ (hR _ (by simp))
  refine orReturn_ne _ _ ?_ (fun dev => ?_)
  · exact invert_logic_ne h bus hbus _ _ (hR _ (by simp))
  refine orReturn_ne _ _ ?_ (fun dev => ?_)
  · exact ad9250_write_ne bus hbus _ _ _
  refine orReturn_ne _ _ ?_ (fun dev => ?_)
  · exact ad9250_transfer_ne bus hbus _
  refine orReturn_ne _ _ ?_ (fun dev => ?_)
  · exact ad9250_write_ne bus hbus _ _ _
  refine orReturn_ne _ _ ?_ (fun dev => ?_)
  · exact ad9250_write_ne bus hbus _ _ _
  exact set_bits_ne bus hbus _ _ _ _ (hR _ (by simp))

theorem fast_detect_setup_ok {σ : Type} (h : ad9250_setup_h) (bus : Bus σ)
    (hbus : ∀ s f n, (bus.write_and_read s f n).1 ≠ -1) (st : ad9250_state)
    (dev : ad9250_dev σ) :
    (ad9250_fast_detect_setup h bus st dev).1 ≠ -1 ∧
    (ad9250_fast_detect_setup h bus st dev).2.spi_desc.sent = dev.spi_desc.sent ++
      (writeFrames h.AD9250_REG_FAST_DETECT
          (lor32 (lor32 (lor32
            (h.AD9250_FAST_DETECT_OUTPUT_ENABLE * st.p_fd.en_fd)
            (h.AD9250_FAST_DETECT_FORCE_FDA_FDB_VAL * st.p_fd.pin_force_value))
            (h.AD9250_FAST_DETECT_FORCE_FDA_FDB_PIN * st.p_fd.force_pins))
            (h.AD9250_FAST_DETECT_PIN_FCT * st.p_fd.pin_function)) ++
        writeFrames h.AD9250_REG_FD_UPPER_THD st.p_fd.fd_upper_tresh ++
        writeFrames h.AD9250_REG_FD_LOWER_THD st.p_fd.fd_lower_tresh ++
        writeFrames h.AD9250_REG_FD_DWELL_TIME st.p_fd.df_dwell_time).map xfer3 := by
  have hw : ∀ (d : ad9250_dev σ) (A V : Int), (ad9250_write bus d A V).2.spi_desc.sent
      = d.spi_desc.sent ++ (writeFrames A V).map xfer3 := by
    intro d A V
    rw [ad9250_write_traffic_ok bus d A V (exchanges_clean bus hbus _ _)]
  unfold ad9250_fast_detect_setup
  rw [orReturn_ok _ _ (ad9250_write_ne bus hbus _ _ _),
    orReturn_ok _ _ (ad9250_write_ne bus hbus _ _ _),
    orReturn_ok _ _ (ad9250_write_ne bus hbus _ _ _)]
  refine ⟨ad9250_write_ne bus hbus _ _ _, ?_⟩
  rw [hw, hw, hw, hw]
  simp only [List.map_append, List.append_assoc]

theorem ad9250_transfer_sent {σ : Type} (bus : Bus σ) (dev : ad9250_dev σ) :
    ∃ m : Nat, m ≤ 65535 ∧
      ((∀ s f n, (bus.write_and_read s f n).1 ≠ -1) → 1 ≤ m) ∧
      (ad9250_transfer bus dev).2.spi_desc.sent
        = dev.spi_desc.sent ++ xfer3 [0, 255, 1] :: List.replicate m (xfer3 [128, 255, 0]) := by
  unfold ad9250_transfer
  simp only [ad9250_write_device_update]
  split
  · rename_i hf
    exact ⟨0, by omega, fun hbus => absurd hf (hbus _ _ _), by simp⟩
  · obtain ⟨m, hm1, hm2, hs, _⟩ := transfer_loop_trace bus 65535
      { spi_desc :=
          { state := (bus.write_and_read dev.spi_desc.state [0, 255, 1] 3).2.2,
            sent := dev.spi_desc.sent ++ [xfer3 [0, 255, 1]] },
        shadow_regs := dev.shadow_regs } (by norm_num)
    refine ⟨m, hm2, fun _ => hm1, ?_⟩
    rw [hs]
    simp only [List.append_assoc, List.singleton_append]

/-! ## Device set-up: the traffic only grows -/

theorem ad9250_write_sent_ext {σ : Type} (bus : Bus σ) (dev : ad9250_dev σ) (A V : Int) :
    ∃ l, (ad9250_write bus dev A V).2.spi_desc.sent = dev.spi_desc.sent ++ l := by
  obtain ⟨j, hj⟩ := ad9250_write_sent_prefix bus dev A V
  exact ⟨_, hj⟩

theorem ad9250_read_sent_ext {σ : Type} (bus : Bus σ) (dev : ad9250_dev σ) (A : Int) :
    ∃ l, (ad9250_read bus dev A).2.spi_desc.sent = dev.spi_desc.sent ++ l := by
  obtain ⟨j, hj⟩ := ad9250_read_sent_prefix bus dev A
  exact ⟨_, hj⟩

theorem ad9250_transfer_sent_ext {σ : Type} (bus : Bus σ) (dev : ad9250_dev σ) :
    ∃ l, (ad9250_transfer bus dev).2.spi_desc.sent = dev.spi_desc.sent ++ l := by
  obtain ⟨m, _, _, hm⟩ := ad9250_transfer_sent bus dev
  exact ⟨_, hm⟩

theorem set_bits_sent_ext {σ : Type} (bus : Bus σ) (dev : ad9250_dev σ) (A : Int)
    (bits_value mask : Nat) :
    ∃ l, (ad9250_set_bits_to_reg bus dev A bits_value mask).2.spi_desc.sent
      = dev.spi_desc.sent ++ l := by
  have hc : ∃ l, (readOrShadow bus dev A).2.2.spi_desc.sent = dev.spi_desc.sent ++ l := by
    unfold readOrShadow
    simp only
    split
    · exact ⟨[], by simp⟩
    · split
      · exact ad9250_read_sent_ext bus dev _
      · exact ad9250_read_sent_ext bus dev _
  obtain ⟨l1, hl1⟩ := hc
  unfold ad9250_set_bits_to_reg
  simp only
  split
  · exact ⟨l1, hl1⟩
  · rw [set_bits_snd]
    obtain ⟨l2, hl2⟩ := ad9250_write_sent_ext bus (readOrShadow bus dev A).2.2 (i32 (u32 A))
      (u8 ((u8 (land32 (readOrShadow bus dev A).2.1 (not32 mask)) ||| bits_value : Nat) : Int))
    exact ⟨l1 ++ l2, by rw [hl2, hl1, List.append_assoc]⟩

theorem set_frames_sent_ext {σ : Type} (h : ad9250_h) (bus : Bus σ) (dev : ad9250_dev σ)
    (k : Int) :
    ∃ l, (ad9250_jesd204b_set_frames h bus dev k).2.spi_desc.sent
      = dev.spi_desc.sent ++ l := by
  unfold ad9250_jesd204b_set_frames
  simp only
  split
  · rw [if_status_snd]
    exact ad9250_write_sent_ext bus dev _ _
  · exact ad9250_read_sent_ext bus dev _

theorem invert_logic_sent_ext {σ : Type} (h : ad9250_setup_h) (bus : Bus σ)
    (dev : ad9250_dev σ) (invert : Int) :
    ∃ l, (ad9250_jesd204b_invert_logic h bus dev invert).2.spi_desc.sent
      = dev.spi_desc.sent ++ l := by
  unfold ad9250_jesd204b_invert_logic
  simp only
  split
  · exact set_bits_sent_ext bus dev _ _ _
  · split
    · exact ad9250_read_sent_ext bus dev _
    · exact ad9250_read_sent_ext bus dev _

theorem jesd204b_setup_sent_ext {σ : Type} (h : ad9250_setup_h) (bus : Bus σ)
    (st : ad9250_state) (dev : ad9250_dev σ) :
    ∃ l, (ad9250_jesd204b_setup h bus st dev).2.spi_desc.sent = dev.spi_desc.sent ++ l := by
  unfold ad9250_jesd204b_setup
  refine orReturn_sent _ _ _ ?_ (fun dev => ?_)
  · exact set_bits_sent_ext bus _ _ _ _
  refine orReturn_sent _ _ _ ?_ (fun dev => ?_)
  · exact ad9250_write_sent_ext bus _ _ _
  refine orReturn_sent _ _ _ ?_ (fun dev => ?_)
  · exact ad9250_write_sent_ext bus _ _ _
  refine orReturn_sent _ _ _ ?_ (fun dev => ?_)
  · exact set_bits_sent_ext bus _ _ _ _
  refine orReturn_sent _ _ _ ?_ (fun dev => ?_)
  · exact set_bits_sent_ext bus _ _ _ _
  refine orReturn_sent _ _ _ ?_ (fun dev => ?_)
  · exact set_bits_sent_ext bus _ _ _ _
  refine orReturn_sent _ _ _ ?_ (fun dev => ?_)
  · exact set_bits_sent_ext bus _ _ _ _
  refine orReturn_sent _ _ _ ?_ (fun dev => ?_)
  · exact ad9250_transfer_sent_ext bus _
  refine orReturn_sent _ _ _ ?_ (fun dev => ?_)
  · split
    · exact set_bits_sent_ext bus _ _ _ _
    · exact ⟨[], by simp⟩
  refine orReturn_sent _ _ _ ?_ (fun dev => ?_)
  · exact ad9250_write_sent_ext bus _ _ _
  refine orReturn_sent _ _ _ ?_ (fun dev => ?_)
  · exact ad9250_write_sent_ext bus _ _ _
  refine orReturn_sent _ _ _ ?_ (fun dev => ?_)
  · exact ad9250_write_sent_ext bus _ _ _
  refine orReturn_sent _ _ _ ?_ (fun dev => ?_)
  · exact ad9250_write_sent_ext bus _ _ _
  refine orReturn_sent _ _ _ ?_ (fun dev => ?_)
  · exact set_frames_sent_ext _ bus _ _
  refine orReturn_sent _ _ _ ?_ (fun dev => ?_)
  · exact set_bits_sent_ext bus _ _ _ _
  refine orReturn_sent _ _ _ ?_ (fun dev => ?_)
  · exact set_bits_sent_ext bus _ _ _ _
  refine orReturn_sent _ _ _ ?_ (fun dev => ?_)
  · exact set_bits_sent_ext bus _ _ _ _
  refine orReturn_sent _ _ _ ?_ (fun dev => ?_)
  · exact invert_logic_sent_ext h bus _ _
  refine orReturn_sent _ _ _ ?_ (fun dev => ?_)
  · exact ad9250_write_sent_ext bus _ _ _
  refine orReturn_sent _ _ _ ?_ (fun dev => ?_)
  · exact ad9250_transfer_sent_ext bus _
  refine orReturn_sent _ _ _ ?_ (fun dev => ?_)
  · exact ad9250_write_sent_ext bus _ _ _
  refine orReturn_sent _ _ _ ?_ (fun dev => ?_)
  · exact ad9250_write_sent_ext bus _ _ _
  exact set_bits_sent_ext bus _ _ _ _

/-! ## The direction bit of the frames of a read and of a write -/

theorem readFrames_commandWord (A : Int) (ha : AD9250_TRANSF_LEN A - 1 ≤ AD9250_ADDR A) :
    ∀ f ∈ readFrames A, commandWord f / 32768 % 2 = 1 := by
  intro f hf
  simp only [readFrames, List.mem_map, List.mem_range] at hf
  obtain ⟨i, hi, rfl⟩ := hf
  have h1 := AD9250_ADDR_range A
  have h2 := AD9250_TRANSF_LEN_nonneg A
  rw [commandWord_frame]
  unfold AD9250_READ
  omega

theorem writeFrames_commandWord (A V : Int) (ha : AD9250_TRANSF_LEN A - 1 ≤ AD9250_ADDR A) :
    ∀ f ∈ writeFrames A V, commandWord f / 32768 % 2 = 0 := by
  intro f hf
  simp only [writeFrames, List.mem_map, List.mem_range] at hf
  obtain ⟨i, hi, rfl⟩ := hf
  have h1 := AD9250_ADDR_range A
  have h2 := AD9250_TRANSF_LEN_nonneg A
  rw [commandWord_frame]
  unfold AD9250_WRITE
  omega

theorem taken_frames_forall (P : List Nat → Prop) (fs : List (List Nat)) (j : Nat)
    (hP : ∀ f ∈ fs, P f) : ∀ x ∈ (fs.take j).map xfer3, P x.data := by
  intro x hx
  simp only [List.mem_map] at hx
  obtain ⟨f, hf, rfl⟩ := hx
  exact hP f (List.mem_of_mem_take hf)

theorem new_frames_forall (P : List Nat → Prop) (sent old : List Xfer)
    (fs : List (List Nat)) (j : Nat) (h : sent = old ++ (fs.take j).map xfer3)
    (hP : ∀ f ∈ fs, P f) : ∀ l : List Xfer, sent = old ++ l → ∀ x ∈ l, P x.data := by
  intro l hl x hx
  have hll : l = (fs.take j).map xfer3 := List.append_cancel_left (hl.symm.trans h)
  rw [hll] at hx
  exact taken_frames_forall P fs j hP x hx

/-! # The claims -/

/-- C1: write-through despite failure. For every register address `A` whose
shadow index `k` is in 1..14, every value `V`, every handle with a 15-entry
shadow table and every transport behaviour, after `ad9250_write(dev, A, V)`
slot `k` of the shadow table holds `V`, whatever status the write returns. -/
theorem ad9250_write_through {σ : Type} (bus : Bus σ) (dev : ad9250_dev σ) (A V : Int)
    (hk : 1 ≤ ad9250_is_shadow_register A ∧ ad9250_is_shadow_register A ≤ 14)
    (hlen : dev.shadow_regs.length = SHADOW_REGISTER_COUNT) :
    (ad9250_write bus dev A V).2.shadow_regs[(ad9250_is_shadow_register A).toNat]? = some V := by
  rw [ad9250_write_shadow, if_pos (by omega)]
  rw [List.getElem?_set_self]
  · unfold SHADOW_REGISTER_COUNT at hlen
    omega

/-- Witness for C1: on the transport whose every exchange returns -1, writing 5
to the shadowed register with index 7 returns -1 and slot 7 holds 5. -/
theorem ad9250_write_through_witness :
    (1 ≤ ad9250_is_shadow_register 459032 ∧ ad9250_is_shadow_register 459032 ≤ 14) ∧
    devDead.shadow_regs.length = SHADOW_REGISTER_COUNT ∧
    (ad9250_write deadBus devDead 459032 5).1 = -1 ∧
    (ad9250_write deadBus devDead 459032 5).2.shadow_regs[
      (ad9250_is_shadow_register 459032).toNat]? = some 5 :=
  ⟨by decide, by decide, by decide,
    ad9250_write_through deadBus devDead 459032 5 (by decide) (by decide)⟩

/-- C2, as stated, fails: after writing 256 to the shadowed register with
index 7, the current-value step of `ad9250_set_bits_to_reg` yields 0, because
the current value is held in a `uint8_t`. -/
theorem readOrShadow_after_write_counterexample :
    ((readOrShadow regfile (ad9250_write regfile devRegfile 459032 256).2 459032).2.1 : Int)
      ≠ 256 := by
  decide

/-- C2, amended: for every shadowed address `A` (shadow index 1..14), every
value `V` and every transport behaviour, `ad9250_write(dev, A, V)` followed by
the current-value step of `ad9250_set_bits_to_reg` yields `V mod 256` (exactly
`V` when `0 <= V <= 255`), does not fail, and leaves the handle as the write
left it: no bus exchange takes place. -/
theorem readOrShadow_after_write {σ : Type} (bus : Bus σ) (dev : ad9250_dev σ) (A V : Int)
    (hk : 1 ≤ ad9250_is_shadow_register A ∧ ad9250_is_shadow_register A ≤ 14)
    (hlen : dev.shadow_regs.length = SHADOW_REGISTER_COUNT) :
    (readOrShadow bus (ad9250_write bus dev A V).2 A).2.1 = (V % 256).toNat ∧
    (0 ≤ V ∧ V ≤ 255 →
      ((readOrShadow bus (ad9250_write bus dev A V).2 A).2.1 : Int) = V) ∧
    (readOrShadow bus (ad9250_write bus dev A V).2 A).1 ≠ -1 ∧
    (readOrShadow bus (ad9250_write bus dev A V).2 A).2.2 = (ad9250_write bus dev A V).2 ∧
    (readOrShadow bus (ad9250_write bus dev A V).2 A).2.2.spi_desc.sent
      = (ad9250_write bus dev A V).2.spi_desc.sent := by
  have hpos : ad9250_is_shadow_register A > 0 := by omega
  have hval : (readOrShadow bus (ad9250_write bus dev A V).2 A)
      = (ad9250_is_shadow_register A, (V % 256).toNat, (ad9250_write bus dev A V).2) := by
    unfold readOrShadow
    simp only [ad9250_is_shadow_register_wrap, if_pos hpos]
    rw [ad9250_write_shadow, if_pos hpos, List.getD_eq_getElem?_getD,
      List.getElem?_set_self (by unfold SHADOW_REGISTER_COUNT at hlen; omega)]
    rfl
  rw [hval]
  refine ⟨rfl, ?_, ?_, rfl, rfl⟩
  · intro h; simp only; omega
  · simp only; omega

/-- Witness for C2 (amended): on the failing transport, writing 5 to the
shadowed register with index 7 and then taking the current value yields 5. -/
theorem readOrShadow_after_write_witness :
    (1 ≤ ad9250_is_shadow_register 459032 ∧ ad9250_is_shadow_register 459032 ≤ 14) ∧
    devDead.shadow_regs.length = SHADOW_REGISTER_COUNT ∧
    (ad9250_write deadBus devDead 459032 5).1 = -1 ∧
    (readOrShadow deadBus (ad9250_write deadBus devDead 459032 5).2 459032).2.1 = 5 :=
  ⟨by decide, by decide, by decide,
    (readOrShadow_after_write deadBus devDead 459032 5 (by decide) (by decide)).1⟩

/-- C3: slot exclusivity. For an address `A` with shadow index `k` in 1..14,
`ad9250_write` and `ad9250_set_bits_to_reg` leave every slot `j != k` of the
shadow table as it was, and their status, their bus traffic and the resulting
slot `k` are the same for any two handles that agree on the transport
descriptor and on slot `k`, whatever the other slots hold. -/
theorem ad9250_slot_exclusive {σ : Type} (bus : Bus σ) (dev : ad9250_dev σ) (A V : Int)
    (bits_value mask : Nat)
    (hk : 1 ≤ ad9250_is_shadow_register A ∧ ad9250_is_shadow_register A ≤ 14) :
    (∀ j : Nat, j ≠ (ad9250_is_shadow_register A).toNat →
      (ad9250_write bus dev A V).2.shadow_regs[j]? = dev.shadow_regs[j]? ∧
      (ad9250_set_bits_to_reg bus dev A bits_value mask).2.shadow_regs[j]?
        = dev.shadow_regs[j]?) ∧
    (∀ dev2 : ad9250_dev σ, dev2.spi_desc = dev.spi_desc →
      dev2.shadow_regs[(ad9250_is_shadow_register A).toNat]?
        = dev.shadow_regs[(ad9250_is_shadow_register A).toNat]? →
      ((ad9250_write bus dev2 A V).1 = (ad9250_write bus dev A V).1 ∧
       (ad9250_write bus dev2 A V).2.spi_desc = (ad9250_write bus dev A V).2.spi_desc ∧
       (ad9250_write bus dev2 A V).2.shadow_regs[(ad9250_is_shadow_register A).toNat]?
        = (ad9250_write bus dev A V).2.shadow_regs[(ad9250_is_shadow_register A).toNat]?) ∧
      ((ad9250_set_bits_to_reg bus dev2 A bits_value mask).1
        = (ad9250_set_bits_to_reg bus dev A bits_value mask).1 ∧
       (ad9250_set_bits_to_reg bus dev2 A bits_value mask).2.spi_desc
        = (ad9250_set_bits_to_reg bus dev A bits_value mask).2.spi_desc ∧
       (ad9250_set_bits_to_reg bus dev2 A bits_value mask).2.shadow_regs[
          (ad9250_is_shadow_register A).toNat]?
        = (ad9250_set_bits_to_reg bus dev A bits_value mask).2.shadow_regs[
          (ad9250_is_shadow_register A).toNat]?)) := by
  have hpos : ad9250_is_shadow_register A > 0 := by omega
  have hset : ∀ d : ad9250_dev σ, ad9250_set_bits_to_reg bus d A bits_value mask =
      (if (ad9250_write bus d A (u8 (((u8 (land32 (u8 (d.shadow_regs.getD
            (ad9250_is_shadow_register A).toNat 0)) (not32 mask)) ||| bits_value : Nat) : Int)))).1
          = -1 then
        ad9250_write bus d A (u8 (((u8 (land32 (u8 (d.shadow_regs.getD
            (ad9250_is_shadow_register A).toNat 0)) (not32 mask)) ||| bits_value : Nat) : Int)))
       else (0, (ad9250_write bus d A (u8 (((u8 (land32 (u8 (d.shadow_regs.getD
            (ad9250_is_shadow_register A).toNat 0)) (not32 mask)) ||| bits_value : Nat)
              : Int)))).2)) := by
    intro d
    unfold ad9250_set_bits_to_reg readOrShadow
    simp only [ad9250_is_shadow_register_wrap, if_pos hpos, ad9250_write_wrap]
    rw [if_neg (by omega)]
  refine ⟨?_, ?_⟩
  · intro j hj
    have hw : ∀ W : Int, (ad9250_write bus dev A W).2.shadow_regs[j]? = dev.shadow_regs[j]? := by
      intro W
      rw [ad9250_write_shadow, if_pos hpos, List.getElem?_set_ne (Ne.symm hj)]
    refine ⟨hw V, ?_⟩
    rw [hset]
    split
    · exact hw _
    · exact hw _
  · intro dev2 hspi hslot
    have hw : ∀ W : Int, (ad9250_write bus dev2 A W).1 = (ad9250_write bus dev A W).1 ∧
        (ad9250_write bus dev2 A W).2.spi_desc = (ad9250_write bus dev A W).2.spi_desc ∧
        (ad9250_write bus dev2 A W).2.shadow_regs[(ad9250_is_shadow_register A).toNat]?
          = (ad9250_write bus dev A W).2.shadow_regs[(ad9250_is_shadow_register A).toNat]? := by
      intro W
      refine ⟨(ad9250_write_indep bus dev2 dev A W hspi).1,
        (ad9250_write_indep bus dev2 dev A W hspi).2, ?_⟩
      rw [ad9250_write_shadow, ad9250_write_shadow, if_pos hpos, if_pos hpos]
      simp only [List.getElem?_set]
      have hl : (ad9250_is_shadow_register A).toNat < dev2.shadow_regs.length ↔
          (ad9250_is_shadow_register A).toNat < dev.shadow_regs.length := by
        rw [← not_le, ← not_le, ← List.getElem?_eq_none_iff, ← List.getElem?_eq_none_iff,
          hslot]
      simp [hl]
    refine ⟨hw V, ?_⟩
    have hg : dev2.shadow_regs.getD (ad9250_is_shadow_register A).toNat 0
        = dev.shadow_regs.getD (ad9250_is_shadow_register A).toNat 0 := by
      rw [List.getD_eq_getElem?_getD, List.getD_eq_getElem?_getD, hslot]
    rw [hset dev2, hset dev, hg]
    have h := hw (u8 (((u8 (land32 (u8 (dev.shadow_regs.getD
            (ad9250_is_shadow_register A).toNat 0)) (not32 mask)) ||| bits_value : Nat) : Int)))
    rw [h.1]
    split
    · exact h
    · exact ⟨rfl, h.2.1, h.2.2⟩

/-- Witness for C3: writing 5 to the shadowed register with index 7 on the
register-file stub leaves the sentinel slot 0 as it was. -/
theorem ad9250_slot_exclusive_witness :
    (1 ≤ ad9250_is_shadow_register 459032 ∧ ad9250_is_shadow_register 459032 ≤ 14) ∧
    (0 : Nat) ≠ (ad9250_is_shadow_register 459032).toNat ∧
    (ad9250_write regfile devRegfile 459032 5).2.shadow_regs[0]?
      = devRegfile.shadow_regs[0]? :=
  ⟨by decide, by decide,
    ((ad9250_slot_exclusive regfile devRegfile 459032 5 16 48 (by decide)).1 0
      (by decide)).1⟩

/-- C4: the shadow table is mutated only by a write to a shadowed address. For
every handle and transport behaviour, `ad9250_read` of any address `A`,
`ad9250_write` to any address `B` whose shadow index is 0, `ad9250_transfer`
and `ad9250_soft_reset` leave the whole shadow table unchanged. -/
theorem shadow_table_unchanged {σ : Type} (bus : Bus σ) (dev : ad9250_dev σ) (A B V : Int)
    (hB : ad9250_is_shadow_register B = 0) :
    (ad9250_read bus dev A).2.shadow_regs = dev.shadow_regs ∧
    (ad9250_write bus dev B V).2.shadow_regs = dev.shadow_regs ∧
    (ad9250_transfer bus dev).2.shadow_regs = dev.shadow_regs ∧
    (ad9250_soft_reset bus dev).2.shadow_regs = dev.shadow_regs := by
  have hw : ∀ (C W : Int), ad9250_is_shadow_register C = 0 →
      (ad9250_write bus dev C W).2.shadow_regs = dev.shadow_regs := by
    intro C W hC
    rw [ad9250_write_shadow, if_neg (by omega)]
  refine ⟨ad9250_read_shadow bus dev A, hw B V hB, ?_, ?_⟩
  · unfold ad9250_transfer
    simp only
    split
    · exact hw _ _ (by decide)
    · rw [ad9250_transfer_loop_shadow]
      exact hw _ _ (by decide)
  · unfold ad9250_soft_reset
    simp only
    split
    · exact hw _ _ (by decide)
    · rw [ad9250_soft_reset_loop_shadow]
      exact hw _ _ (by decide)

/-- Witness for C4: after 5 was written to the shadowed register with index 7,
a soft reset on the register-file stub leaves slot 7 at 5, not at its default 0. -/
theorem shadow_table_unchanged_witness :
    ad9250_is_shadow_register AD9250_REG_SPI_CFG = 0 ∧
    (ad9250_soft_reset regfile (ad9250_write regfile devRegfile 459032 5).2).2.shadow_regs
      = (ad9250_write regfile devRegfile 459032 5).2.shadow_regs ∧
    (ad9250_write regfile devRegfile 459032 5).2.shadow_regs[7]? = some 5 ∧
    shadow_regs[7]? = some 0 :=
  ⟨by decide,
    (shadow_table_unchanged regfile (ad9250_write regfile devRegfile 459032 5).2 0
      AD9250_REG_SPI_CFG 0 (by decide)).2.2.2,
    by decide, by decide⟩

/-- C5: round trip. Against the register-file stub, for every non-shadowed
address `A` with transfer length `n` in {1, 2, 3} and `AD9250_ADDR(A) >= n-1`,
and every `V` with `0 <= V < 256^n`, `ad9250_write(dev, A, V)` returns 0 and a
following `ad9250_read(dev, A)` returns exactly `V`. -/
theorem ad9250_round_trip (dev : ad9250_dev (Nat → Nat)) (A V : Int)
    (hs : ad9250_is_shadow_register A = 0)
    (hn : 1 ≤ AD9250_TRANSF_LEN A ∧ AD9250_TRANSF_LEN A ≤ 3)
    (ha : AD9250_TRANSF_LEN A - 1 ≤ AD9250_ADDR A)
    (hV : 0 ≤ V ∧ V < 256 ^ (AD9250_TRANSF_LEN A).toNat) :
    (ad9250_write regfile dev A V).1 = 0 ∧
    (ad9250_read regfile (ad9250_write regfile dev A V).2 A).1 = V := by
  obtain ⟨a, hA⟩ := Int.eq_ofNat_of_zero_le (AD9250_ADDR_range A).1
  have ha256 : a < 256 := by have := (AD9250_ADDR_range A).2; omega
  obtain ⟨v, rfl⟩ := Int.eq_ofNat_of_zero_le hV.1
  have key : ∀ n : Nat, AD9250_TRANSF_LEN A = (n : Int) →
      ad9250_write regfile dev A (v : Int) =
        ad9250_write_loop regfile A (v : Int) n 0 (u16 (AD9250_WRITE + (a : Int))) 0 dev ∧
      ∀ d : ad9250_dev (Nat → Nat), ad9250_read regfile d A =
        ad9250_read_loop regfile n (u32 (AD9250_READ + (a : Int))) 0 d := by
    intro n hL
    constructor
    · unfold ad9250_write
      simp only [hs, hL, hA, Int.toNat_ofNat]
      rfl
    · intro d
      unfold ad9250_read
      simp only [hL, hA, Int.toNat_ofNat]
  have hcases : AD9250_TRANSF_LEN A = ((1 : Nat) : Int) ∨ AD9250_TRANSF_LEN A = ((2 : Nat) : Int)
      ∨ AD9250_TRANSF_LEN A = ((3 : Nat) : Int) := by omega
  rcases hcases with hL | hL | hL
  · obtain ⟨kw, kr⟩ := key 1 hL
    rw [kr, kw]
    have hv : v < 256 := by
      have := hV.2; rw [hL] at this; simp at this; omega
    have hw := write_loop_ok regfile A (v : Int) 1 0 (AD9250_WRITE + (a : Int)) 0 dev
      (by rw [hL]; rfl)
    simp only [show List.range 1 = [0] from rfl, List.map_cons, List.map_nil] at hw
    simp only [Nat.cast_zero, sub_zero, Nat.sub_self, Nat.mul_zero, pow_zero, Int.ediv_one] at hw
    have f0 := frame_write_addr a 0 ((v : Int) % 256).toNat (by omega) ha256
    simp only [Nat.cast_zero, sub_zero, Nat.sub_zero] at f0
    rw [f0] at hw
    simp only [exchanges, exchangesEnd, regfile_write_frame _ a _ ha256] at hw
    rw [hw (by simp)]
    have hr := read_loop_ok regfile 1 (AD9250_READ + (a : Int)) 0
    simp only [show List.range 1 = [0] from rfl, List.map_cons, List.map_nil] at hr
    have g0 := frame_read_addr a 0 (by omega) ha256
    simp only [Nat.cast_zero, sub_zero, Nat.sub_zero] at g0 hr
    rw [g0] at hr
    simp only [exchanges, exchangesEnd, regfile_read_frame _ a ha256] at hr
    rw [hr _ (by simp)]
    simp only [List.getLast?_singleton, Option.map_some', Option.getD_some, true_and,
      List.map_cons, List.map_nil, dataByte, List.foldl_cons, List.foldl_nil,
      List.getD_cons_succ, List.getD_cons_zero, if_true]
    unfold i32
    split <;> omega
  · obtain ⟨kw, kr⟩ := key 2 hL
    rw [kr, kw]
    have hv : v < 65536 := by
      have := hV.2; rw [hL] at this; simp at this; omega
    have ha1 : 1 ≤ a := by rw [hL, hA] at ha; omega
    have hF : (List.range 2).map (fun (m : Nat) => frame (AD9250_WRITE + (a : Int) - (m : Int))
          ((v : Int) / 2 ^ (8 * (2 - 1 - m)) % 256).toNat)
        = [[0, a - 0, ((v : Int) / 2 ^ (8 * (2 - 1 - 0)) % 256).toNat],
           [0, a - 1, ((v : Int) / 2 ^ (8 * (2 - 1 - 1)) % 256).toNat]] := by
      simp only [show List.range 2 = [0, 1] from rfl, List.map_cons, List.map_nil]
      rw [frame_write_addr a 0 _ (by omega) ha256, frame_write_addr a 1 _ (by omega) ha256]
    have hG : (List.range 2).map (fun (i : Nat) => frame (AD9250_READ + (a : Int) - (i : Int)) 0)
        = [[128, a - 0, 0], [128, a - 1, 0]] := by
      simp only [show List.range 2 = [0, 1] from rfl, List.map_cons, List.map_nil]
      rw [frame_read_addr a 0 (by omega) ha256, frame_read_addr a 1 (by omega) ha256]
    have hw := write_loop_ok regfile A (v : Int) 2 0 (AD9250_WRITE + (a : Int)) 0 dev
      (by rw [hL]; rfl)
    rw [hF] at hw
    simp only [exchanges, exchangesEnd,
      regfile_write_frame _ (a - 0) _ (by omega), regfile_write_frame _ (a - 1) _ (by omega)] at hw
    rw [hw (by simp)]
    have hr := read_loop_ok regfile 2 (AD9250_READ + (a : Int)) 0
    rw [hG] at hr
    simp only [exchanges, exchangesEnd,
      regfile_read_frame _ (a - 0) (by omega), regfile_read_frame _ (a - 1) (by omega)] at hr
    rw [hr _ (by simp)]
    have n1 : a - 0 ≠ a - 1 := by omega
    simp only [List.getLast?_cons_cons, List.getLast?_singleton, Option.map_some',
      Option.getD_some, true_and, List.map_cons, List.map_nil, dataByte, List.foldl_cons,
      List.foldl_nil, List.getD_cons_succ, List.getD_cons_zero, if_true, if_neg n1]
    norm_num
    unfold i32
    split <;> omega
  · obtain ⟨kw, kr⟩ := key 3 hL
    rw [kr, kw]
    have hv : v < 16777216 := by
      have := hV.2; rw [hL] at this; simp at this; omega
    have ha1 : 2 ≤ a := by rw [hL, hA] at ha; omega
    have hF : (List.range 3).map (fun (m : Nat) => frame (AD9250_WRITE + (a : Int) - (m : Int))
          ((v : Int) / 2 ^ (8 * (3 - 1 - m)) % 256).toNat)
        = [[0, a - 0, ((v : Int) / 2 ^ (8 * (3 - 1 - 0)) % 256).toNat],
           [0, a - 1, ((v : Int) / 2 ^ (8 * (3 - 1 - 1)) % 256).toNat],
           [0, a - 2, ((v : Int) / 2 ^ (8 * (3 - 1 - 2)) % 256).toNat]] := by
      simp only [show List.range 3 = [0, 1, 2] from rfl, List.map_cons, List.map_nil]
      rw [frame_write_addr a 0 _ (by omega) ha256, frame_write_addr a 1 _ (by omega) ha256,
        frame_write_addr a 2 _ (by omega) ha256]
    have hG : (List.range 3).map (fun (i : Nat) => frame (AD9250_READ + (a : Int) - (i : Int)) 0)
        = [[128, a - 0, 0], [128, a - 1, 0], [128, a - 2, 0]] := by
      simp only [show List.range 3 = [0, 1, 2] from rfl, List.map_cons, List.map_nil]
      rw [frame_read_addr a 0 (by omega) ha256, frame_read_addr a 1 (by omega) ha256,
        frame_read_addr a 2 (by omega) ha256]
    have hw := write_loop_ok regfile A (v : Int) 3 0 (AD9250_WRITE + (a : Int)) 0 dev
      (by rw [hL]; rfl)
    rw [hF] at hw
    simp only [exchanges, exchangesEnd,
      regfile_write_frame _ (a - 0) _ (by omega), regfile_write_frame _ (a - 1) _ (by omega),
      regfile_write_frame _ (a - 2) _ (by omega)] at hw
    rw [hw (by simp)]
    have hr := read_loop_ok regfile 3 (AD9250_READ + (a : Int)) 0
    rw [hG] at hr
    simp only [exchanges, exchangesEnd,
      regfile_read_frame _ (a - 0) (by omega), regfile_read_frame _ (a - 1) (by omega),
      regfile_read_frame _ (a - 2) (by omega)] at hr
    rw [hr _ (by simp)]
    have n1 : a - 0 ≠ a - 1 := by omega
    have n2 : a - 0 ≠ a - 2 := by omega
    have n3 : a - 1 ≠ a - 2 := by omega
    simp only [List.getLast?_cons_cons, List.getLast?_singleton, Option.map_some',
      Option.getD_some, true_and, List.map_cons, List.map_nil, dataByte, List.foldl_cons,
      List.foldl_nil, List.getD_cons_succ, List.getD_cons_zero, if_true, if_neg n1, if_neg n2,
      if_neg n3]
    norm_num
    unfold i32
    split <;> omega

/-- Witness for C5: writing 0x123456 to the three-byte register at address 0x10
of the register-file stub returns 0 and reading it back returns 0x123456. -/
theorem ad9250_round_trip_witness :
    ad9250_is_shadow_register 784 = 0 ∧
    (1 ≤ AD9250_TRANSF_LEN 784 ∧ AD9250_TRANSF_LEN 784 ≤ 3) ∧
    AD9250_TRANSF_LEN 784 - 1 ≤ AD9250_ADDR 784 ∧
    ((0 : Int) ≤ 1193046 ∧ (1193046 : Int) < 256 ^ (AD9250_TRANSF_LEN 784).toNat) ∧
    (ad9250_write regfile devRegfile 784 1193046).1 = 0 ∧
    (ad9250_read regfile (ad9250_write regfile devRegfile 784 1193046).2 784).1 = 1193046 :=
  ⟨by decide, by decide, by decide, by decide,
    ad9250_round_trip devRegfile 784 1193046 (by decide) (by decide) (by decide) (by decide)⟩

/-- C6: `ad9250_read` assembles big-endian. For an address `A` with transfer
length `n` in 1..3 and a transport on which the `n` exchanges of the read all
succeed, `ad9250_read` issues exactly the `n` frames `readFrames A` (byte count
3, data byte zero, command word `AD9250_READ + AD9250_ADDR(A) - i` high byte
first), in this order, and returns the sum over `i` of `b_i * 256^(n-1-i)`,
where `b_i` is the data byte left in the buffer by the `i`-th exchange. -/
theorem ad9250_read_big_endian {σ : Type} (bus : Bus σ) (dev : ad9250_dev σ) (A : Int)
    (hn : 1 ≤ AD9250_TRANSF_LEN A ∧ AD9250_TRANSF_LEN A ≤ 3)
    (hok : ∀ r ∈ exchanges bus dev.spi_desc.state (readFrames A), r.1 ≠ -1) :
    (ad9250_read bus dev A).2.spi_desc.sent
      = dev.spi_desc.sent ++ (readFrames A).map xfer3 ∧
    (readFrames A).length = (AD9250_TRANSF_LEN A).toNat ∧
    (∀ f ∈ (readFrames A).map xfer3, f.bytes_number = 3 ∧ f.data.length = 3) ∧
    (∀ i : Nat, i < (AD9250_TRANSF_LEN A).toNat →
      (readFrames A)[i]? = some
        [((AD9250_READ + AD9250_ADDR A - (i : Int)) / 256).toNat,
         ((AD9250_READ + AD9250_ADDR A - (i : Int)) % 256).toNat, 0]) ∧
    (ad9250_read bus dev A).1 =
      ((((List.range (AD9250_TRANSF_LEN A).toNat).map
        (fun i => dataByte ((exchanges bus dev.spi_desc.state (readFrames A)).getD i (0, []))
          * 256 ^ ((AD9250_TRANSF_LEN A).toNat - 1 - i))).sum : Nat) : Int) := by
  have hlen : (readFrames A).length = (AD9250_TRANSF_LEN A).toNat := by
    simp [readFrames]
  have hR : (exchanges bus dev.spi_desc.state (readFrames A)).length
      = (AD9250_TRANSF_LEN A).toNat := by
    rw [exchanges_length, hlen]
  have h := read_loop_ok bus (AD9250_TRANSF_LEN A).toNat (AD9250_READ + AD9250_ADDR A) 0 dev hok
  refine ⟨?_, hlen, ?_, ?_, ?_⟩
  · unfold ad9250_read
    rw [h]
    rfl
  · intro f hf
    simp only [readFrames, List.map_map, List.mem_map, List.mem_range] at hf
    obtain ⟨i, _, rfl⟩ := hf
    simp [xfer3, frame]
  · intro i hi
    have ha := AD9250_ADDR_range A
    have hhi : (AD9250_READ + AD9250_ADDR A - (i : Int)) / 256 % 256
        = (AD9250_READ + AD9250_ADDR A - (i : Int)) / 256 := by
      unfold AD9250_READ; omega
    simp [readFrames, frame, hi, hhi]
  · unfold ad9250_read
    rw [h]
    have := assemble_le_three (exchanges bus dev.spi_desc.state (readFrames A))
      (by rw [hR]; omega) (by rw [hR]; omega)
    rw [hR] at this
    exact this

/-- Witness for C6: reading the three-byte register at address 0x10 of the
register-file stub in its initial state sends three frames and returns 0. -/
theorem ad9250_read_big_endian_witness :
    (1 ≤ AD9250_TRANSF_LEN 784 ∧ AD9250_TRANSF_LEN 784 ≤ 3) ∧
    (∀ r ∈ exchanges regfile devRegfile.spi_desc.state (readFrames 784), r.1 ≠ -1) ∧
    readFrames 784 = [[128, 16, 0], [128, 15, 0], [128, 14, 0]] ∧
    (ad9250_read regfile devRegfile 784).2.spi_desc.sent
      = devRegfile.spi_desc.sent ++ (readFrames 784).map xfer3 :=
  ⟨by decide, by decide, by decide,
    (ad9250_read_big_endian regfile devRegfile 784 (by decide) (by decide)).1⟩

/-- C7: `ad9250_write` decomposes most-significant byte first. For an address
`A` with transfer length `n` in 1..3, every value `V` and a transport on which
the exchanges of the write all succeed, `ad9250_write` issues exactly the `n`
frames `writeFrames A V` (byte count 3, data byte `(V >> (8*(n-1-i))) & 0xFF`,
command word `AD9250_WRITE + AD9250_ADDR(A) - i`, taken as the 16-bit word the
`uint16_t` local holds, high byte first), in this order; the frames depend on
`V` only through its low `8n` bits. -/
theorem ad9250_write_msb_first {σ : Type} (bus : Bus σ) (dev : ad9250_dev σ) (A V : Int)
    (hn : 1 ≤ AD9250_TRANSF_LEN A ∧ AD9250_TRANSF_LEN A ≤ 3)
    (hok : ∀ r ∈ exchanges bus dev.spi_desc.state (writeFrames A V), r.1 ≠ -1) :
    (ad9250_write bus dev A V).2.spi_desc.sent
      = dev.spi_desc.sent ++ (writeFrames A V).map xfer3 ∧
    (writeFrames A V).length = (AD9250_TRANSF_LEN A).toNat ∧
    (∀ f ∈ (writeFrames A V).map xfer3, f.bytes_number = 3 ∧ f.data.length = 3) ∧
    (∀ i : Nat, i < (AD9250_TRANSF_LEN A).toNat →
      (writeFrames A V)[i]? = some
        [((AD9250_WRITE + AD9250_ADDR A - (i : Int)) / 256 % 256).toNat,
         ((AD9250_WRITE + AD9250_ADDR A - (i : Int)) % 256).toNat,
         (V / 2 ^ (8 * ((AD9250_TRANSF_LEN A).toNat - 1 - i)) % 256).toNat]) ∧
    (∀ V2 : Int, V2 % 2 ^ (8 * (AD9250_TRANSF_LEN A).toNat)
        = V % 2 ^ (8 * (AD9250_TRANSF_LEN A).toNat) →
      writeFrames A V2 = writeFrames A V) := by
  have hlen : (writeFrames A V).length = (AD9250_TRANSF_LEN A).toNat := by
    simp [writeFrames]
  refine ⟨?_, hlen, ?_, ?_, ?_⟩
  · have key : ∀ d : ad9250_dev σ, d.spi_desc = dev.spi_desc →
        (ad9250_write_loop bus A V (AD9250_TRANSF_LEN A).toNat 0
          (u16 (AD9250_WRITE + AD9250_ADDR A)) (ad9250_is_shadow_register A) d).2.spi_desc.sent
          = dev.spi_desc.sent ++ (writeFrames A V).map xfer3 := by
      intro d hd
      have h := write_loop_ok bus A V (AD9250_TRANSF_LEN A).toNat 0
        (AD9250_WRITE + AD9250_ADDR A) (ad9250_is_shadow_register A) d
        (by have := AD9250_TRANSF_LEN_nonneg A; omega) (by rw [hd]; exact hok)
      rw [h, hd]
      rfl
    unfold ad9250_write
    simp only
    split
    · exact key _ rfl
    · exact key _ rfl
  · intro f hf
    simp only [writeFrames, List.map_map, List.mem_map, List.mem_range] at hf
    obtain ⟨i, _, rfl⟩ := hf
    simp [xfer3, frame]
  · intro i hi
    simp [writeFrames, frame, hi]
  · intro V2 hV
    have hcases : (AD9250_TRANSF_LEN A).toNat = 1 ∨ (AD9250_TRANSF_LEN A).toNat = 2
        ∨ (AD9250_TRANSF_LEN A).toNat = 3 := by omega
    unfold writeFrames
    apply List.map_congr_left
    intro i hi
    rw [List.mem_range] at hi
    congr 2
    rcases hcases with h | h | h
    · rw [h] at hV hi ⊢
      have hi0 : i = 0 := by omega
      subst hi0
      norm_num at hV ⊢
      omega
    · rw [h] at hV hi ⊢
      have hi0 : i = 0 ∨ i = 1 := by omega
      rcases hi0 with rfl | rfl <;> norm_num at hV ⊢ <;> omega
    · rw [h] at hV hi ⊢
      have hi0 : i = 0 ∨ i = 1 ∨ i = 2 := by omega
      rcases hi0 with rfl | rfl | rfl <;> norm_num at hV ⊢ <;> omega

/-- Witness for C7: writing 0x123456 to the three-byte register at address 0x10
of the register-file stub sends the bytes 0x12, 0x34, 0x56 to the addresses
0x10, 0x0F, 0x0E. -/
theorem ad9250_write_msb_first_witness :
    (1 ≤ AD9250_TRANSF_LEN 784 ∧ AD9250_TRANSF_LEN 784 ≤ 3) ∧
    (∀ r ∈ exchanges regfile devRegfile.spi_desc.state (writeFrames 784 1193046), r.1 ≠ -1) ∧
    writeFrames 784 1193046 = [[0, 16, 18], [0, 15, 52], [0, 14, 86]] ∧
    (ad9250_write regfile devRegfile 784 1193046).2.spi_desc.sent
      = devRegfile.spi_desc.sent ++ (writeFrames 784 1193046).map xfer3 :=
  ⟨by decide, by decide, by decide,
    (ad9250_write_msb_first regfile devRegfile 784 1193046 (by decide) (by decide)).1⟩

/-- C8: `ad9250_read` fails exactly when a bus exchange fails. For an address
with transfer length `n` in 1..3, with `R` the outcomes of the frames of the
read on the transport: `ad9250_read` returns -1 if and only if one of the
exchanges returns -1; if the first failing exchange is the `j`-th, exactly the
first `j+1` frames are issued and -1 is returned; otherwise all `n` frames are
issued and the assembled value is returned. A status other than -1 counts as
success, so this covers every transport whose exchanges return 0 or -1. -/
theorem ad9250_read_error {σ : Type} (bus : Bus σ) (dev : ad9250_dev σ) (A : Int)
    (hn : 1 ≤ AD9250_TRANSF_LEN A ∧ AD9250_TRANSF_LEN A ≤ 3) :
    ((ad9250_read bus dev A).1 = -1 ↔
      ∃ r ∈ exchanges bus dev.spi_desc.state (readFrames A), r.1 = -1) ∧
    (∀ j : Nat,
      (∀ i < j, ∀ r : Int × List Nat,
        (exchanges bus dev.spi_desc.state (readFrames A))[i]? = some r → r.1 ≠ -1) →
      (∃ r : Int × List Nat,
        (exchanges bus dev.spi_desc.state (readFrames A))[j]? = some r ∧ r.1 = -1) →
      (ad9250_read bus dev A).1 = -1 ∧
      (ad9250_read bus dev A).2.spi_desc.sent
        = dev.spi_desc.sent ++ ((readFrames A).take (j + 1)).map xfer3 ∧
      ((readFrames A).take (j + 1)).length = j + 1) ∧
    ((∀ r ∈ exchanges bus dev.spi_desc.state (readFrames A), r.1 ≠ -1) →
      (ad9250_read bus dev A).2.spi_desc.sent
        = dev.spi_desc.sent ++ (readFrames A).map xfer3 ∧
      (ad9250_read bus dev A).1 =
        ((((List.range (AD9250_TRANSF_LEN A).toNat).map
          (fun i => dataByte ((exchanges bus dev.spi_desc.state (readFrames A)).getD i (0, []))
            * 256 ^ ((AD9250_TRANSF_LEN A).toNat - 1 - i))).sum : Nat) : Int)) := by
  have hlen : (readFrames A).length = (AD9250_TRANSF_LEN A).toNat := by
    simp [readFrames]
  have hR : (exchanges bus dev.spi_desc.state (readFrames A)).length
      = (AD9250_TRANSF_LEN A).toNat := by
    rw [exchanges_length, hlen]
  have hfail : ∀ j : Nat,
      (∀ i < j, ∀ r : Int × List Nat,
        (exchanges bus dev.spi_desc.state (readFrames A))[i]? = some r → r.1 ≠ -1) →
      (∃ r : Int × List Nat,
        (exchanges bus dev.spi_desc.state (readFrames A))[j]? = some r ∧ r.1 = -1) →
      (ad9250_read bus dev A).1 = -1 ∧
      (ad9250_read bus dev A).2.spi_desc.sent
        = dev.spi_desc.sent ++ ((readFrames A).take (j + 1)).map xfer3 ∧
      ((readFrames A).take (j + 1)).length = j + 1 := by
    intro j h1 h2
    have h := read_loop_fail bus (AD9250_TRANSF_LEN A).toNat (AD9250_READ + AD9250_ADDR A) 0
      dev j h1 h2
    refine ⟨h.1, h.2, ?_⟩
    obtain ⟨r, hr, _⟩ := h2
    have hj : j < (exchanges bus dev.spi_desc.state (readFrames A)).length := by
      by_contra hc
      rw [List.getElem?_eq_none (by omega)] at hr
      exact absurd hr (by simp)
    rw [List.length_take, hlen]
    omega
  have hok : (∀ r ∈ exchanges bus dev.spi_desc.state (readFrames A), r.1 ≠ -1) →
      (ad9250_read bus dev A).2.spi_desc.sent
        = dev.spi_desc.sent ++ (readFrames A).map xfer3 ∧
      (ad9250_read bus dev A).1 =
        ((((List.range (AD9250_TRANSF_LEN A).toNat).map
          (fun i => dataByte ((exchanges bus dev.spi_desc.state (readFrames A)).getD i (0, []))
            * 256 ^ ((AD9250_TRANSF_LEN A).toNat - 1 - i))).sum : Nat) : Int) := by
    intro h0
    have h := read_loop_ok bus (AD9250_TRANSF_LEN A).toNat (AD9250_READ + AD9250_ADDR A) 0
      dev h0
    constructor
    · unfold ad9250_read
      rw [h]
      rfl
    · unfold ad9250_read
      rw [h]
      have := assemble_le_three (exchanges bus dev.spi_desc.state (readFrames A))
        (by rw [hR]; omega) (by rw [hR]; omega)
      rw [hR] at this
      exact this
  refine ⟨?_, hfail, hok⟩
  constructor
  · intro hret
    by_contra hc
    have h0 : ∀ r ∈ exchanges bus dev.spi_desc.state (readFrames A), r.1 ≠ -1 := by
      intro r hr hr1
      exact hc ⟨r, hr, hr1⟩
    have := (hok h0).2
    rw [hret] at this
    have h2 := Int.ofNat_nonneg (((List.range (AD9250_TRANSF_LEN A).toNat).map
          (fun i => dataByte ((exchanges bus dev.spi_desc.state (readFrames A)).getD i (0, []))
            * 256 ^ ((AD9250_TRANSF_LEN A).toNat - 1 - i))).sum)
    omega
  · intro hex
    obtain ⟨j, hj1, hj2⟩ := first_failure _ hex
    exact (hfail j hj1 hj2).1

/-- Witness for C8: on the transport whose every exchange returns -1, a read of
a three-byte register returns -1 after a single frame. -/
theorem ad9250_read_error_witness :
    (1 ≤ AD9250_TRANSF_LEN 784 ∧ AD9250_TRANSF_LEN 784 ≤ 3) ∧
    (ad9250_read deadBus devDead 784).1 = -1 ∧
    (ad9250_read deadBus devDead 784).2.spi_desc.sent = [⟨[128, 16, 0], 3⟩] :=
  ⟨by decide,
    ((ad9250_read_error deadBus devDead 784 (by decide)).2.1 0 (by decide) (by decide)).1,
    by decide⟩

/-- C9: `ad9250_write` returns 0 or the transport error. For an address `A`
(shadowed or not) with transfer length `n` in 1..3 and a transport whose
exchanges each return 0 or -1, with `R` the outcomes of the frames of the write:
if all exchanges return 0 the write returns 0 after all `n` frames; if the
first failing exchange is the `j`-th it returns -1 after exactly `j+1` frames;
in every case the status is 0 or -1, never the shadow index. -/
theorem ad9250_write_status {σ : Type} (bus : Bus σ) (dev : ad9250_dev σ) (A V : Int)
    (hn : 1 ≤ AD9250_TRANSF_LEN A ∧ AD9250_TRANSF_LEN A ≤ 3)
    (hbus : ∀ s f n, (bus.write_and_read s f n).1 = 0 ∨ (bus.write_and_read s f n).1 = -1) :
    ((∀ r ∈ exchanges bus dev.spi_desc.state (writeFrames A V), r.1 = 0) →
      (ad9250_write bus dev A V).1 = 0 ∧
      (ad9250_write bus dev A V).2.spi_desc.sent
        = dev.spi_desc.sent ++ (writeFrames A V).map xfer3) ∧
    (∀ j : Nat,
      (∀ i < j, ∀ r : Int × List Nat,
        (exchanges bus dev.spi_desc.state (writeFrames A V))[i]? = some r → r.1 ≠ -1) →
      (∃ r : Int × List Nat,
        (exchanges bus dev.spi_desc.state (writeFrames A V))[j]? = some r ∧ r.1 = -1) →
      (ad9250_write bus dev A V).1 = -1 ∧
      (ad9250_write bus dev A V).2.spi_desc.sent
        = dev.spi_desc.sent ++ ((writeFrames A V).take (j + 1)).map xfer3 ∧
      ((writeFrames A V).take (j + 1)).length = j + 1) ∧
    ((∃ r ∈ exchanges bus dev.spi_desc.state (writeFrames A V), r.1 = -1) →
      (ad9250_write bus dev A V).1 = -1) ∧
    ((ad9250_write bus dev A V).1 = 0 ∨ (ad9250_write bus dev A V).1 = -1) := by
  have hL : AD9250_TRANSF_LEN A = ((0 : Nat) : Int) + (((AD9250_TRANSF_LEN A).toNat : Nat) : Int) := by
    have := AD9250_TRANSF_LEN_nonneg A; omega
  have hlen : (writeFrames A V).length = (AD9250_TRANSF_LEN A).toNat := by
    simp [writeFrames]
  have hR : (exchanges bus dev.spi_desc.state (writeFrames A V)).length
      = (AD9250_TRANSF_LEN A).toNat := by
    rw [exchanges_length, hlen]
  -- the handle entering the loop has the descriptor of `dev`
  have hrun : ∃ d : ad9250_dev σ, d.spi_desc = dev.spi_desc ∧
      ad9250_write bus dev A V = ad9250_write_loop bus A V (AD9250_TRANSF_LEN A).toNat 0
        (u16 (AD9250_WRITE + AD9250_ADDR A)) (ad9250_is_shadow_register A) d := by
    unfold ad9250_write
    simp only
    split
    · exact ⟨{ dev with shadow_regs :=
        dev.shadow_regs.set (ad9250_is_shadow_register A).toNat V }, rfl, rfl⟩
    · exact ⟨dev, rfl, rfl⟩
  obtain ⟨d, hd, hw⟩ := hrun
  rw [hw]
  have hfail : ∀ j : Nat,
      (∀ i < j, ∀ r : Int × List Nat,
        (exchanges bus dev.spi_desc.state (writeFrames A V))[i]? = some r → r.1 ≠ -1) →
      (∃ r : Int × List Nat,
        (exchanges bus dev.spi_desc.state (writeFrames A V))[j]? = some r ∧ r.1 = -1) →
      (ad9250_write_loop bus A V (AD9250_TRANSF_LEN A).toNat 0
        (u16 (AD9250_WRITE + AD9250_ADDR A)) (ad9250_is_shadow_register A) d).1 = -1 ∧
      (ad9250_write_loop bus A V (AD9250_TRANSF_LEN A).toNat 0
        (u16 (AD9250_WRITE + AD9250_ADDR A)) (ad9250_is_shadow_register A) d).2.spi_desc.sent
        = dev.spi_desc.sent ++ ((writeFrames A V).take (j + 1)).map xfer3 ∧
      ((writeFrames A V).take (j + 1)).length = j + 1 := by
    intro j h1 h2
    have h := write_loop_fail bus A V (AD9250_TRANSF_LEN A).toNat 0
      (AD9250_WRITE + AD9250_ADDR A) (ad9250_is_shadow_register A) d j hL
      (by rw [hd]; exact h1) (by rw [hd]; exact h2)
    refine ⟨h.1, by rw [h.2, hd]; rfl, ?_⟩
    obtain ⟨r, hr, _⟩ := h2
    have hj : j < (exchanges bus dev.spi_desc.state (writeFrames A V)).length := by
      by_contra hc
      rw [List.getElem?_eq_none (by omega)] at hr
      exact absurd hr (by simp)
    rw [List.length_take, hlen]
    omega
  refine ⟨?_, hfail, ?_, ?_⟩
  · intro h0
    have hne : ∀ r ∈ exchanges bus d.spi_desc.state (writeFrames A V), r.1 ≠ -1 := by
      intro r hr
      rw [hd] at hr
      rw [h0 r hr]
      decide
    have h := write_loop_ok bus A V (AD9250_TRANSF_LEN A).toNat 0
      (AD9250_WRITE + AD9250_ADDR A) (ad9250_is_shadow_register A) d hL hne
    rw [h]
    refine ⟨?_, by rw [hd]; rfl⟩
    simp only
    have hne2 : exchanges bus dev.spi_desc.state (writeFrames A V) ≠ [] := by
      intro hc
      rw [hc] at hR
      simp at hR
      omega
    rw [hd]
    obtain ⟨x, hx⟩ := Option.isSome_iff_exists.mp
      (List.getLast?_isSome.mpr hne2)
    have hx0 := h0 x (List.mem_of_getLast?_eq_some hx)
    unfold writeFrames at hx
    rw [hx]
    simpa using hx0
  · intro hex
    obtain ⟨j, hj1, hj2⟩ := first_failure _ hex
    exact (hfail j hj1 hj2).1
  · apply ad9250_write_loop_status bus A V hbus
    intro h
    omega

/-- Witness for C9: on the transport whose every exchange returns -1, a write
to the shadowed one-byte register with index 7 returns -1, not 7, after a
single frame. -/
theorem ad9250_write_status_witness :
    (1 ≤ AD9250_TRANSF_LEN 459032 ∧ AD9250_TRANSF_LEN 459032 ≤ 3) ∧
    (∀ s f n, (deadBus.write_and_read s f n).1 = 0 ∨ (deadBus.write_and_read s f n).1 = -1) ∧
    ((ad9250_write deadBus devDead 459032 5).1 = 0 ∨
      (ad9250_write deadBus devDead 459032 5).1 = -1) ∧
    (ad9250_write deadBus devDead 459032 5).1 = -1 :=
  ⟨by decide, fun _ _ _ => Or.inr rfl,
    (ad9250_write_status deadBus devDead 459032 5 (by decide) (fun _ _ _ => Or.inr rfl)).2.2.2,
    by decide⟩

/-- C10: `ad9250_set_bits_to_reg` computes `(current AND NOT mask) OR
bits_value` on 8 bits and writes it back. For 8-bit `bits_value` and `mask`:
if `A` is shadowed with index `k` in 1..14 and slot value `s`, the value passed
to `ad9250_write` is `((s mod 256) & ~mask & 0xFF) | bits_value` and slot `k`
holds it after the call; if `A` is not shadowed and `ad9250_read` succeeds with
value `r`, the value passed to `ad9250_write` is
`((r mod 256) & ~mask & 0xFF) | bits_value`. The function returns 0 unless the
read or the write returned -1. -/
theorem ad9250_set_bits_value {σ : Type} (bus : Bus σ) (dev : ad9250_dev σ) (A : Int)
    (bits_value mask : Nat) (hb : bits_value < 256) (hm : mask < 256) :
    (1 ≤ ad9250_is_shadow_register A ∧ ad9250_is_shadow_register A ≤ 14 →
      dev.shadow_regs.length = SHADOW_REGISTER_COUNT →
      ad9250_set_bits_to_reg bus dev A bits_value mask =
        (if (ad9250_write bus dev A
            (((((dev.shadow_regs.getD (ad9250_is_shadow_register A).toNat 0 % 256).toNat
              &&& (255 - mask)) ||| bits_value : Nat) : Int))).1 = -1
         then ad9250_write bus dev A
            (((((dev.shadow_regs.getD (ad9250_is_shadow_register A).toNat 0 % 256).toNat
              &&& (255 - mask)) ||| bits_value : Nat) : Int))
         else (0, (ad9250_write bus dev A
            (((((dev.shadow_regs.getD (ad9250_is_shadow_register A).toNat 0 % 256).toNat
              &&& (255 - mask)) ||| bits_value : Nat) : Int))).2)) ∧
      (ad9250_set_bits_to_reg bus dev A bits_value mask).2.shadow_regs[
          (ad9250_is_shadow_register A).toNat]?
        = some (((((dev.shadow_regs.getD (ad9250_is_shadow_register A).toNat 0 % 256).toNat
              &&& (255 - mask)) ||| bits_value : Nat) : Int))) ∧
    (ad9250_is_shadow_register A = 0 → (ad9250_read bus dev A).1 ≠ -1 →
      ad9250_set_bits_to_reg bus dev A bits_value mask =
        (if (ad9250_write bus (ad9250_read bus dev A).2 A
            ((((((ad9250_read bus dev A).1 % 256).toNat
              &&& (255 - mask)) ||| bits_value : Nat) : Int))).1 = -1
         then ad9250_write bus (ad9250_read bus dev A).2 A
            ((((((ad9250_read bus dev A).1 % 256).toNat
              &&& (255 - mask)) ||| bits_value : Nat) : Int))
         else (0, (ad9250_write bus (ad9250_read bus dev A).2 A
            ((((((ad9250_read bus dev A).1 % 256).toNat
              &&& (255 - mask)) ||| bits_value : Nat) : Int))).2))) ∧
    ((ad9250_set_bits_to_reg bus dev A bits_value mask).1 = 0 ∨
      (ad9250_set_bits_to_reg bus dev A bits_value mask).1 = -1) := by
  have hval : ∀ c : Int, (u8 (((u8 (land32 ((u8 c : Nat) : Int) (not32 (mask : Int)))
      ||| bits_value : Nat) : Int)) : Nat) = ((c % 256).toNat &&& (255 - mask)) ||| bits_value := by
    intro c
    have hc : u8 c < 256 := by unfold u8; omega
    rw [clear_bits _ _ hc hm]
    have hle : u8 c &&& (255 - mask) ≤ u8 c := Nat.and_le_left
    rw [or_byte _ _ (by omega) hb]
    rfl
  refine ⟨?_, ?_, ?_⟩
  · intro hk hlen
    have hpos : ad9250_is_shadow_register A > 0 := by omega
    have heq : ad9250_set_bits_to_reg bus dev A bits_value mask =
        (if (ad9250_write bus dev A
            (((((dev.shadow_regs.getD (ad9250_is_shadow_register A).toNat 0 % 256).toNat
              &&& (255 - mask)) ||| bits_value : Nat) : Int))).1 = -1
         then ad9250_write bus dev A
            (((((dev.shadow_regs.getD (ad9250_is_shadow_register A).toNat 0 % 256).toNat
              &&& (255 - mask)) ||| bits_value : Nat) : Int))
         else (0, (ad9250_write bus dev A
            (((((dev.shadow_regs.getD (ad9250_is_shadow_register A).toNat 0 % 256).toNat
              &&& (255 - mask)) ||| bits_value : Nat) : Int))).2)) := by
      unfold ad9250_set_bits_to_reg readOrShadow
      simp only [ad9250_is_shadow_register_wrap, if_pos hpos, ad9250_write_wrap, hval]
      rw [if_neg (by omega)]
    refine ⟨heq, ?_⟩
    rw [heq]
    have hs := ad9250_write_slot bus dev A
      (((((dev.shadow_regs.getD (ad9250_is_shadow_register A).toNat 0 % 256).toNat
              &&& (255 - mask)) ||| bits_value : Nat) : Int)) hk hlen
    split
    · exact hs
    · exact hs
  · intro h0 hr
    have hro : readOrShadow bus dev A = ((ad9250_read bus dev A).1,
        u8 (ad9250_read bus dev A).1, (ad9250_read bus dev A).2) := by
      unfold readOrShadow
      simp only [ad9250_is_shadow_register_wrap, h0, ad9250_read_wrap]
      rw [if_neg (by decide), if_neg hr]
    unfold ad9250_set_bits_to_reg
    simp only [hro, if_neg hr, ad9250_write_wrap, hval]
  · unfold ad9250_set_bits_to_reg
    simp only
    split
    · right; assumption
    · split
      · right; assumption
      · left; rfl

/-- Witness for C10: on the register-file stub, setting bits 0x10 under mask
0x30 in the shadowed register with index 6 (default 0x01) returns 0 and leaves
0x11 in slot 6. -/
theorem ad9250_set_bits_value_witness :
    (16 : Nat) < 256 ∧ (48 : Nat) < 256 ∧
    (1 ≤ ad9250_is_shadow_register 393492 ∧ ad9250_is_shadow_register 393492 ≤ 14) ∧
    devRegfile.shadow_regs.length = SHADOW_REGISTER_COUNT ∧
    (ad9250_set_bits_to_reg regfile devRegfile 393492 16 48).1 = 0 ∧
    (ad9250_set_bits_to_reg regfile devRegfile 393492 16 48).2.shadow_regs[6]? = some 17 :=
  ⟨by decide, by decide, by decide, by decide, by decide,
    ((ad9250_set_bits_value regfile devRegfile 393492 16 48 (by decide) (by decide)).1
      (by decide) (by decide)).2⟩

/-- C11, as stated, fails, in two ways. With mask 0x01 and bits_value 0x02 on
the shadowed register with index 7 holding 0, the value written back is 0x02:
it differs from the current value in bit 1, where the mask is 0. And with the
slot holding 256, mask 0 and bits_value 0, the value written back is 0: it
differs from the current value in bit 8. -/
theorem set_bits_other_bits_counterexample :
    (devRegfile.shadow_regs[7]? = some 0 ∧
     (ad9250_set_bits_to_reg regfile devRegfile 459032 2 1).2.shadow_regs[7]? = some 2 ∧
     (ad9250_set_bits_to_reg regfile devRegfile 459032 2 1).2.spi_desc.sent
       = [⟨[0, 24, 2], 3⟩] ∧
     Nat.testBit 1 1 = false ∧ Nat.testBit 2 1 ≠ Nat.testBit 0 1) ∧
    ((ad9250_write deadBus devDead 459032 256).2.shadow_regs[7]? = some 256 ∧
     (ad9250_set_bits_to_reg deadBus (ad9250_write deadBus devDead 459032 256).2
       459032 0 0).2.shadow_regs[7]? = some 0 ∧
     Nat.testBit 0 8 = false ∧ Nat.testBit 0 8 ≠ Nat.testBit 256 8) := by
  decide

/-- C11, amended: for every register address, every current register value
`c` (shadow slot value for a shadowed register, device read value otherwise),
every 8-bit mask and every 8-bit bits_value that has no bit set outside the
mask, the value passed to `ad9250_write` is `setBitsValue c bits_value mask`
and it agrees with the low byte of `c` on every bit position where the mask
is 0. -/
theorem set_bits_other_bits {σ : Type} (bus : Bus σ) (dev : ad9250_dev σ) (A : Int)
    (bits_value mask : Nat) (hb : bits_value < 256) (hm : mask < 256)
    (hin : bits_value &&& (255 - mask) = 0) :
    (ad9250_is_shadow_register A > 0 →
      (ad9250_set_bits_to_reg bus dev A bits_value mask).2 =
        (ad9250_write bus dev A ((setBitsValue
          (dev.shadow_regs.getD (ad9250_is_shadow_register A).toNat 0)
          bits_value mask : Nat) : Int)).2) ∧
    (ad9250_is_shadow_register A = 0 → (ad9250_read bus dev A).1 ≠ -1 →
      (ad9250_set_bits_to_reg bus dev A bits_value mask).2 =
        (ad9250_write bus (ad9250_read bus dev A).2 A
          ((setBitsValue (ad9250_read bus dev A).1 bits_value mask : Nat) : Int)).2) ∧
    (∀ (c : Int) (i : Nat), mask.testBit i = false →
      (setBitsValue c bits_value mask).testBit i = ((c % 256).toNat).testBit i) := by
  refine ⟨?_, ?_, ?_⟩
  · intro hpos
    rw [set_bits_shadowed bus dev A bits_value mask hb hm hpos, set_bits_snd]
  · intro h0 hr
    rw [set_bits_unshadowed bus dev A bits_value mask hb hm h0 hr, set_bits_snd]
  · intro c i hmi
    by_cases hi : i < 8
    · have hnot : (255 - mask).testBit i = true := by
        have e : 255 - mask = 2 ^ 8 - (mask + 1) := by omega
        rw [e, Nat.testBit_two_pow_sub_succ (by omega), hmi]
        simp [hi]
      have hbi : bits_value.testBit i = false := by
        have h := congrArg (fun x => Nat.testBit x i) hin
        simp only [Nat.testBit_and, hnot, Bool.and_true, Nat.zero_testBit] at h
        exact h
      unfold setBitsValue
      simp [Nat.testBit_or, Nat.testBit_and, hnot, hbi]
    · have h8 : ∀ x : Nat, x < 256 → x.testBit i = false := by
        intro x hx
        apply Nat.testBit_lt_two_pow
        calc x < 2 ^ 8 := by omega
          _ ≤ 2 ^ i := Nat.pow_le_pow_right (by norm_num) (by omega)
      rw [h8 _ (setBitsValue_lt c bits_value mask hb), h8 _ (by omega)]

/-- Witness for C11 (amended): bits_value 0x10 under mask 0x30 on a current
value 0xC5 gives 0xD5, which agrees with 0xC5 in bit 0, where the mask is 0. -/
theorem set_bits_other_bits_witness :
    (16 : Nat) < 256 ∧ (48 : Nat) < 256 ∧ (16 : Nat) &&& (255 - 48) = 0 ∧
    Nat.testBit 48 0 = false ∧
    (setBitsValue 197 16 48).testBit 0 = (((197 : Int) % 256).toNat).testBit 0 :=
  ⟨by decide, by decide, by decide, by decide,
    (set_bits_other_bits regfile devRegfile 459032 16 48 (by decide) (by decide)
      (by decide)).2.2 197 0 (by decide)⟩

/-- C12: `ad9250_set_bits_to_reg` is idempotent. With a transport whose
exchanges never fail, for a shadowed `A` (index 1..14) the second of two
calls with the same arguments leaves the shadow table as the first call left
it and sends the same frames as the first; against the register-file stub, for
a non-shadowed one-byte `A`, the second call leaves every device byte as the
first call left it and sends the same frames as the first. -/
theorem set_bits_idempotent (A : Int) (bits_value mask : Nat)
    (hb : bits_value < 256) (hm : mask < 256) :
    (∀ {σ : Type} (bus : Bus σ) (dev : ad9250_dev σ),
      (∀ s f n, (bus.write_and_read s f n).1 ≠ -1) →
      1 ≤ ad9250_is_shadow_register A ∧ ad9250_is_shadow_register A ≤ 14 →
      dev.shadow_regs.length = SHADOW_REGISTER_COUNT →
      (ad9250_set_bits_to_reg bus dev A bits_value mask).2.shadow_regs[
          (ad9250_is_shadow_register A).toNat]?
        = some ((setBitsValue (dev.shadow_regs.getD (ad9250_is_shadow_register A).toNat 0)
            bits_value mask : Nat) : Int) ∧
      (ad9250_set_bits_to_reg bus (ad9250_set_bits_to_reg bus dev A bits_value mask).2 A
          bits_value mask).2.shadow_regs
        = (ad9250_set_bits_to_reg bus dev A bits_value mask).2.shadow_regs ∧
      (ad9250_set_bits_to_reg bus dev A bits_value mask).2.spi_desc.sent
        = dev.spi_desc.sent ++ (writeFrames A ((setBitsValue
            (dev.shadow_regs.getD (ad9250_is_shadow_register A).toNat 0)
            bits_value mask : Nat) : Int)).map xfer3 ∧
      (ad9250_set_bits_to_reg bus (ad9250_set_bits_to_reg bus dev A bits_value mask).2 A
          bits_value mask).2.spi_desc.sent
        = (ad9250_set_bits_to_reg bus dev A bits_value mask).2.spi_desc.sent ++
          (writeFrames A ((setBitsValue
            (dev.shadow_regs.getD (ad9250_is_shadow_register A).toNat 0)
            bits_value mask : Nat) : Int)).map xfer3) ∧
    (∀ (dev : ad9250_dev (Nat → Nat)),
      ad9250_is_shadow_register A = 0 → AD9250_TRANSF_LEN A = 1 →
      (ad9250_set_bits_to_reg regfile dev A bits_value mask).2.spi_desc.state
          (AD9250_ADDR A).toNat
        = setBitsValue (dev.spi_desc.state (AD9250_ADDR A).toNat) bits_value mask ∧
      (∀ x : Nat,
        (ad9250_set_bits_to_reg regfile
          (ad9250_set_bits_to_reg regfile dev A bits_value mask).2 A
          bits_value mask).2.spi_desc.state x
        = (ad9250_set_bits_to_reg regfile dev A bits_value mask).2.spi_desc.state x) ∧
      (ad9250_set_bits_to_reg regfile dev A bits_value mask).2.spi_desc.sent
        = dev.spi_desc.sent ++
          [xfer3 [128, (AD9250_ADDR A).toNat, 0],
           xfer3 [0, (AD9250_ADDR A).toNat,
            setBitsValue (dev.spi_desc.state (AD9250_ADDR A).toNat) bits_value mask]] ∧
      (ad9250_set_bits_to_reg regfile
          (ad9250_set_bits_to_reg regfile dev A bits_value mask).2 A
          bits_value mask).2.spi_desc.sent
        = (ad9250_set_bits_to_reg regfile dev A bits_value mask).2.spi_desc.sent ++
          [xfer3 [128, (AD9250_ADDR A).toNat, 0],
           xfer3 [0, (AD9250_ADDR A).toNat,
            setBitsValue (dev.spi_desc.state (AD9250_ADDR A).toNat) bits_value mask]]) := by
  constructor
  · intro σ bus dev hbus hk hlen
    have hpos : ad9250_is_shadow_register A > 0 := by omega
    have hkl : (ad9250_is_shadow_register A).toNat < dev.shadow_regs.length := by
      unfold SHADOW_REGISTER_COUNT at hlen; omega
    -- the first call
    have h1 : (ad9250_set_bits_to_reg bus dev A bits_value mask).2
        = (ad9250_write bus dev A ((setBitsValue
            (dev.shadow_regs.getD (ad9250_is_shadow_register A).toNat 0)
            bits_value mask : Nat) : Int)).2 := by
      rw [set_bits_shadowed bus dev A bits_value mask hb hm hpos, set_bits_snd]
    have hsh1 := ad9250_write_shadow bus dev A ((setBitsValue
            (dev.shadow_regs.getD (ad9250_is_shadow_register A).toNat 0)
            bits_value mask : Nat) : Int)
    rw [if_pos hpos] at hsh1
    have htr1 := ad9250_write_traffic_ok bus dev A ((setBitsValue
            (dev.shadow_regs.getD (ad9250_is_shadow_register A).toNat 0)
            bits_value mask : Nat) : Int) (exchanges_clean bus hbus _ _)
    -- the current value seen by the second call
    have hcur : (ad9250_set_bits_to_reg bus dev A bits_value mask).2.shadow_regs.getD
        (ad9250_is_shadow_register A).toNat 0
        = ((setBitsValue (dev.shadow_regs.getD (ad9250_is_shadow_register A).toNat 0)
            bits_value mask : Nat) : Int) := by
      rw [h1, hsh1, List.getD_eq_getElem?_getD, List.getElem?_set_self hkl]
      rfl
    -- the second call
    have h2 : (ad9250_set_bits_to_reg bus (ad9250_set_bits_to_reg bus dev A bits_value mask).2
        A bits_value mask).2
        = (ad9250_write bus (ad9250_set_bits_to_reg bus dev A bits_value mask).2 A
            ((setBitsValue (dev.shadow_regs.getD (ad9250_is_shadow_register A).toNat 0)
            bits_value mask : Nat) : Int)).2 := by
      rw [set_bits_shadowed bus _ A bits_value mask hb hm hpos, set_bits_snd, hcur,
        setBitsValue_idem]
    have hsh2 := ad9250_write_shadow bus (ad9250_set_bits_to_reg bus dev A bits_value mask).2 A
      ((setBitsValue (dev.shadow_regs.getD (ad9250_is_shadow_register A).toNat 0)
            bits_value mask : Nat) : Int)
    rw [if_pos hpos] at hsh2
    have htr2 := ad9250_write_traffic_ok bus
      (ad9250_set_bits_to_reg bus dev A bits_value mask).2 A ((setBitsValue
            (dev.shadow_regs.getD (ad9250_is_shadow_register A).toNat 0)
            bits_value mask : Nat) : Int) (exchanges_clean bus hbus _ _)
    refine ⟨?_, ?_, ?_, ?_⟩
    · rw [h1, hsh1, List.getElem?_set_self hkl]
    · rw [h2, hsh2, h1, hsh1, List.set_set]
    · rw [h1, htr1]
    · rw [h2, htr2]
  · intro dev h0 hL
    obtain ⟨a, hA⟩ := Int.eq_ofNat_of_zero_le (AD9250_ADDR_range A).1
    have ha256 : a < 256 := by have := (AD9250_ADDR_range A).2; omega
    have hfr : frame (AD9250_READ + AD9250_ADDR A) 0 = [128, a, 0] := by
      have := frame_read_addr a 0 (by omega) ha256
      simpa [hA] using this
    have hfw : ∀ d : Nat, frame (AD9250_WRITE + AD9250_ADDR A) d = [0, a, d] := by
      intro d
      have := frame_write_addr a 0 d (by omega) ha256
      simpa [hA] using this
    -- a call on any handle of the stub
    have hcall : ∀ d : ad9250_dev (Nat → Nat),
        (ad9250_set_bits_to_reg regfile d A bits_value mask).2.spi_desc =
          { state := fun x => if x = a then setBitsValue (d.spi_desc.state a) bits_value mask
              else d.spi_desc.state x,
            sent := d.spi_desc.sent ++ [xfer3 [128, a, 0],
              xfer3 [0, a, setBitsValue (d.spi_desc.state a) bits_value mask]] } := by
      intro d
      have hrd := ad9250_read_one regfile d A hL
      rw [hfr, regfile_read_frame _ a ha256] at hrd
      simp only [dataByte, List.getD_cons_succ, List.getD_cons_zero] at hrd
      rw [if_neg (by decide)] at hrd
      have hne : (ad9250_read regfile d A).1 ≠ -1 := by rw [hrd]; simp only; omega
      rw [set_bits_unshadowed regfile d A bits_value mask hb hm h0 hne, set_bits_snd,
        ad9250_write_one regfile _ A _ hL, hrd]
      have hv : setBitsValue ((d.spi_desc.state a % 256 : Nat) : Int) bits_value mask
          = setBitsValue (d.spi_desc.state a) bits_value mask := by
        unfold setBitsValue
        congr 2
        omega
      have hlt := setBitsValue_lt (d.spi_desc.state a) bits_value mask hb
      have hmod : (((setBitsValue (d.spi_desc.state a) bits_value mask : Nat) : Int) % 256).toNat
          = setBitsValue (d.spi_desc.state a) bits_value mask := by omega
      simp only [hv, hmod, hfw, regfile_write_frame _ a _ ha256, List.append_assoc,
        List.singleton_append]
    have hat : (AD9250_ADDR A).toNat = a := by omega
    rw [hat]
    have hc1 := hcall dev
    have hc2 := hcall (ad9250_set_bits_to_reg regfile dev A bits_value mask).2
    have hst1 : (ad9250_set_bits_to_reg regfile dev A bits_value mask).2.spi_desc.state a
        = setBitsValue (dev.spi_desc.state a) bits_value mask := by
      rw [hc1]; simp
    have hidem : setBitsValue ((setBitsValue (dev.spi_desc.state a) bits_value mask : Nat) : Int)
        bits_value mask = setBitsValue (dev.spi_desc.state a) bits_value mask :=
      setBitsValue_idem _ _ _
    refine ⟨hst1, ?_, ?_, ?_⟩
    · intro x
      rw [hc2]
      simp only [hst1, hidem]
      split
      · next hx => rw [hx, hst1]
      · rfl
    · rw [hc1]
    · rw [hc2]
      simp only [hst1, hidem]

/-- Witness for C12: on the register-file stub, setting bits 0x10 under mask
0x30 twice on the shadowed register with index 6 (default 0x01) leaves the
shadow table after the second call as after the first. -/
theorem set_bits_idempotent_witness :
    (16 : Nat) < 256 ∧ (48 : Nat) < 256 ∧
    (∀ s f n, (regfile.write_and_read s f n).1 ≠ -1) ∧
    (1 ≤ ad9250_is_shadow_register 393492 ∧ ad9250_is_shadow_register 393492 ≤ 14) ∧
    devRegfile.shadow_regs.length = SHADOW_REGISTER_COUNT ∧
    (ad9250_set_bits_to_reg regfile devRegfile 393492 16 48).2.shadow_regs[6]? = some 17 ∧
    (ad9250_set_bits_to_reg regfile (ad9250_set_bits_to_reg regfile devRegfile 393492 16 48).2
        393492 16 48).2.shadow_regs
      = (ad9250_set_bits_to_reg regfile devRegfile 393492 16 48).2.shadow_regs :=
  ⟨by decide, by decide,
    regfile_never_fails,
    by decide, by decide, by decide,
    ((set_bits_idempotent 393492 16 48 (by decide) (by decide)).1 regfile devRegfile
      regfile_never_fails
      (by decide) (by decide)).2.1⟩

/-- C13, as stated, fails: for the shadowed two-byte register with shadow index
1 at address 0 (whose address is below `n - 1`), `ad9250_set_bits_to_reg` on
the register-file stub sends the frames `[0, 0, 0]` and `[255, 255, 1]`. The
`uint16_t` address of the second write frame wrapped from 0 to 0xFFFF, so its
command word has bit 15, the read bit, set. -/
theorem set_bits_read_step_counterexample :
    (1 ≤ ad9250_is_shadow_register 66048 ∧ ad9250_is_shadow_register 66048 ≤ 14) ∧
    AD9250_TRANSF_LEN 66048 = 2 ∧ AD9250_ADDR 66048 = 0 ∧
    (ad9250_set_bits_to_reg regfile devRegfile 66048 0 0).1 = 0 ∧
    (ad9250_set_bits_to_reg regfile devRegfile 66048 0 0).2.spi_desc.sent
      = [xfer3 [0, 0, 0], xfer3 [255, 255, 1]] ∧
    commandWord [255, 255, 1] / 32768 % 2 = 1 := by
  decide

/-- C13, amended: the read step of `ad9250_set_bits_to_reg` is bus-free for
shadowed registers. For an address `A` with shadow index in 1..14 the
current-value step does not fail and leaves the handle untouched, and the bus
traffic of the whole call is that of its `ad9250_write`: the write frames, all
`n` of them when the exchanges succeed; if `AD9250_ADDR(A) >= n-1`, no frame
the call sends has the read bit (bit 15 of the command word) set. For an
address with shadow index 0 the call first issues the frames of `ad9250_read`:
a failing read ends the call, and after a successful read the traffic is the
`n` read frames followed by write frames; if `AD9250_ADDR(A) >= n-1`, the
former all have the read bit set and the latter all have it clear. -/
theorem set_bits_read_step {σ : Type} (bus : Bus σ) (dev : ad9250_dev σ) (A : Int)
    (bits_value mask : Nat) (hb : bits_value < 256) (hm : mask < 256) :
    (1 ≤ ad9250_is_shadow_register A ∧ ad9250_is_shadow_register A ≤ 14 →
      (readOrShadow bus dev A).1 ≠ -1 ∧
      (readOrShadow bus dev A).2.2 = dev ∧
      (ad9250_set_bits_to_reg bus dev A bits_value mask).2.spi_desc
        = (ad9250_write bus dev A ((setBitsValue
            (dev.shadow_regs.getD (ad9250_is_shadow_register A).toNat 0)
            bits_value mask : Nat) : Int)).2.spi_desc ∧
      (∃ j : Nat, (ad9250_set_bits_to_reg bus dev A bits_value mask).2.spi_desc.sent
        = dev.spi_desc.sent ++ ((writeFrames A ((setBitsValue
            (dev.shadow_regs.getD (ad9250_is_shadow_register A).toNat 0)
            bits_value mask : Nat) : Int)).take j).map xfer3) ∧
      ((∀ r ∈ exchanges bus dev.spi_desc.state (writeFrames A ((setBitsValue
            (dev.shadow_regs.getD (ad9250_is_shadow_register A).toNat 0)
            bits_value mask : Nat) : Int)), r.1 ≠ -1) →
        (ad9250_set_bits_to_reg bus dev A bits_value mask).2.spi_desc.sent
          = dev.spi_desc.sent ++ (writeFrames A ((setBitsValue
            (dev.shadow_regs.getD (ad9250_is_shadow_register A).toNat 0)
            bits_value mask : Nat) : Int)).map xfer3) ∧
      (∀ V : Int, (writeFrames A V).length = (AD9250_TRANSF_LEN A).toNat) ∧
      (AD9250_TRANSF_LEN A - 1 ≤ AD9250_ADDR A →
        (∀ V : Int, ∀ f ∈ writeFrames A V, f.getD 0 0 = 0) ∧
        ∀ l : List Xfer, (ad9250_set_bits_to_reg bus dev A bits_value mask).2.spi_desc.sent
            = dev.spi_desc.sent ++ l →
          ∀ x ∈ l, commandWord x.data / 32768 % 2 = 0)) ∧
    (ad9250_is_shadow_register A = 0 →
      ((ad9250_read bus dev A).1 = -1 →
        ad9250_set_bits_to_reg bus dev A bits_value mask = (-1, (ad9250_read bus dev A).2) ∧
        (∃ j : Nat, (ad9250_set_bits_to_reg bus dev A bits_value mask).2.spi_desc.sent
          = dev.spi_desc.sent ++ ((readFrames A).take j).map xfer3) ∧
        (AD9250_TRANSF_LEN A - 1 ≤ AD9250_ADDR A →
          ∀ l : List Xfer, (ad9250_set_bits_to_reg bus dev A bits_value mask).2.spi_desc.sent
              = dev.spi_desc.sent ++ l →
            ∀ x ∈ l, commandWord x.data / 32768 % 2 = 1)) ∧
      ((ad9250_read bus dev A).1 ≠ -1 →
        (readFrames A).length = (AD9250_TRANSF_LEN A).toNat ∧
        ∃ j : Nat, (ad9250_set_bits_to_reg bus dev A bits_value mask).2.spi_desc.sent
          = dev.spi_desc.sent ++ (readFrames A).map xfer3 ++
            ((writeFrames A ((setBitsValue (ad9250_read bus dev A).1
              bits_value mask : Nat) : Int)).take j).map xfer3 ∧
          (AD9250_TRANSF_LEN A - 1 ≤ AD9250_ADDR A →
            (∀ x ∈ (readFrames A).map xfer3, commandWord x.data / 32768 % 2 = 1) ∧
            (∀ x ∈ ((writeFrames A ((setBitsValue (ad9250_read bus dev A).1
                bits_value mask : Nat) : Int)).take j).map xfer3,
              commandWord x.data / 32768 % 2 = 0)))) := by
  constructor
  · intro hk
    have hpos : ad9250_is_shadow_register A > 0 := by omega
    have hro : readOrShadow bus dev A = (ad9250_is_shadow_register A,
        u8 (dev.shadow_regs.getD (ad9250_is_shadow_register A).toNat 0), dev) := by
      unfold readOrShadow
      simp only [ad9250_is_shadow_register_wrap, if_pos hpos]
    have hset : (ad9250_set_bits_to_reg bus dev A bits_value mask).2
        = (ad9250_write bus dev A ((setBitsValue
            (dev.shadow_regs.getD (ad9250_is_shadow_register A).toNat 0)
            bits_value mask : Nat) : Int)).2 := by
      rw [set_bits_shadowed bus dev A bits_value mask hb hm hpos, set_bits_snd]
    refine ⟨?_, ?_, ?_, ?_, ?_, ?_, ?_⟩
    · rw [hro]; simp only; omega
    · rw [hro]
    · rw [hset]
    · rw [hset]
      exact ad9250_write_sent_prefix bus dev A _
    · intro hok
      rw [hset, ad9250_write_traffic_ok bus dev A _ hok]
    · intro V
      simp [writeFrames]
    · intro ha
      refine ⟨fun V => writeFrames_write_direction A V ha, ?_⟩
      rw [hset]
      obtain ⟨j, hj⟩ := ad9250_write_sent_prefix bus dev A ((setBitsValue
        (dev.shadow_regs.getD (ad9250_is_shadow_register A).toNat 0) bits_value mask : Nat) : Int)
      exact new_frames_forall (fun f => commandWord f / 32768 % 2 = 0) _ _ _ j hj
        (writeFrames_commandWord A _ ha)
  · intro h0
    constructor
    · intro hr
      have h := set_bits_read_failed bus dev A bits_value mask h0 hr
      refine ⟨h, ?_, ?_⟩
      · rw [h]
        exact ad9250_read_sent_prefix bus dev A
      · intro ha
        rw [h]
        obtain ⟨j, hj⟩ := ad9250_read_sent_prefix bus dev A
        exact new_frames_forall (fun f => commandWord f / 32768 % 2 = 1) _ _ _ j hj
          (readFrames_commandWord A ha)
    · intro hr
      have hok : ∀ r ∈ exchanges bus dev.spi_desc.state (readFrames A), r.1 ≠ -1 := by
        intro r hrm hr1
        obtain ⟨j, hj1, hj2⟩ := first_failure _ ⟨r, hrm, hr1⟩
        exact hr (read_loop_fail bus (AD9250_TRANSF_LEN A).toNat
          (AD9250_READ + AD9250_ADDR A) 0 dev j hj1 hj2).1
      refine ⟨by simp [readFrames], ?_⟩
      obtain ⟨j, hj⟩ := ad9250_write_sent_prefix bus (ad9250_read bus dev A).2 A
        ((setBitsValue (ad9250_read bus dev A).1 bits_value mask : Nat) : Int)
      refine ⟨j, ?_, ?_⟩
      · rw [set_bits_unshadowed bus dev A bits_value mask hb hm h0 hr, set_bits_snd, hj,
          ad9250_read_traffic_ok bus dev A hok]
      · intro ha
        refine ⟨?_, taken_frames_forall (fun f => commandWord f / 32768 % 2 = 0) _ j
          (writeFrames_commandWord A _ ha)⟩
        have h := taken_frames_forall (fun f => commandWord f / 32768 % 2 = 1) (readFrames A)
          (readFrames A).length (readFrames_commandWord A ha)
        rw [List.take_length] at h
        exact h

/-- Witness for C13 (amended): on the transport whose every exchange fails, the
current-value step for the shadowed register with index 6 at address 0x14 does
not fail; the only frame of the call is the write frame, and its read bit is
clear. -/
theorem set_bits_read_step_witness :
    (16 : Nat) < 256 ∧ (48 : Nat) < 256 ∧
    (1 ≤ ad9250_is_shadow_register 393492 ∧ ad9250_is_shadow_register 393492 ≤ 14) ∧
    AD9250_TRANSF_LEN 393492 - 1 ≤ AD9250_ADDR 393492 ∧
    (readOrShadow deadBus devDead 393492).1 ≠ -1 ∧
    (ad9250_set_bits_to_reg deadBus devDead 393492 16 48).2.spi_desc.sent
      = devDead.spi_desc.sent ++ [⟨[0, 20, 17], 3⟩] ∧
    (∀ x ∈ [(⟨[0, 20, 17], 3⟩ : Xfer)], commandWord x.data / 32768 % 2 = 0) :=
  ⟨by decide, by decide, by decide, by decide,
    ((set_bits_read_step deadBus devDead 393492 16 48 (by decide) (by decide)).1
      (by decide)).1,
    by decide,
    (((set_bits_read_step deadBus devDead 393492 16 48 (by decide) (by decide)).1
      (by decide)).2.2.2.2.2.2 (by decide)).2 [⟨[0, 20, 17], 3⟩] (by decide)⟩

/-- C14: `ad9250_transfer` terminates on a stuck device and reports success.
Against a transport whose exchanges all succeed and whose read of the
device-update register always returns 0x01, `ad9250_transfer` issues one write
of `AD9250_DEVICE_UPDATE_SW` to `AD9250_REG_DEVICE_UPDATE` followed by exactly
65535 polling reads and returns 0; for every transport behaviour the traffic is
that write followed by at most 65535 polling reads. -/
theorem transfer_stuck_device {σ : Type} (bus : Bus σ) (dev : ad9250_dev σ) :
    writeFrames AD9250_REG_DEVICE_UPDATE AD9250_DEVICE_UPDATE_SW = [[0, 255, 1]] ∧
    readFrames AD9250_REG_DEVICE_UPDATE = [[128, 255, 0]] ∧
    ((∀ s f n, (bus.write_and_read s f n).1 ≠ -1) →
      (∀ s, dataByte ((bus.write_and_read s [128, 255, 0] 3).1,
        (bus.write_and_read s [128, 255, 0] 3).2.1) = 1) →
      (ad9250_transfer bus dev).1 = 0 ∧
      (ad9250_transfer bus dev).2.spi_desc.sent
        = dev.spi_desc.sent ++
          xfer3 [0, 255, 1] :: List.replicate 65535 (xfer3 [128, 255, 0])) ∧
    (∃ m : Nat, m ≤ 65535 ∧
      (ad9250_transfer bus dev).2.spi_desc.sent
        = dev.spi_desc.sent ++ xfer3 [0, 255, 1] :: List.replicate m (xfer3 [128, 255, 0])) := by
  refine ⟨by decide, by decide, ?_, ?_⟩
  · intro hbus hstuck
    unfold ad9250_transfer
    simp only [ad9250_write_device_update, if_neg (hbus _ _ _)]
    obtain ⟨m, hm1, hm2, hs, _, r, hr, hlast⟩ := transfer_loop_trace bus 65535
      { spi_desc :=
          { state := (bus.write_and_read dev.spi_desc.state [0, 255, 1] 3).2.2,
            sent := dev.spi_desc.sent ++ [xfer3 [0, 255, 1]] },
        shadow_regs := dev.shadow_regs } (by norm_num)
    have hmem := List.getElem?_mem hr
    have hd : dataByte r = 1 :=
      exchanges_forall bus (fun x => dataByte x = 1) _
        (fun s f hf => by rw [(List.mem_replicate.mp hf).2]; exact hstuck s) _ r hmem
    have hn : r.1 ≠ -1 := exchanges_clean bus hbus _ _ r hmem
    rcases hlast with h | h
    · exact absurd h.1 hn
    · have hm : m = 65535 := by
        rcases h.2.2 with h' | h'
        · exact absurd hd h'
        · exact h'
      refine ⟨h.2.1, ?_⟩
      rw [hs, hm]
      simp only [List.append_assoc, List.singleton_append]
  · unfold ad9250_transfer
    simp only [ad9250_write_device_update]
    split
    · exact ⟨0, by omega, by simp⟩
    · obtain ⟨m, _, hm2, hs, _⟩ := transfer_loop_trace bus 65535
        { spi_desc :=
            { state := (bus.write_and_read dev.spi_desc.state [0, 255, 1] 3).2.2,
              sent := dev.spi_desc.sent ++ [xfer3 [0, 255, 1]] },
          shadow_regs := dev.shadow_regs } (by norm_num)
      refine ⟨m, hm2, ?_⟩
      rw [hs]
      simp only [List.append_assoc, List.singleton_append]

/-- Witness for C14: against the stub whose registers all read back 0x01,
`ad9250_transfer` returns 0 after the write and 65535 polling reads. -/
theorem transfer_stuck_device_witness :
    (∀ s f n, ((constBus 1).write_and_read s f n).1 ≠ -1) ∧
    (∀ s, dataByte (((constBus 1).write_and_read s [128, 255, 0] 3).1,
        ((constBus 1).write_and_read s [128, 255, 0] 3).2.1) = 1) ∧
    (ad9250_transfer (constBus 1) devConst).1 = 0 ∧
    (ad9250_transfer (constBus 1) devConst).2.spi_desc.sent
      = devConst.spi_desc.sent ++
        xfer3 [0, 255, 1] :: List.replicate 65535 (xfer3 [128, 255, 0]) :=
  ⟨constBus_never_fails 1, fun s => constBus_dataByte 1 s _ 3,
    (transfer_stuck_device (constBus 1) devConst).2.2.1
      (constBus_never_fails 1) (fun s => constBus_dataByte 1 s _ 3)⟩

/-- C15: `ad9250_transfer` returns -1 if and only if a bus exchange fails, and
0 otherwise. For every transport the frames issued are the command write
followed by `m <= 65535` polling reads; with `R` their outcomes, no exchange
follows a failed one (every exchange but the last succeeded), the result is -1
exactly when an exchange returned -1, the result is never anything but 0 or
-1, and a failing command write is followed by no polling read. -/
theorem transfer_status {σ : Type} (bus : Bus σ) (dev : ad9250_dev σ) :
    ∃ m : Nat, m ≤ 65535 ∧
      (ad9250_transfer bus dev).2.spi_desc.sent
        = dev.spi_desc.sent ++
          ([0, 255, 1] :: List.replicate m [128, 255, 0]).map xfer3 ∧
      (∀ (i : Nat) (r : Int × List Nat), i + 1 < m + 1 →
        (exchanges bus dev.spi_desc.state
          ([0, 255, 1] :: List.replicate m [128, 255, 0]))[i]? = some r → r.1 ≠ -1) ∧
      ((ad9250_transfer bus dev).1 = -1 ↔
        ∃ r ∈ exchanges bus dev.spi_desc.state
          ([0, 255, 1] :: List.replicate m [128, 255, 0]), r.1 = -1) ∧
      ((ad9250_transfer bus dev).1 = 0 ∨ (ad9250_transfer bus dev).1 = -1) ∧
      ((bus.write_and_read dev.spi_desc.state [0, 255, 1] 3).1 = -1 → m = 0) := by
  unfold ad9250_transfer
  simp only [ad9250_write_device_update]
  by_cases hw : (bus.write_and_read dev.spi_desc.state [0, 255, 1] 3).1 = -1
  · simp only [if_pos hw]
    refine ⟨0, by omega, by simp, ?_, ?_, Or.inr hw, fun _ => rfl⟩
    · intro i r hi; omega
    · simp [exchanges, hw]
  · simp only [if_neg hw]
    obtain ⟨m, hm1, hm2, hs, hi, r, hr, hlast⟩ := transfer_loop_trace bus 65535
      { spi_desc :=
          { state := (bus.write_and_read dev.spi_desc.state [0, 255, 1] 3).2.2,
            sent := dev.spi_desc.sent ++ [xfer3 [0, 255, 1]] },
        shadow_regs := dev.shadow_regs } (by norm_num)
    simp only at hi hr
    refine ⟨m, hm2, ?_, ?_, ?_, ?_, fun h => absurd h hw⟩
    · rw [hs]
      simp only [List.append_assoc, List.singleton_append, List.map_cons, List.map_replicate]
    · intro i x hix hx
      simp only [exchanges] at hx
      cases i with
      | zero =>
        simp only [List.getElem?_cons_zero, Option.some.injEq] at hx
        subst hx
        exact hw
      | succ i =>
        simp only [List.getElem?_cons_succ] at hx
        exact (hi i x (by omega) hx).1
    · simp only [exchanges, List.mem_cons]
      constructor
      · intro hret
        rcases hlast with h | h
        · exact ⟨r, Or.inr (List.getElem?_mem hr), h.1⟩
        · rw [h.2.1] at hret
          exact absurd hret (by decide)
      · rintro ⟨x, hx | hx, hx1⟩
        · subst hx
          exact absurd hx1 hw
        · rcases hlast with h | h
          · exact h.2
          · exfalso
            obtain ⟨k, hk⟩ := List.mem_iff_getElem?.mp hx
            have hklt : k < m := by
              have := (List.getElem?_eq_some.mp hk).1
              rw [exchanges_length, List.length_replicate] at this
              exact this
            by_cases hkl : k + 1 < m
            · exact (hi k x hkl hk).1 hx1
            · have hkm : k = m - 1 := by omega
              rw [hkm, hr] at hk
              simp only [Option.some.injEq] at hk
              subst hk
              exact h.1 hx1
    · rcases hlast with h | h
      · exact Or.inr h.2
      · exact Or.inl h.2.1

/-- C16: `ad9250_soft_reset` returns the last polled register value, not a
status flag. With a transport whose exchanges all succeed it writes
`AD9250_SPI_CFG_SOFT_RST` to `AD9250_REG_SPI_CFG`, polls that register
`m` times (`1 <= m <= 65535`) and returns the data byte of the final polling
read; if every read returns a value `v` with `(v & AD9250_SPI_CFG_SOFT_RST) != 0`
it polls exactly 65535 times and returns `v`. -/
theorem soft_reset_returns_last_poll {σ : Type} (bus : Bus σ) (dev : ad9250_dev σ)
    (hbus : ∀ s f n, (bus.write_and_read s f n).1 ≠ -1) :
    writeFrames AD9250_REG_SPI_CFG AD9250_SPI_CFG_SOFT_RST = [[0, 0, 36]] ∧
    readFrames AD9250_REG_SPI_CFG = [[128, 0, 0]] ∧
    (∃ m : Nat, 1 ≤ m ∧ m ≤ 65535 ∧
      (ad9250_soft_reset bus dev).2.spi_desc.sent
        = dev.spi_desc.sent ++ xfer3 [0, 0, 36] :: List.replicate m (xfer3 [128, 0, 0]) ∧
      ∃ r : Int × List Nat,
        (exchanges bus dev.spi_desc.state
          ([0, 0, 36] :: List.replicate m [128, 0, 0]))[m]? = some r ∧
        (ad9250_soft_reset bus dev).1 = (dataByte r : Nat)) ∧
    (∀ v : Nat, v < 256 → land32 (v : Int) AD9250_SPI_CFG_SOFT_RST ≠ 0 →
      (∀ s, dataByte ((bus.write_and_read s [128, 0, 0] 3).1,
        (bus.write_and_read s [128, 0, 0] 3).2.1) = v) →
      (ad9250_soft_reset bus dev).1 = (v : Int) ∧
      (ad9250_soft_reset bus dev).2.spi_desc.sent
        = dev.spi_desc.sent ++ xfer3 [0, 0, 36] :: List.replicate 65535 (xfer3 [128, 0, 0])) := by
  have htr := soft_reset_loop_trace bus 65535
    (bus.write_and_read dev.spi_desc.state [0, 0, 36] 3).1
    { spi_desc :=
        { state := (bus.write_and_read dev.spi_desc.state [0, 0, 36] 3).2.2,
          sent := dev.spi_desc.sent ++ [xfer3 [0, 0, 36]] },
      shadow_regs := dev.shadow_regs } (by norm_num)
  obtain ⟨m, hm1, hm2, hs, _, r, hr, hlast⟩ := htr
  simp only at hr
  have hrun : ad9250_soft_reset bus dev = ad9250_soft_reset_loop bus 65535
      (bus.write_and_read dev.spi_desc.state [0, 0, 36] 3).1
      { spi_desc :=
          { state := (bus.write_and_read dev.spi_desc.state [0, 0, 36] 3).2.2,
            sent := dev.spi_desc.sent ++ [xfer3 [0, 0, 36]] },
        shadow_regs := dev.shadow_regs } := by
    unfold ad9250_soft_reset
    simp only [ad9250_write_spi_cfg, if_neg (hbus _ _ _)]
  have hmem := List.getElem?_mem hr
  have hn : r.1 ≠ -1 := exchanges_clean bus hbus _ _ r hmem
  have hlast2 : (ad9250_soft_reset bus dev).1 = (dataByte r : Nat) ∧
      (land32 (dataByte r : Nat) AD9250_SPI_CFG_SOFT_RST = 0 ∨ m = 65535) := by
    rw [hrun]
    rcases hlast with h | h
    · exact absurd h.1 hn
    · exact h.2
  refine ⟨by decide, by decide, ⟨m, hm1, hm2, ?_, r, ?_, hlast2.1⟩, ?_⟩
  · rw [hrun, hs]
    simp only [List.append_assoc, List.singleton_append]
  · simp only [exchanges]
    obtain ⟨k, rfl⟩ : ∃ k, m = k + 1 := ⟨m - 1, by omega⟩
    simpa using hr
  · intro v _ hv hstuck
    have hd : dataByte r = v :=
      exchanges_forall bus (fun x => dataByte x = v) _
        (fun s f hf => by rw [(List.mem_replicate.mp hf).2]; exact hstuck s) _ r hmem
    have hm : m = 65535 := by
      rcases hlast2.2 with h | h
      · rw [hd] at h; exact absurd h hv
      · exact h
    refine ⟨by rw [hlast2.1, hd], ?_⟩
    rw [hrun, hs, hm]
    simp only [List.append_assoc, List.singleton_append]

/-- Witness for C16: against the stub whose registers all read back 0x24,
`ad9250_soft_reset` polls 65535 times and returns 0x24, which still has the
reset-command bits set. -/
theorem soft_reset_returns_last_poll_witness :
    (∀ s f n, ((constBus 36).write_and_read s f n).1 ≠ -1) ∧
    (36 : Nat) < 256 ∧ land32 ((36 : Nat) : Int) AD9250_SPI_CFG_SOFT_RST ≠ 0 ∧
    (ad9250_soft_reset (constBus 36) devConst).1 = ((36 : Nat) : Int) ∧
    (ad9250_soft_reset (constBus 36) devConst).2.spi_desc.sent
      = devConst.spi_desc.sent ++ xfer3 [0, 0, 36] :: List.replicate 65535 (xfer3 [128, 0, 0]) :=
  ⟨constBus_never_fails 36, by decide, by decide,
    (soft_reset_returns_last_poll (constBus 36) devConst (constBus_never_fails 36)).2.2.2
      36 (by decide) (by decide) (fun s => constBus_dataByte 36 s _ 3)⟩

/-- C17 fails on the code: against the stub whose SPI configuration register
reads back 0x18 (no reset-command bit set), the command write and the single
polling read succeed, and `ad9250_soft_reset` returns 0x18 = 24, not 0. -/
theorem soft_reset_success_not_zero :
    land32 24 AD9250_SPI_CFG_SOFT_RST = 0 ∧
    (ad9250_soft_reset (constBus 24) devConst).2.spi_desc.sent
      = [xfer3 [0, 0, 36], xfer3 [128, 0, 0]] ∧
    (ad9250_soft_reset (constBus 24) devConst).1 = 24 ∧
    (ad9250_soft_reset (constBus 24) devConst).1 ≠ 0 := by
  decide

/-- C18 fails on the code: in its set branch `ad9250_jesd204b_test_mode` does
not assign the result of `ad9250_set_bits_to_reg`, so it returns 0 for every
test mode in 0..13 whatever happened on the bus. On the transport whose every
exchange returns -1 the call `ad9250_jesd204b_test_mode(dev, 0)` issues one
frame, which fails, and returns 0. -/
theorem jesd204b_test_mode_drops_error :
    (∀ {σ : Type} (h : ad9250_h) (bus : Bus σ) (dev : ad9250_dev σ) (test_mode : Int),
      0 ≤ test_mode ∧ test_mode < 14 →
      (ad9250_jesd204b_test_mode h bus dev test_mode).1 = 0) ∧
    (ad9250_jesd204b_test_mode ad9250_h_model deadBus devDead 0).2.spi_desc.sent
      = [xfer3 [128, 97, 0]] ∧
    (deadBus.write_and_read devDead.spi_desc.state [128, 97, 0] 3).1 = -1 ∧
    (ad9250_set_bits_to_reg deadBus devDead ad9250_h_model.AD9250_REG_204B_CTRL3 0 15).1 = -1 ∧
    (ad9250_jesd204b_test_mode ad9250_h_model deadBus devDead 0).1 = 0 := by
  refine ⟨?_, by decide, by decide, by decide, by decide⟩
  intro σ h bus dev test_mode hm
  unfold ad9250_jesd204b_test_mode
  rw [if_pos ⟨by omega, hm.2⟩]

/-- C19: the divergence window. Against the staging stub, from a freshly
initialised handle and for a one-byte shadowed address `A` (shadow index
1..14, device address other than 0xFF and shadowed in the stub): after
`ad9250_write(dev, A, 0x05)` the shadow slot of `A` and the current-value step
of `ad9250_set_bits_to_reg` give 0x05 while `ad9250_read(dev, A)` still returns
the value it returned before the write; then `ad9250_transfer(dev)` returns 0
and afterwards `ad9250_read(dev, A)` returns 0x05. -/
theorem divergence_window (shadowed : Nat → Bool) (dev : ad9250_dev StagedDevice) (A : Int)
    (hfresh : dev.shadow_regs = shadow_regs)
    (hL : AD9250_TRANSF_LEN A = 1)
    (hk : 1 ≤ ad9250_is_shadow_register A ∧ ad9250_is_shadow_register A ≤ 14)
    (ha : AD9250_ADDR A ≠ 255)
    (hsh : shadowed (AD9250_ADDR A).toNat = true) :
    (ad9250_write (stagedBus shadowed) dev A 5).1 = 0 ∧
    (ad9250_write (stagedBus shadowed) dev A 5).2.shadow_regs[
      (ad9250_is_shadow_register A).toNat]? = some 5 ∧
    (readOrShadow (stagedBus shadowed) (ad9250_write (stagedBus shadowed) dev A 5).2 A).2.1 = 5 ∧
    (ad9250_read (stagedBus shadowed) (ad9250_write (stagedBus shadowed) dev A 5).2 A).1
      = (ad9250_read (stagedBus shadowed) dev A).1 ∧
    (ad9250_transfer (stagedBus shadowed)
      (ad9250_read (stagedBus shadowed) (ad9250_write (stagedBus shadowed) dev A 5).2 A).2).1
      = 0 ∧
    (ad9250_read (stagedBus shadowed)
      (ad9250_transfer (stagedBus shadowed)
        (ad9250_read (stagedBus shadowed)
          (ad9250_write (stagedBus shadowed) dev A 5).2 A).2).2 A).1 = 5 := by
  obtain ⟨a, hA⟩ := Int.eq_ofNat_of_zero_le (AD9250_ADDR_range A).1
  have ha255 : a < 255 := by have := (AD9250_ADDR_range A).2; omega
  have hat : (AD9250_ADDR A).toNat = a := by omega
  rw [hat] at hsh
  have hpos : ad9250_is_shadow_register A > 0 := by omega
  have hfr : frame (AD9250_READ + AD9250_ADDR A) 0 = [128, a, 0] := by
    have := frame_read_addr a 0 (by omega) (by omega)
    simpa [hA] using this
  have hfw : frame (AD9250_WRITE + AD9250_ADDR A) (((5 : Int) % 256).toNat) = [0, a, 5] := by
    have := frame_write_addr a 0 5 (by omega) (by omega)
    simpa [hA] using this
  -- a raw read on any handle of the stub returns the active register
  have hread : ∀ d : ad9250_dev StagedDevice,
      ad9250_read (stagedBus shadowed) d A =
        (((d.spi_desc.state.active a % 256 : Nat) : Int),
         { spi_desc := { state := d.spi_desc.state,
                         sent := d.spi_desc.sent ++ [xfer3 [128, a, 0]] },
           shadow_regs := d.shadow_regs }) := by
    intro d
    rw [ad9250_read_one _ d A hL, hfr, staged_read _ _ a ha255]
    simp only [dataByte, List.getD_cons_succ, List.getD_cons_zero]
    rw [if_neg (by decide)]
  -- the write reaches only the staged register
  have hwrite : ad9250_write (stagedBus shadowed) dev A 5 =
      (0, { spi_desc :=
              { state := { active := dev.spi_desc.state.active,
                           staged := fun y => if y = a then 5 else dev.spi_desc.state.staged y },
                sent := dev.spi_desc.sent ++ [xfer3 [0, a, 5]] },
            shadow_regs := dev.shadow_regs.set (ad9250_is_shadow_register A).toNat 5 }) := by
    rw [ad9250_write_one _ dev A 5 hL, hfw, staged_write_shadowed _ _ a 5 ha255 hsh,
      if_pos hpos]
  have hslot : (dev.shadow_regs.set (ad9250_is_shadow_register A).toNat 5)[
      (ad9250_is_shadow_register A).toNat]? = some 5 := by
    rw [List.getElem?_set_self]
    rw [hfresh]
    have : shadow_regs.length = 15 := by decide
    omega
  refine ⟨by rw [hwrite], by rw [hwrite]; exact hslot, ?_, ?_, ?_, ?_⟩
  · unfold readOrShadow
    simp only [ad9250_is_shadow_register_wrap, if_pos hpos]
    rw [hwrite]
    simp only
    rw [List.getD_eq_getElem?_getD, hslot]
    decide
  · rw [hwrite, hread, hread]
  · rw [hwrite, hread]
    unfold ad9250_transfer
    simp only [ad9250_write_device_update, staged_write_update]
    rw [if_neg (by decide)]
    show (ad9250_transfer_loop _ (65534 + 1) _).1 = 0
    rw [transfer_loop_first_poll _ _ _ (by simp only [staged_read_update]; decide)
      (by simp only [staged_read_update]; decide)]
  · rw [hwrite, hread]
    unfold ad9250_transfer
    simp only [ad9250_write_device_update, staged_write_update]
    rw [if_neg (by decide)]
    have h65 : (0xFFFF : Nat) = 65534 + 1 := by norm_num
    rw [h65, transfer_loop_first_poll _ _ _ (by simp only [staged_read_update]; decide)
      (by simp only [staged_read_update]; decide), hread]
    simp only [staged_read_update, hsh, if_true]
    norm_num

/-- Witness for C19: the scenario on the register at address 0x18 with shadow
index 7, the device holding 0x03 everywhere: the raw read still returns 0x03
after the write and 0x05 after the transfer. -/
theorem divergence_window_witness :
    devStaged.shadow_regs = shadow_regs ∧ AD9250_TRANSF_LEN 459032 = 1 ∧
    (1 ≤ ad9250_is_shadow_register 459032 ∧ ad9250_is_shadow_register 459032 ≤ 14) ∧
    AD9250_ADDR 459032 ≠ 255 ∧ shadowedVref (AD9250_ADDR 459032).toNat = true ∧
    (ad9250_read (stagedBus shadowedVref) devStaged 459032).1 = 3 ∧
    (ad9250_read (stagedBus shadowedVref)
      (ad9250_write (stagedBus shadowedVref) devStaged 459032 5).2 459032).1 = 3 ∧
    (ad9250_read (stagedBus shadowedVref)
      (ad9250_transfer (stagedBus shadowedVref)
        (ad9250_read (stagedBus shadowedVref)
          (ad9250_write (stagedBus shadowedVref) devStaged 459032 5).2 459032).2).2
      459032).1 = 5 :=
  ⟨rfl, by decide, by decide, by decide, by decide, by decide, by decide,
    (divergence_window shadowedVref devStaged 459032 rfl (by decide) (by decide) (by decide)
      (by decide)).2.2.2.2.2⟩

/-- C21 fails on the code: in their set branch `ad9250_chip_pwr_mode` and
`ad9250_test_mode` return the status of `ad9250_set_bits_to_reg`, which is 0
or -1, never the mode that was set; with a transport whose exchanges succeed
they return 0 for every mode in range. On the register-file stub
`ad9250_chip_pwr_mode(dev, 1)` reads the power-down register, writes 1 to it
and returns 0, and `ad9250_test_mode(dev, 4)` writes 4 to the test register
and returns 0. -/
theorem set_returns_status_not_mode :
    (∀ {σ : Type} (h : ad9250_h) (bus : Bus σ) (dev : ad9250_dev σ) (mode : Int),
      0 ≤ mode ∧ mode < 3 →
      ((ad9250_chip_pwr_mode h bus dev mode).1 = 0 ∨
        (ad9250_chip_pwr_mode h bus dev mode).1 = -1) ∧
      ((∀ s f n, (bus.write_and_read s f n).1 ≠ -1) →
        AD9250_TRANSF_LEN h.AD9250_REG_PDWN ≤ 3 →
        (ad9250_chip_pwr_mode h bus dev mode).1 = 0)) ∧
    (∀ {σ : Type} (h : ad9250_h) (bus : Bus σ) (dev : ad9250_dev σ) (mode : Int),
      0 ≤ mode ∧ mode < 16 →
      ((ad9250_test_mode h bus dev mode).1 = 0 ∨
        (ad9250_test_mode h bus dev mode).1 = -1) ∧
      ((∀ s f n, (bus.write_and_read s f n).1 ≠ -1) →
        AD9250_TRANSF_LEN h.AD9250_REG_TEST ≤ 3 →
        (ad9250_test_mode h bus dev mode).1 = 0)) ∧
    ((ad9250_chip_pwr_mode ad9250_h_model regfile devRegfile 1).2.spi_desc.sent
        = [xfer3 [128, 8, 0], xfer3 [0, 8, 1]] ∧
      (ad9250_chip_pwr_mode ad9250_h_model regfile devRegfile 1).2.spi_desc.state 8 = 1 ∧
      (ad9250_chip_pwr_mode ad9250_h_model regfile devRegfile 1).1 = 0) ∧
    ((ad9250_test_mode ad9250_h_model regfile devRegfile 4).2.spi_desc.sent
        = [xfer3 [0, 13, 4]] ∧
      (ad9250_test_mode ad9250_h_model regfile devRegfile 4).2.shadow_regs[3]? = some 4 ∧
      (ad9250_test_mode ad9250_h_model regfile devRegfile 4).1 = 0) := by
  refine ⟨?_, ?_, by decide, by decide⟩
  · intro σ h bus dev mode hm
    have hb : mode ≥ 0 ∧ mode < 3 := ⟨hm.1, hm.2⟩
    unfold ad9250_chip_pwr_mode
    simp only [if_pos hb]
    constructor
    · rcases set_bits_status bus dev h.AD9250_REG_PDWN (u8 (h.AD9250_PDWN_CHIP mode))
        (u8 (h.AD9250_PDWN_CHIP 0x3)) with h0 | h1
      · left; rw [h0]; decide
      · right; rw [h1]; decide
    · intro hbus hL
      rw [set_bits_ok bus hbus dev _ _ _ hL]
      decide
  · intro σ h bus dev mode hm
    have hb : mode ≥ 0 ∧ mode < 16 := ⟨hm.1, hm.2⟩
    unfold ad9250_test_mode
    simp only [if_pos hb]
    exact ⟨set_bits_status bus dev _ _ _, fun hbus hL => set_bits_ok bus hbus dev _ _ _ hL⟩

/-- C22, as stated, fails: for `k_frames = 0` (and likewise for 1) the
function returns 0 and the value it passes to `ad9250_write` is -1, which is
not in 0..31; on the register-file stub the data byte written to the
frames-per-multiframe register is 0xFF. -/
theorem set_frames_rounding_counterexample :
    (ad9250_jesd204b_set_frames ad9250_h_model regfile devRegfile 0).1 = 0 ∧
    (ad9250_jesd204b_set_frames ad9250_h_model regfile devRegfile 0).2
      = (ad9250_write regfile devRegfile ad9250_h_model.AD9250_REG_204B_PARAM_K (0 - 1)).2 ∧
    ¬ ((0 : Int) ≤ 0 - 1) ∧
    (ad9250_jesd204b_set_frames ad9250_h_model regfile devRegfile 0).2.spi_desc.sent
      = [xfer3 [0, 112, 255]] ∧
    (ad9250_jesd204b_set_frames ad9250_h_model regfile devRegfile 1).1 = 0 ∧
    (ad9250_jesd204b_set_frames ad9250_h_model regfile devRegfile 1).2.spi_desc.sent
      = [xfer3 [0, 112, 255]] := by
  refine ⟨by decide, ?_, by decide, by decide, by decide, by decide⟩
  rw [set_frames_set ad9250_h_model regfile regfile_never_fails devRegfile 0 (by decide)]
  rfl

/-- C22, amended: for every `k_frames` in 0..32 and a transport whose exchanges
succeed, `ad9250_jesd204b_set_frames` returns `r` with `r mod 4 = 0`,
`0 <= r <= 32` and `|r - k_frames| <= 2` (`r = k_frames` for a multiple of 4,
remainder 1 rounds down, remainders 2 and 3 round up), and the value it passes
to `ad9250_write` for `AD9250_REG_204B_PARAM_K` is `r - 1`. For `k_frames` in
2..32 that value lies in 3..31, a valid register value; for `k_frames` 0 and 1
it is -1. -/
theorem set_frames_rounding {σ : Type} (h : ad9250_h) (bus : Bus σ) (dev : ad9250_dev σ)
    (k_frames : Int) (hk : 0 ≤ k_frames ∧ k_frames ≤ 32)
    (hbus : ∀ s f n, (bus.write_and_read s f n).1 ≠ -1) :
    (ad9250_jesd204b_set_frames h bus dev k_frames).1 % 4 = 0 ∧
    (0 ≤ (ad9250_jesd204b_set_frames h bus dev k_frames).1 ∧
      (ad9250_jesd204b_set_frames h bus dev k_frames).1 ≤ 32) ∧
    ((ad9250_jesd204b_set_frames h bus dev k_frames).1 - k_frames ≤ 2 ∧
      k_frames - (ad9250_jesd204b_set_frames h bus dev k_frames).1 ≤ 2) ∧
    (k_frames % 4 = 0 → (ad9250_jesd204b_set_frames h bus dev k_frames).1 = k_frames) ∧
    (k_frames % 4 = 1 → (ad9250_jesd204b_set_frames h bus dev k_frames).1 = k_frames - 1) ∧
    (k_frames % 4 = 2 → (ad9250_jesd204b_set_frames h bus dev k_frames).1 = k_frames + 2) ∧
    (k_frames % 4 = 3 → (ad9250_jesd204b_set_frames h bus dev k_frames).1 = k_frames + 1) ∧
    (ad9250_jesd204b_set_frames h bus dev k_frames).2
      = (ad9250_write bus dev h.AD9250_REG_204B_PARAM_K
          ((ad9250_jesd204b_set_frames h bus dev k_frames).1 - 1)).2 ∧
    (2 ≤ k_frames →
      3 ≤ (ad9250_jesd204b_set_frames h bus dev k_frames).1 - 1 ∧
      (ad9250_jesd204b_set_frames h bus dev k_frames).1 - 1 ≤ 31) ∧
    (k_frames ≤ 1 → (ad9250_jesd204b_set_frames h bus dev k_frames).1 - 1 = -1) := by
  rw [set_frames_set h bus hbus dev k_frames hk]
  simp only
  refine ⟨by omega, by omega, by omega, by omega, by omega, by omega, by omega, trivial,
    by omega, by omega⟩

/-- Witness for C22 (amended): on the register-file stub, asking for 6 frames
sets 8: the function returns 8 and writes 7 to the frames-per-multiframe
register. -/
theorem set_frames_rounding_witness :
    ((0 : Int) ≤ 6 ∧ (6 : Int) ≤ 32) ∧
    (∀ s f n, (regfile.write_and_read s f n).1 ≠ -1) ∧
    (ad9250_jesd204b_set_frames ad9250_h_model regfile devRegfile 6).1 = 8 ∧
    (ad9250_jesd204b_set_frames ad9250_h_model regfile devRegfile 6).2.spi_desc.sent
      = [xfer3 [0, 112, 7]] ∧
    (ad9250_jesd204b_set_frames ad9250_h_model regfile devRegfile 6).1 % 4 = 0 :=
  ⟨by decide, regfile_never_fails, by decide, by decide,
    (set_frames_rounding ad9250_h_model regfile devRegfile 6 (by decide)
      regfile_never_fails).1⟩

/-- C23: `ad9250_setup` initialises the shadow table of the handle from the
constant defaults table. Whatever the fresh handle's 15-entry array holds, the
copy loop leaves every slot `i` equal to `shadow_regs[i]` (slot 0 = 0, slot 1
CLOCK = 0x01, slot 6 OUT_MODE = 0x01, all others 0), so every handle starts
from the same values; the defaults table is a constant, which no function
writes. A set-up that does not return -1 stores a handle, and in a stored
handle every slot that is not the slot of a register set-up writes to still
holds its default: with the shadow indices of the table comments these are the
slots TEST = 3, BIST = 4, OFFSET = 5, DCC_CTRL = 9, DCC_VAL = 10 and the
sentinel slot 0. -/
theorem setup_shadow_defaults {σ : Type} (h : ad9250_setup_h) (bus : Bus σ) (mem : List Int)
    (spi : Int × σ) (st : ad9250_state) (hmem : mem.length = SHADOW_REGISTER_COUNT) :
    ad9250_setup_copy SHADOW_REGISTER_COUNT 0 mem = shadow_regs ∧
    (∀ i : Nat, i < SHADOW_REGISTER_COUNT →
      (ad9250_setup_copy SHADOW_REGISTER_COUNT 0 mem)[i]? = shadow_regs[i]?) ∧
    shadow_regs = [0, 1, 0, 0, 0, 0, 1, 0, 0, 0, 0, 0, 0, 0, 0] ∧
    (∀ mem2 : List Int, mem2.length = SHADOW_REGISTER_COUNT →
      ad9250_setup_copy SHADOW_REGISTER_COUNT 0 mem2
        = ad9250_setup_copy SHADOW_REGISTER_COUNT 0 mem) ∧
    ((ad9250_setup h bus (some mem) spi st).1 ≠ -1 →
      ∃ d : ad9250_dev σ, (ad9250_setup h bus (some mem) spi st).2 = some d) ∧
    (∀ j : Nat,
      (∀ A ∈ ad9250_setup_registers h, 0 < ad9250_is_shadow_register A →
        j ≠ (ad9250_is_shadow_register A).toNat) →
      ∀ d : ad9250_dev σ, (ad9250_setup h bus (some mem) spi st).2 = some d →
        d.shadow_regs[j]? = shadow_regs[j]?) ∧
    (h.ShadowIndices →
      ∀ d : ad9250_dev σ, (ad9250_setup h bus (some mem) spi st).2 = some d →
        d.shadow_regs[0]? = some 0 ∧ d.shadow_regs[3]? = some 0 ∧
        d.shadow_regs[4]? = some 0 ∧ d.shadow_regs[5]? = some 0 ∧
        d.shadow_regs[9]? = some 0 ∧ d.shadow_regs[10]? = some 0) := by
  have hc := ad9250_setup_copy_eq mem hmem
  refine ⟨hc, ?_, rfl, ?_, setup_stored_of_success h bus (some mem) spi st, ?_, ?_⟩
  · intro i _
    rw [hc]
  · intro mem2 hmem2
    rw [hc, ad9250_setup_copy_eq mem2 hmem2]
  · intro j hj
    exact setup_slot h bus mem spi st hmem j hj
  · intro hS d hd
    have key : ∀ j : Nat, j = 0 ∨ j = 3 ∨ j = 4 ∨ j = 5 ∨ j = 9 ∨ j = 10 →
        d.shadow_regs[j]? = shadow_regs[j]? := by
      intro j hj
      exact setup_slot h bus mem spi st hmem j (shadow_indices_slot h hS j hj) d hd
    refine ⟨?_, ?_, ?_, ?_, ?_, ?_⟩
    · rw [key 0 (by omega)]; rfl
    · rw [key 3 (by omega)]; rfl
    · rw [key 4 (by omega)]; rfl
    · rw [key 5 (by omega)]; rfl
    · rw [key 9 (by omega)]; rfl
    · rw [key 10 (by omega)]; rfl

/-- Witness for C23: a set-up against the stub whose registers all read back 0,
from a fresh handle whose array holds 7 everywhere, returns 0 and stores a
handle whose shadow table holds the written values in the slots CLOCK = 1,
VREF = 7, FAST_DETECT = 11 and FD_UPPER_THD = 12 and the defaults elsewhere. -/
theorem setup_shadow_defaults_witness :
    (List.replicate 15 (7 : Int)).length = SHADOW_REGISTER_COUNT ∧
    ad9250_setup_h_model.ShadowIndices ∧
    ad9250_setup_copy SHADOW_REGISTER_COUNT 0 (List.replicate 15 7) = shadow_regs ∧
    (ad9250_setup ad9250_setup_h_model (constBus 0) (some (List.replicate 15 7)) (0, ())
      stModel).1 = 0 ∧
    (ad9250_setup ad9250_setup_h_model (constBus 0) (some (List.replicate 15 7)) (0, ())
      stModel).2.map (fun d => d.shadow_regs)
      = some [0, 1, 0, 0, 0, 0, 1, 5, 0, 0, 0, 1, 4660, 0, 0] :=
  ⟨by decide, by unfold ad9250_setup_h.ShadowIndices; decide,
    (setup_shadow_defaults ad9250_setup_h_model (constBus 0) (List.replicate 15 7) (0, ())
      stModel (by decide)).1,
    by decide, by decide⟩

/-- C24: `ad9250_setup` ends with a sync. The frames of an `ad9250_transfer`
are the write of `AD9250_DEVICE_UPDATE_SW` to `AD9250_REG_DEVICE_UPDATE` (not a
shadowed register) followed by polling reads of it. In every run, a handle is
stored into `*device` only as the handle the final `ad9250_transfer` left, and
the status is that of this transfer. In every run in which the SPI
initialisation and all bus exchanges succeed (the registers read having at
most 3 bytes), the status is 0 and the traffic is: the traffic up to the first
transfer; that transfer; the traffic of `ad9250_jesd204b_setup`; the four
writes of `ad9250_fast_detect_setup`; and last the final transfer, a write of
the update bit followed by `m` polling reads, `1 <= m <= 65535`. So every
frame of an earlier write is followed by the final transfer. -/
theorem setup_ends_with_sync {σ : Type} (h : ad9250_setup_h) (bus : Bus σ)
    (no_os_malloc : Option (List Int)) (spi : Int × σ) (st : ad9250_state) :
    writeFrames AD9250_REG_DEVICE_UPDATE AD9250_DEVICE_UPDATE_SW = [[0, 255, 1]] ∧
    readFrames AD9250_REG_DEVICE_UPDATE = [[128, 255, 0]] ∧
    ad9250_is_shadow_register AD9250_REG_DEVICE_UPDATE = 0 ∧
    (∀ d : ad9250_dev σ, (ad9250_setup h bus no_os_malloc spi st).2 = some d →
      ∃ (dF : ad9250_dev σ) (m : Nat), m ≤ 65535 ∧
        d = (ad9250_transfer bus dF).2 ∧
        (ad9250_setup h bus no_os_malloc spi st).1 = (ad9250_transfer bus dF).1 ∧
        d.spi_desc.sent = dF.spi_desc.sent ++
          xfer3 [0, 255, 1] :: List.replicate m (xfer3 [128, 255, 0])) ∧
    (∀ mem : List Int, no_os_malloc = some mem → spi.1 ≠ -1 →
      (∀ s f n, (bus.write_and_read s f n).1 ≠ -1) → h.ReadLengths →
      ∃ (dW dT dJ dF d : ad9250_dev σ) (m1 m : Nat),
        ad9250_setup h bus no_os_malloc spi st = (0, some d) ∧
        dT = (ad9250_transfer bus dW).2 ∧
        dJ = (ad9250_jesd204b_setup h bus st dT).2 ∧
        dF = (ad9250_fast_detect_setup h bus st dJ).2 ∧
        d = (ad9250_transfer bus dF).2 ∧
        (1 ≤ m1 ∧ m1 ≤ 65535) ∧
        dT.spi_desc.sent = dW.spi_desc.sent ++
          xfer3 [0, 255, 1] :: List.replicate m1 (xfer3 [128, 255, 0]) ∧
        (∃ l, dJ.spi_desc.sent = dT.spi_desc.sent ++ l) ∧
        dF.spi_desc.sent = dJ.spi_desc.sent ++
          (writeFrames h.AD9250_REG_FAST_DETECT
              (lor32 (lor32 (lor32
                (h.AD9250_FAST_DETECT_OUTPUT_ENABLE * st.p_fd.en_fd)
                (h.AD9250_FAST_DETECT_FORCE_FDA_FDB_VAL * st.p_fd.pin_force_value))
                (h.AD9250_FAST_DETECT_FORCE_FDA_FDB_PIN * st.p_fd.force_pins))
                (h.AD9250_FAST_DETECT_PIN_FCT * st.p_fd.pin_function)) ++
            writeFrames h.AD9250_REG_FD_UPPER_THD st.p_fd.fd_upper_tresh ++
            writeFrames h.AD9250_REG_FD_LOWER_THD st.p_fd.fd_lower_tresh ++
            writeFrames h.AD9250_REG_FD_DWELL_TIME st.p_fd.df_dwell_time).map xfer3 ∧
        (1 ≤ m ∧ m ≤ 65535) ∧
        d.spi_desc.sent = dF.spi_desc.sent ++
          xfer3 [0, 255, 1] :: List.replicate m (xfer3 [128, 255, 0])) := by
  refine ⟨by decide, by decide, by decide, ?_, ?_⟩
  · unfold ad9250_setup
    split
    · intro d hd
      simp at hd
    · simp only
      split
      · intro d hd
        simp at hd
      · repeat
          (refine orReturnNone_elim (fun y => ∀ d : ad9250_dev σ, y.2 = some d →
            ∃ (dF : ad9250_dev σ) (m : Nat), m ≤ 65535 ∧
              d = (ad9250_transfer bus dF).2 ∧ y.1 = (ad9250_transfer bus dF).1 ∧
              d.spi_desc.sent = dF.spi_desc.sent ++
                xfer3 [0, 255, 1] :: List.replicate m (xfer3 [128, 255, 0])) _ _
            (fun _ d hd => by simp at hd) (fun _ => ?_))
        intro d hd
        simp only [Option.some.injEq] at hd
        obtain ⟨m, hm, _, hs⟩ := ad9250_transfer_sent bus _
        exact ⟨_, m, hm, hd.symm, rfl, by rw [← hd]; exact hs⟩
  · intro mem hmem hspi hbus hR
    subst hmem
    have hPD : AD9250_TRANSF_LEN h.AD9250_REG_PDWN ≤ 3 := by
      unfold ad9250_setup_h.ReadLengths at hR
      exact hR _ (by simp)
    have key : ∀ dW : ad9250_dev σ, ∃ (dT dJ dF d : ad9250_dev σ) (m1 m : Nat),
        ((ad9250_transfer bus (ad9250_fast_detect_setup h bus st
            (ad9250_jesd204b_setup h bus st (ad9250_transfer bus dW).2).2).2).1,
          some (ad9250_transfer bus (ad9250_fast_detect_setup h bus st
            (ad9250_jesd204b_setup h bus st (ad9250_transfer bus dW).2).2).2).2)
          = ((0 : Int), some d) ∧
        dT = (ad9250_transfer bus dW).2 ∧
        dJ = (ad9250_jesd204b_setup h bus st dT).2 ∧
        dF = (ad9250_fast_detect_setup h bus st dJ).2 ∧
        d = (ad9250_transfer bus dF).2 ∧
        (1 ≤ m1 ∧ m1 ≤ 65535) ∧
        dT.spi_desc.sent = dW.spi_desc.sent ++
          xfer3 [0, 255, 1] :: List.replicate m1 (xfer3 [128, 255, 0]) ∧
        (∃ l, dJ.spi_desc.sent = dT.spi_desc.sent ++ l) ∧
        dF.spi_desc.sent = dJ.spi_desc.sent ++
          (writeFrames h.AD9250_REG_FAST_DETECT
              (lor32 (lor32 (lor32
                (h.AD9250_FAST_DETECT_OUTPUT_ENABLE * st.p_fd.en_fd)
                (h.AD9250_FAST_DETECT_FORCE_FDA_FDB_VAL * st.p_fd.pin_force_value))
                (h.AD9250_FAST_DETECT_FORCE_FDA_FDB_PIN * st.p_fd.force_pins))
                (h.AD9250_FAST_DETECT_PIN_FCT * st.p_fd.pin_function)) ++
            writeFrames h.AD9250_REG_FD_UPPER_THD st.p_fd.fd_upper_tresh ++
            writeFrames h.AD9250_REG_FD_LOWER_THD st.p_fd.fd_lower_tresh ++
            writeFrames h.AD9250_REG_FD_DWELL_TIME st.p_fd.df_dwell_time).map xfer3 ∧
        (1 ≤ m ∧ m ≤ 65535) ∧
        d.spi_desc.sent = dF.spi_desc.sent ++
          xfer3 [0, 255, 1] :: List.replicate m (xfer3 [128, 255, 0]) := by
      intro dW
      obtain ⟨m1, hm1, hm1', hs1⟩ := ad9250_transfer_sent bus dW
      obtain ⟨m, hm, hm', hs⟩ := ad9250_transfer_sent bus (ad9250_fast_detect_setup h bus st
        (ad9250_jesd204b_setup h bus st (ad9250_transfer bus dW).2).2).2
      refine ⟨_, _, _, _, m1, m, ?_, rfl, rfl, rfl, rfl, ⟨hm1' hbus, hm1⟩, hs1,
        jesd204b_setup_sent_ext h bus st _, (fast_detect_setup_ok h bus hbus st _).2,
        ⟨hm' hbus, hm⟩, hs⟩
      rw [ad9250_transfer_ok bus hbus]
    unfold ad9250_setup
    simp only
    rw [if_neg hspi]
    rw [orReturnNone_ok _ _ (ad9250_write_ne bus hbus _ _ _),
      orReturnNone_ok _ _ (set_bits_ne bus hbus _ _ _ _ hPD),
      orReturnNone_ok _ _ (ad9250_write_ne bus hbus _ _ _),
      orReturnNone_ok _ _ (ad9250_write_ne bus hbus _ _ _),
      orReturnNone_ok _ _ (ad9250_write_ne bus hbus _ _ _),
      orReturnNone_ok _ _ (ad9250_write_ne bus hbus _ _ _),
      orReturnNone_ok _ _ (ad9250_transfer_ne bus hbus _),
      orReturnNone_ok _ _ (jesd204b_setup_ne h bus hbus hR st _),
      orReturnNone_ok _ _ (fast_detect_setup_ok h bus hbus st _).1]
    exact ⟨_, key _⟩

/-- Witness for C24: a set-up against the stub whose registers all read back 0
returns 0; its traffic has 55 frames and ends with the four fast-detect
writes, the write of the update bit and a single polling read. -/
theorem setup_ends_with_sync_witness :
    (∀ s f n, ((constBus 0).write_and_read s f n).1 ≠ -1) ∧
    ad9250_setup_h_model.ReadLengths ∧
    (ad9250_setup ad9250_setup_h_model (constBus 0) (some (List.replicate 15 7)) (0, ())
      stModel).1 = 0 ∧
    ((ad9250_setup ad9250_setup_h_model (constBus 0) (some (List.replicate 15 7)) (0, ())
      stModel).2.map (fun d => d.spi_desc.sent.drop 46))
      = some [xfer3 [0, 69, 1], xfer3 [0, 72, 18], xfer3 [0, 71, 52], xfer3 [0, 74, 0],
          xfer3 [0, 73, 0], xfer3 [0, 76, 0], xfer3 [0, 75, 0],
          xfer3 [0, 255, 1], xfer3 [128, 255, 0]] ∧
    ∃ d : ad9250_dev Unit,
      ad9250_setup ad9250_setup_h_model (constBus 0) (some (List.replicate 15 7)) (0, ())
        stModel = (0, some d) :=
  ⟨constBus_never_fails 0, by unfold ad9250_setup_h.ReadLengths; decide, by decide, by decide,
    by
      obtain ⟨_, _, _, _, d, _, _, hd, _⟩ :=
        (setup_ends_with_sync ad9250_setup_h_model (constBus 0) (some (List.replicate 15 7))
          (0, ()) stModel).2.2.2.2 _ rfl (by decide) (constBus_never_fails 0)
          (by unfold ad9250_setup_h.ReadLengths; decide)
      exact ⟨d, hd⟩⟩

/-- C25: the error sentinel is distinct from every valid register value. For
an address with transfer length `n` in 1..3 and any transport behaviour (any
response bytes) on which the exchanges of the read succeed, `ad9250_read`
returns a value `v` with `0 <= v < 256^n`, so `v` is not negative and is not
-1; hence a result of -1 always comes from a failed exchange. -/
theorem read_sentinel_distinct {σ : Type} (bus : Bus σ) (dev : ad9250_dev σ) (A : Int)
    (hn : 1 ≤ AD9250_TRANSF_LEN A ∧ AD9250_TRANSF_LEN A ≤ 3) :
    ((∀ r ∈ exchanges bus dev.spi_desc.state (readFrames A), r.1 ≠ -1) →
      0 ≤ (ad9250_read bus dev A).1 ∧
      (ad9250_read bus dev A).1 < 256 ^ (AD9250_TRANSF_LEN A).toNat ∧
      (ad9250_read bus dev A).1 ≠ -1) ∧
    ((ad9250_read bus dev A).1 = -1 →
      ∃ r ∈ exchanges bus dev.spi_desc.state (readFrames A), r.1 = -1) := by
  constructor
  · intro hok
    have h := ad9250_read_bound bus dev A hn.2 hok
    refine ⟨h.1, h.2, ?_⟩
    have := h.1
    omega
  · intro hm
    by_contra hex
    have hok : ∀ r ∈ exchanges bus dev.spi_desc.state (readFrames A), r.1 ≠ -1 := by
      intro r hr hr1
      exact hex ⟨r, hr, hr1⟩
    have := (ad9250_read_bound bus dev A hn.2 hok).1
    omega

/-- Witness for C25: against the stub whose registers all read back 0xFF, a
read of the three-byte register at address 0x10 returns 0xFFFFFF, which is
below 256^3 and is not -1. -/
theorem read_sentinel_distinct_witness :
    (1 ≤ AD9250_TRANSF_LEN 784 ∧ AD9250_TRANSF_LEN 784 ≤ 3) ∧
    (∀ r ∈ exchanges (constBus 255) devConst.spi_desc.state (readFrames 784), r.1 ≠ -1) ∧
    (ad9250_read (constBus 255) devConst 784).1 = 16777215 ∧
    (ad9250_read (constBus 255) devConst 784).1 ≠ -1 :=
  ⟨by decide, by decide, by decide,
    ((read_sentinel_distinct (constBus 255) devConst 784 (by decide)).1 (by decide)).2.2⟩

/-- C26 fails on the code: `ad9250_transfer` masks the polled value with
`AD9250_REG_DEVICE_UPDATE`, the address of the register, instead of the command
bit `AD9250_DEVICE_UPDATE_SW`, and polls again only if the result is 1. For a
polled byte `b` that test holds exactly when `b = 1`; so with a transport whose
exchanges succeed and whose device-update register reads back any byte other
than 0x01, the call issues the command write and a single polling read and
returns 0. Against the stub whose registers all read back 0x03, which has the
command bit set, `ad9250_transfer` stops after the first poll. -/
theorem transfer_stops_with_bit_set :
    (∀ b : Nat, b < 256 →
      (i8 (u32 (land32 (b : Int) AD9250_REG_DEVICE_UPDATE)) = 1 ↔ b = 1)) ∧
    (∀ {σ : Type} (bus : Bus σ) (dev : ad9250_dev σ),
      (∀ s f n, (bus.write_and_read s f n).1 ≠ -1) →
      (∀ s, dataByte ((bus.write_and_read s [128, 255, 0] 3).1,
        (bus.write_and_read s [128, 255, 0] 3).2.1) ≠ 1) →
      (ad9250_transfer bus dev).1 = 0 ∧
      (ad9250_transfer bus dev).2.spi_desc.sent
        = dev.spi_desc.sent ++ [xfer3 [0, 255, 1], xfer3 [128, 255, 0]]) ∧
    land32 3 AD9250_DEVICE_UPDATE_SW = 1 ∧
    (∀ s, dataByte (((constBus 3).write_and_read s [128, 255, 0] 3).1,
        ((constBus 3).write_and_read s [128, 255, 0] 3).2.1) = 3) ∧
    (ad9250_transfer (constBus 3) devConst).2.spi_desc.sent
      = [xfer3 [0, 255, 1], xfer3 [128, 255, 0]] ∧
    (ad9250_transfer (constBus 3) devConst).1 = 0 := by
  refine ⟨sw_bit_eq_one, ?_, by decide, fun _ => rfl, by decide, by decide⟩
  intro σ bus dev hbus hv
  unfold ad9250_transfer
  simp only [ad9250_write_device_update, if_neg (hbus _ _ _)]
  rw [show (0xFFFF : Nat) = 65534 + 1 from rfl,
    transfer_loop_first_poll bus 65534 _ (hbus _ _ _) (hv _)]
  simp

/-- C27: `ad9250_read` talks to the hardware unconditionally and ignores the
shadow table. For every address `A` (shadowed or not) with transfer length `n`
in 1..3 the first read frame is always issued, and all `n` frames `readFrames A`
are issued when the exchanges succeed; the shadow table is left as it was; and
for two handles that have the same transport descriptor and differ only in
the shadow table, `ad9250_read` returns the same value and leaves the same
descriptor (same frames sent, same transport state). -/
theorem ad9250_read_ignores_shadow {σ : Type} (bus : Bus σ) (dev dev2 : ad9250_dev σ)
    (A : Int) (hn : 1 ≤ AD9250_TRANSF_LEN A ∧ AD9250_TRANSF_LEN A ≤ 3)
    (h : dev2.spi_desc = dev.spi_desc) :
    (∃ rest : List Xfer, (ad9250_read bus dev A).2.spi_desc.sent
      = dev.spi_desc.sent ++ xfer3 (frame (AD9250_READ + AD9250_ADDR A) 0) :: rest) ∧
    ((∀ r ∈ exchanges bus dev.spi_desc.state (readFrames A), r.1 ≠ -1) →
      (ad9250_read bus dev A).2.spi_desc.sent
        = dev.spi_desc.sent ++ (readFrames A).map xfer3 ∧
      (readFrames A).length = (AD9250_TRANSF_LEN A).toNat) ∧
    (ad9250_read bus dev A).2.shadow_regs = dev.shadow_regs ∧
    (ad9250_read bus dev2 A).1 = (ad9250_read bus dev A).1 ∧
    (ad9250_read bus dev2 A).2.spi_desc = (ad9250_read bus dev A).2.spi_desc ∧
    (ad9250_read bus dev2 A).2.spi_desc.sent = (ad9250_read bus dev A).2.spi_desc.sent := by
  have hi := ad9250_read_indep bus dev2 dev A h
  refine ⟨ad9250_read_first_frame bus dev A hn.1, ?_, ad9250_read_shadow bus dev A,
    hi.1, hi.2, ?_⟩
  · intro hok
    rw [ad9250_read_traffic_ok bus dev A hok]
    exact ⟨rfl, readFrames_length A⟩
  · rw [hi.2]

/-- Witness for C27: on the register-file stub whose bytes are all zero, a read
of the shadowed register with index 7 returns the device byte 0 and sends one
read frame, whether slot 7 of the shadow table holds its default or 5. -/
theorem ad9250_read_ignores_shadow_witness :
    (1 ≤ AD9250_TRANSF_LEN 459032 ∧ AD9250_TRANSF_LEN 459032 ≤ 3) ∧
    ({ devRegfile with shadow_regs := devRegfile.shadow_regs.set 7 5 } :
      ad9250_dev (Nat → Nat)).spi_desc = devRegfile.spi_desc ∧
    (ad9250_read regfile devRegfile 459032).1 = 0 ∧
    (ad9250_read regfile devRegfile 459032).2.spi_desc.sent = [xfer3 [128, 24, 0]] ∧
    (ad9250_read regfile { devRegfile with shadow_regs := devRegfile.shadow_regs.set 7 5 }
      459032).1 = (ad9250_read regfile devRegfile 459032).1 :=
  ⟨by decide, rfl, by decide, by decide,
    (ad9250_read_ignores_shadow regfile devRegfile
      { devRegfile with shadow_regs := devRegfile.shadow_regs.set 7 5 } 459032
      (by decide) rfl).2.2.2.1⟩

/-- C28, as stated, fails in part (a): for the unshadowed two-byte register at
address 0 (whose address is below `n - 1`), with the second exchange failing,
`ad9250_set_bits_to_reg` returns -1 after the frames `[128, 0, 0]` and
`[127, 255, 0]`; the second frame of the read has bit 15 clear, so a
write-direction frame was issued. For the three-byte register at address 0 with
the third exchange failing, that frame was exchanged successfully and the
device byte at 0x7FFF, 9 before the call, is 0 after it. -/
theorem set_bits_no_recovery_counterexample :
    (ad9250_is_shadow_register 512 = 0 ∧ AD9250_TRANSF_LEN 512 = 2 ∧ AD9250_ADDR 512 = 0 ∧
     (ad9250_read (regfileFailAt 1) devFailAt 512).1 = -1 ∧
     (ad9250_set_bits_to_reg (regfileFailAt 1) devFailAt 512 0 0).1 = -1 ∧
     (ad9250_set_bits_to_reg (regfileFailAt 1) devFailAt 512 0 0).2.spi_desc.sent
       = [xfer3 [128, 0, 0], xfer3 [127, 255, 0]] ∧
     commandWord [127, 255, 0] / 32768 % 2 = 0) ∧
    (ad9250_is_shadow_register 768 = 0 ∧ AD9250_TRANSF_LEN 768 = 3 ∧ AD9250_ADDR 768 = 0 ∧
     (ad9250_read (regfileFailAt 2) devFailAt 768).1 = -1 ∧
     (ad9250_set_bits_to_reg (regfileFailAt 2) devFailAt 768 0 0).1 = -1 ∧
     (ad9250_set_bits_to_reg (regfileFailAt 2) devFailAt 768 0 0).2.spi_desc.sent
       = [xfer3 [128, 0, 0], xfer3 [127, 255, 0], xfer3 [127, 254, 0]] ∧
     devFailAt.spi_desc.state.2 32767 = 9 ∧
     (ad9250_set_bits_to_reg (regfileFailAt 2) devFailAt 768 0 0).2.spi_desc.state.2 32767
       = 0) := by
  decide

/-- C28, amended: `ad9250_set_bits_to_reg` has no partial-state recovery. For
8-bit `bits_value` and `mask`: (a) for an address with shadow index 0, if the
current-value `ad9250_read` fails, the call returns -1, its handle is the one
the read left (shadow table unchanged), and its only traffic is frames of that
read; if `AD9250_ADDR(A) >= n-1`, every frame the call sent has the read bit
(bit 15 of the command word) set: no write frame is issued; (b) for an address
with shadow index `k` in 1..14, if an exchange of the write-back fails, the
call returns -1 and slot `k` holds the new value
`((old mod 256) & ~mask) | bits_value`, not the old one. -/
theorem set_bits_no_recovery {σ : Type} (bus : Bus σ) (dev : ad9250_dev σ) (A : Int)
    (bits_value mask : Nat) (hb : bits_value < 256) (hm : mask < 256) :
    (ad9250_is_shadow_register A = 0 → (ad9250_read bus dev A).1 = -1 →
      (ad9250_set_bits_to_reg bus dev A bits_value mask).1 = -1 ∧
      (ad9250_set_bits_to_reg bus dev A bits_value mask).2 = (ad9250_read bus dev A).2 ∧
      (ad9250_set_bits_to_reg bus dev A bits_value mask).2.shadow_regs = dev.shadow_regs ∧
      (∃ j : Nat, (ad9250_set_bits_to_reg bus dev A bits_value mask).2.spi_desc.sent
        = dev.spi_desc.sent ++ ((readFrames A).take j).map xfer3) ∧
      (AD9250_TRANSF_LEN A - 1 ≤ AD9250_ADDR A →
        (∀ f ∈ readFrames A, f.getD 0 0 = 128) ∧
        ∀ l : List Xfer, (ad9250_set_bits_to_reg bus dev A bits_value mask).2.spi_desc.sent
            = dev.spi_desc.sent ++ l →
          ∀ x ∈ l, commandWord x.data / 32768 % 2 = 1)) ∧
    (1 ≤ ad9250_is_shadow_register A ∧ ad9250_is_shadow_register A ≤ 14 →
      dev.shadow_regs.length = SHADOW_REGISTER_COUNT →
      (∃ r ∈ exchanges bus dev.spi_desc.state (writeFrames A ((setBitsValue
          (dev.shadow_regs.getD (ad9250_is_shadow_register A).toNat 0)
          bits_value mask : Nat) : Int)), r.1 = -1) →
      setBitsValue (dev.shadow_regs.getD (ad9250_is_shadow_register A).toNat 0) bits_value mask
        = (((dev.shadow_regs.getD (ad9250_is_shadow_register A).toNat 0 % 256).toNat
            &&& (255 - mask)) ||| bits_value) ∧
      (ad9250_set_bits_to_reg bus dev A bits_value mask).1 = -1 ∧
      (ad9250_set_bits_to_reg bus dev A bits_value mask).2.shadow_regs[
          (ad9250_is_shadow_register A).toNat]?
        = some ((setBitsValue (dev.shadow_regs.getD (ad9250_is_shadow_register A).toNat 0)
            bits_value mask : Nat) : Int)) := by
  constructor
  · intro h0 hr
    have he := set_bits_read_failed bus dev A bits_value mask h0 hr
    rw [he]
    refine ⟨rfl, rfl, ad9250_read_shadow bus dev A, ad9250_read_sent_prefix bus dev A, ?_⟩
    intro ha
    refine ⟨readFrames_read_direction A ha, ?_⟩
    obtain ⟨j, hj⟩ := ad9250_read_sent_prefix bus dev A
    exact new_frames_forall (fun f => commandWord f / 32768 % 2 = 1) _ _ _ j hj
      (readFrames_commandWord A ha)
  · intro hk hlen hex
    have hw := ad9250_write_fail bus dev A _ hex
    have he := set_bits_shadowed bus dev A bits_value mask hb hm (by omega)
    rw [he, if_pos hw]
    exact ⟨rfl, hw, ad9250_write_slot bus dev A _ hk hlen⟩

/-- Witness for C28 (amended): on the transport whose every exchange fails,
setting bits in the unshadowed one-byte register at address 0x08 returns -1
after the single read frame, whose read bit is set; and setting bits 0x10 under
mask 0x30 in the shadowed register with index 6 (default 0x01) returns -1 and
leaves 0x11 in slot 6. -/
theorem set_bits_no_recovery_witness :
    (16 : Nat) < 256 ∧ (48 : Nat) < 256 ∧
    (ad9250_is_shadow_register 264 = 0 ∧ (ad9250_read deadBus devDead 264).1 = -1 ∧
      AD9250_TRANSF_LEN 264 - 1 ≤ AD9250_ADDR 264) ∧
    (ad9250_set_bits_to_reg deadBus devDead 264 16 48).2.spi_desc.sent
      = devDead.spi_desc.sent ++ [xfer3 [128, 8, 0]] ∧
    (∀ x ∈ [xfer3 [128, 8, 0]], commandWord x.data / 32768 % 2 = 1) ∧
    (1 ≤ ad9250_is_shadow_register 393492 ∧ ad9250_is_shadow_register 393492 ≤ 14) ∧
    devDead.shadow_regs.length = SHADOW_REGISTER_COUNT ∧
    devDead.shadow_regs[6]? = some 1 ∧
    (ad9250_set_bits_to_reg deadBus devDead 393492 16 48).1 = -1 ∧
    (ad9250_set_bits_to_reg deadBus devDead 393492 16 48).2.shadow_regs[6]? = some 17 :=
  ⟨by decide, by decide, by decide, by decide,
    (((set_bits_no_recovery deadBus devDead 264 16 48 (by decide) (by decide)).1
      (by decide) (by decide)).2.2.2.2 (by decide)).2 [xfer3 [128, 8, 0]] (by decide),
    by decide, by decide, by decide,
    ((set_bits_no_recovery deadBus devDead 393492 16 48 (by decide) (by decide)).2
      (by decide) (by decide) (by decide)).2.1,
    by decide⟩

/-- C29: shadow index extraction and bounds. For every register address `a`
(negative ones included; the bits are those of its 32-bit pattern),
`ad9250_is_shadow_register(a)` is the number formed by bits 16-23 of `a`: it
lies in 0..255, is 0 exactly when those bits are all zero, and is the same for
any address that agrees with `a` on bits 16-23. When the index is in 1..14 it
is below `SHADOW_REGISTER_COUNT`, the length of the defaults table, so the
table accesses of `ad9250_write` and `ad9250_set_bits_to_reg` are in bounds.
Slot 0 is never written by either function, and never read: the outcome of
`ad9250_set_bits_to_reg` is the same for two handles that differ in slot 0
only (`ad9250_write` reads no slot at all). -/
theorem shadow_index_bits (a : Int) :
    ad9250_is_shadow_register a = ((u32 a / 65536 % 256 : Nat) : Int) ∧
    (∀ i : Nat, (ad9250_is_shadow_register a).toNat.testBit i
      = (decide (i < 8) && (u32 a).testBit (16 + i))) ∧
    (0 ≤ ad9250_is_shadow_register a ∧ ad9250_is_shadow_register a ≤ 255) ∧
    (ad9250_is_shadow_register a = 0 ↔
      ∀ i : Nat, 16 ≤ i → i ≤ 23 → (u32 a).testBit i = false) ∧
    (∀ b : Int, (∀ i : Nat, 16 ≤ i → i ≤ 23 → (u32 b).testBit i = (u32 a).testBit i) →
      ad9250_is_shadow_register b = ad9250_is_shadow_register a) ∧
    (1 ≤ ad9250_is_shadow_register a ∧ ad9250_is_shadow_register a ≤ 14 →
      (ad9250_is_shadow_register a).toNat < SHADOW_REGISTER_COUNT ∧
      SHADOW_REGISTER_COUNT = shadow_regs.length ∧
      ∀ (l : List Int) (V : Int), l.length = SHADOW_REGISTER_COUNT →
        (l.set (ad9250_is_shadow_register a).toNat V).length = SHADOW_REGISTER_COUNT ∧
        (l.set (ad9250_is_shadow_register a).toNat V)[(ad9250_is_shadow_register a).toNat]?
          = some V) ∧
    (∀ {σ : Type} (bus : Bus σ) (dev : ad9250_dev σ) (V : Int) (bits_value mask : Nat),
      (ad9250_write bus dev a V).2.shadow_regs[0]? = dev.shadow_regs[0]? ∧
      (ad9250_set_bits_to_reg bus dev a bits_value mask).2.shadow_regs[0]?
        = dev.shadow_regs[0]?) ∧
    (∀ {σ : Type} (bus : Bus σ) (dev dev2 : ad9250_dev σ) (V : Int) (bits_value mask : Nat),
      dev2.spi_desc = dev.spi_desc →
      (∀ j : Nat, 1 ≤ j → dev2.shadow_regs[j]? = dev.shadow_regs[j]?) →
      ((ad9250_set_bits_to_reg bus dev2 a bits_value mask).1
        = (ad9250_set_bits_to_reg bus dev a bits_value mask).1 ∧
       (ad9250_set_bits_to_reg bus dev2 a bits_value mask).2.spi_desc
        = (ad9250_set_bits_to_reg bus dev a bits_value mask).2.spi_desc ∧
       (∀ j : Nat, 1 ≤ j →
        (ad9250_set_bits_to_reg bus dev2 a bits_value mask).2.shadow_regs[j]?
          = (ad9250_set_bits_to_reg bus dev a bits_value mask).2.shadow_regs[j]?)) ∧
      ((ad9250_write bus dev2 a V).1 = (ad9250_write bus dev a V).1 ∧
       (ad9250_write bus dev2 a V).2.spi_desc = (ad9250_write bus dev a V).2.spi_desc)) := by
  have hbit := ad9250_is_shadow_register_testBit
  have hr := ad9250_is_shadow_register_range a
  have hnat : ∀ x : Int, ad9250_is_shadow_register x
      = (((ad9250_is_shadow_register x).toNat : Nat) : Int) := by
    intro x
    have := ad9250_is_shadow_register_range x
    omega
  refine ⟨ad9250_is_shadow_register_u32 a, hbit a, hr, ?_, ?_, ?_, ?_, ?_⟩
  · constructor
    · intro h0 i h16 h23
      have h := hbit a (i - 16)
      rw [h0] at h
      have hi : 16 + (i - 16) = i := by omega
      have hlt : i - 16 < 8 := by omega
      simpa [hi, hlt] using h.symm
    · intro h
      rw [hnat a]
      have hz : (ad9250_is_shadow_register a).toNat = 0 := by
        apply Nat.eq_of_testBit_eq
        intro i
        rw [hbit a i, Nat.zero_testBit]
        by_cases hi : i < 8
        · simp [hi, h (16 + i) (by omega) (by omega)]
        · simp [hi]
      rw [hz]
      rfl
  · intro b hb
    rw [hnat a, hnat b]
    congr 1
    apply Nat.eq_of_testBit_eq
    intro i
    rw [hbit a i, hbit b i]
    by_cases hi : i < 8
    · simp [hi, hb (16 + i) (by omega) (by omega)]
    · simp [hi]
  · intro hk
    refine ⟨by unfold SHADOW_REGISTER_COUNT; omega, by decide, ?_⟩
    intro l V hl
    refine ⟨by rw [List.length_set, hl], ?_⟩
    rw [List.getElem?_set_self]
    rw [hl]
    unfold SHADOW_REGISTER_COUNT
    omega
  · intro σ bus dev V bits_value mask
    exact ⟨ad9250_write_slot_other bus dev a V 0 (by intro h; omega),
      set_bits_slot_other bus dev a bits_value mask 0 (by intro h; omega)⟩
  · intro σ bus dev dev2 V bits_value mask hspi hslots
    exact ⟨set_bits_indep_slot_zero bus dev dev2 a bits_value mask hspi hslots,
      ad9250_write_indep bus dev2 dev a V hspi⟩

/-- Witness for C29: the negative address `0x80070118 - 2^32`, whose bit 31 is
set, has shadow index 7, the number in its bits 16-23. -/
theorem shadow_index_bits_witness :
    (-2147024616 : Int) < 0 ∧ (u32 (-2147024616)).testBit 31 = true ∧
    ad9250_is_shadow_register (-2147024616) = 7 ∧
    ad9250_is_shadow_register (-2147024616)
      = ((u32 (-2147024616) / 65536 % 256 : Nat) : Int) :=
  ⟨by decide, by decide, by decide, (shadow_index_bits (-2147024616)).1⟩

/-- C30: the direction bit survives the address decrement. For an address `A`
with transfer length `n` in 1..3, the frames sent by `ad9250_read` and by
`ad9250_write` are leading frames of `readFrames A` and `writeFrames A V`. If
`AD9250_ADDR(A) >= n-1`, the command word of the `i`-th read frame is
`AD9250_READ + AD9250_ADDR(A) - i`: bit 15 set, low part `AD9250_ADDR(A) - i`;
and the command word of the `i`-th write frame is
`AD9250_WRITE + AD9250_ADDR(A) - i`: bit 15 clear, low part
`AD9250_ADDR(A) - i`. If `AD9250_ADDR(A) < n-1`, the decrement borrows into
the direction bit: frame number `AD9250_ADDR(A) + 1` of the read has command
word 0x7FFF (bit 15 clear) and that of the write has 0xFFFF (bit 15 set). -/
theorem direction_bit_survives {σ : Type} (bus : Bus σ) (dev : ad9250_dev σ) (A V : Int)
    (hn : 1 ≤ AD9250_TRANSF_LEN A ∧ AD9250_TRANSF_LEN A ≤ 3) :
    (∃ j : Nat, (ad9250_read bus dev A).2.spi_desc.sent
      = dev.spi_desc.sent ++ ((readFrames A).take j).map xfer3) ∧
    (∃ j : Nat, (ad9250_write bus dev A V).2.spi_desc.sent
      = dev.spi_desc.sent ++ ((writeFrames A V).take j).map xfer3) ∧
    (AD9250_TRANSF_LEN A - 1 ≤ AD9250_ADDR A →
      ∀ i : Nat, i < (AD9250_TRANSF_LEN A).toNat →
        (∃ f : List Nat, (readFrames A)[i]? = some f ∧
          (commandWord f : Int) = AD9250_READ + AD9250_ADDR A - (i : Int) ∧
          commandWord f / 32768 % 2 = 1 ∧
          commandWord f % 32768 = (AD9250_ADDR A).toNat - i) ∧
        (∃ f : List Nat, (writeFrames A V)[i]? = some f ∧
          (commandWord f : Int) = AD9250_WRITE + AD9250_ADDR A - (i : Int) ∧
          commandWord f / 32768 % 2 = 0 ∧
          commandWord f % 32768 = (AD9250_ADDR A).toNat - i)) ∧
    (AD9250_ADDR A < AD9250_TRANSF_LEN A - 1 →
      (AD9250_ADDR A).toNat + 1 < (AD9250_TRANSF_LEN A).toNat ∧
      (∃ f : List Nat, (readFrames A)[(AD9250_ADDR A).toNat + 1]? = some f ∧
        commandWord f = 32767 ∧ commandWord f / 32768 % 2 = 0) ∧
      (∃ f : List Nat, (writeFrames A V)[(AD9250_ADDR A).toNat + 1]? = some f ∧
        commandWord f = 65535 ∧ commandWord f / 32768 % 2 = 1)) := by
  have hr := AD9250_ADDR_range A
  refine ⟨ ad9250_read_sent_prefix bus dev A, ad9250_write_sent_prefix bus dev A V, ?_, ?_⟩
  · intro ha i hi
    refine ⟨⟨_, readFrames_getElem A i hi, ?_⟩, ⟨_, writeFrames_getElem A V i hi, ?_⟩⟩
    · rw [commandWord_frame]
      unfold AD9250_READ
      omega
    · rw [commandWord_frame]
      unfold AD9250_WRITE
      omega
  · intro ha
    have hi : (AD9250_ADDR A).toNat + 1 < (AD9250_TRANSF_LEN A).toNat := by omega
    refine ⟨hi, ⟨_, readFrames_getElem A _ hi, ?_⟩, ⟨_, writeFrames_getElem A V _ hi, ?_⟩⟩
    · rw [commandWord_frame]
      unfold AD9250_READ
      omega
    · rw [commandWord_frame]
      unfold AD9250_WRITE
      omega

/-- Witness for C30: for the three-byte register at address 0x10 the read
frames carry the command words 0x8010, 0x800F, 0x800E and the write frames
0x0010, 0x000F, 0x000E. -/
theorem direction_bit_survives_witness :
    (1 ≤ AD9250_TRANSF_LEN 784 ∧ AD9250_TRANSF_LEN 784 ≤ 3) ∧
    AD9250_TRANSF_LEN 784 - 1 ≤ AD9250_ADDR 784 ∧
    (readFrames 784).map commandWord = [32784, 32783, 32782] ∧
    (writeFrames 784 0).map commandWord = [16, 15, 14] ∧
    (∃ j : Nat, (ad9250_read regfile devRegfile 784).2.spi_desc.sent
      = devRegfile.spi_desc.sent ++ ((readFrames 784).take j).map xfer3) :=
  ⟨by decide, by decide, by decide, by decide,
    (direction_bit_survives regfile devRegfile 784 0 (by decide)).1⟩

end AD9250
